import Mathlib

/-!
# node-odbc: `ODBCConnection` (src/odbc_connection.cpp)

A shallow embedding of the connection component.  Each C++ member function is
a Lean function of the same name.  It takes the connection object, the work
data of the task and the answers of the ODBC driver, and returns the updated
objects together with the list of effects it performs, in program order
(mutex operations, driver calls, reference counting, constructions of wrapper
objects, the invocation of the user callback and releases of memory).

Handles and pointers are natural numbers, `0` being `NULL`.  Return codes are
integers.
Script strings are Lean strings; where the source takes the length of
one, the embedding counts UTF-16 code units or UTF-8 bytes as the source does.
-/

set_option linter.unusedVariables false

namespace NodeOdbc

/-! ## ODBC constants and driver answers -/

/-- An ODBC return code (`SQLRETURN`). -/
abbrev SQLRETURN := Int

/-- A native handle (`HENV`, `HDBC`, `HSTMT`) or heap pointer; `0` is `NULL`. -/
abbrev SQLHANDLE := Nat

/-- Modelled from the spec: `SQL_SUCCESS` of the ODBC header sql.h, which is
not under src/; one of the two success codes, value 0 in the ODBC standard. -/
def SQL_SUCCESS : SQLRETURN := 0

/-- Modelled from the spec: `SQL_SUCCESS_WITH_INFO` of the ODBC header sql.h,
which is not under src/; the second success code, value 1. -/
def SQL_SUCCESS_WITH_INFO : SQLRETURN := 1

/-- Modelled from the spec: `SQL_ERROR` of the ODBC header sql.h, which is not
under src/; a non-success code, value -1. -/
def SQL_ERROR : SQLRETURN := -1

/-- Modelled from the spec: `SQL_INVALID_HANDLE` of the ODBC header sql.h,
which is not under src/; a non-success code, value -2. -/
def SQL_INVALID_HANDLE : SQLRETURN := -2

/-- Modelled from the spec: `SQL_NO_DATA` of the ODBC header sql.h, which is
not under src/; a non-success code, value 100. -/
def SQL_NO_DATA : SQLRETURN := 100

/-- Modelled from the spec: the macro `SQL_SUCCEEDED` of the ODBC header
sql.h, which is not under src/; a success code is `SQL_SUCCESS` or
`SQL_SUCCESS_WITH_INFO`. -/
def SQL_SUCCEEDED (rc : SQLRETURN) : Bool :=
  rc == SQL_SUCCESS || rc == SQL_SUCCESS_WITH_INFO

/-- Modelled from the spec: completion type `SQL_COMMIT` of sql.h (value 0),
not under src/. -/
def SQL_COMMIT : Int := 0

/-- Modelled from the spec: completion type `SQL_ROLLBACK` of sql.h (value 1),
not under src/. -/
def SQL_ROLLBACK : Int := 1

/-- Modelled from the spec: `SQL_AUTOCOMMIT_OFF` of sqlext.h (value 0), not
under src/. -/
def SQL_AUTOCOMMIT_OFF : Nat := 0

/-- Modelled from the spec: `SQL_AUTOCOMMIT_ON` of sqlext.h (value 1), not
under src/. -/
def SQL_AUTOCOMMIT_ON : Nat := 1

/-- Modelled from the spec: value-type tag `SQL_C_CHAR` (narrow string) of
sql.h, not under src/. -/
def SQL_C_CHAR : Int := 1

/-- Modelled from the spec: value-type tag `SQL_C_LONG` (integer) of sql.h,
not under src/. -/
def SQL_C_LONG : Int := 4

/-- Modelled from the spec: value-type tag `SQL_C_DOUBLE` of sql.h, not under
src/. -/
def SQL_C_DOUBLE : Int := 8

/-- Modelled from the spec: value-type tag `SQL_C_BIT` (boolean) of sqlext.h,
not under src/. -/
def SQL_C_BIT : Int := -7

/-- Modelled from the spec: value-type tag `SQL_C_WCHAR` (wide string) of
sqlext.h, not under src/. -/
def SQL_C_WCHAR : Int := -8

/-- The handle kinds passed to `SQLAllocHandle`, `SQLFreeHandle`, `SQLEndTran`
and `GetSQLError`. -/
inductive HandleType where
  | SQL_HANDLE_ENV
  | SQL_HANDLE_DBC
  | SQL_HANDLE_STMT
  deriving DecidableEq, Repr

/-- The connection attributes set by this file. -/
inductive ConnectAttr where
  | SQL_ATTR_CONNECTION_TIMEOUT
  | SQL_ATTR_LOGIN_TIMEOUT
  | SQL_ATTR_AUTOCOMMIT
  deriving DecidableEq, Repr

/-- One diagnostic record attached to a handle by the driver. -/
structure DiagRec where
  state : String
  native : Int
  message : String
  deriving DecidableEq, Repr

/-- The structured error produced from the diagnostics of a handle. -/
structure SQLError where
  handleType : HandleType
  handle : SQLHANDLE
  message : Option String
  records : List DiagRec
  deriving DecidableEq, Repr

/-- Modelled from the spec: `ODBC::GetSQLError` (odbc.cpp, not under src/),
the diagnostic translator: it fetches all diagnostic records attached to the
given handle and produces a structured error carrying every record.  `diag`
is the list of records the handle carries when it is called; `message` is the
optional fallback message argument. -/
def GetSQLError (handleType : HandleType) (handle : SQLHANDLE)
    (message : Option String) (diag : List DiagRec) : SQLError :=
  { handleType := handleType, handle := handle, message := message, records := diag }

/-- The `Parameter` record (declared in odbc.h), one per positional SQL
parameter. -/
structure Parameter where
  ValueType : Int
  ParameterType : Int
  ColumnSize : Nat
  DecimalDigits : Int
  ParameterValuePtr : SQLHANDLE
  BufferLength : Int
  StrLen_or_IndPtr : Int
  deriving DecidableEq, Repr

/-- The script values that this file hands to callbacks, returns or throws. -/
inductive JsValue where
  | null
  | undefined
  | boolean (b : Bool)
  | holder
  | sqlError (e : SQLError)
  | error (msg : String)
  | typeError (msg : String)
  | odbcStatement (hENV hDBC hSTMT : SQLHANDLE)
  | odbcResult (hENV hDBC hSTMT : SQLHANDLE) (canFreeHandle : Bool)
  deriving DecidableEq, Repr

/-- The value of a property of an options object. -/
inductive JsProp where
  | undefined
  | null
  | boolean (b : Bool)
  | number (n : Int)
  | string (s : String)
  | array (params : List Parameter)
  | function
  | object
  deriving DecidableEq, Repr

/-- An argument the script passes to a method.  An array carries the parameter
list that `ODBC::GetParametersFromArray` (odbc.cpp, not under src/) converts
it to.  An object carries its `sql`, `params` and `noResults` properties,
`none` for a property it does not have; arrays and functions are taken to have
none of the three. -/
inductive JsArg where
  | undefined
  | null
  | boolean (b : Bool)
  | number (n : Int)
  | string (s : String)
  | array (params : List Parameter)
  | function
  | object (sql params noResults : Option JsProp)
  deriving DecidableEq, Repr

/-- The V8 test `IsString`. -/
def JsArg.IsString : JsArg → Bool
  | JsArg.string _ => true
  | _ => false

/-- The V8 test `IsArray`. -/
def JsArg.IsArray : JsArg → Bool
  | JsArg.array _ => true
  | _ => false

/-- The V8 test `IsFunction`. -/
def JsArg.IsFunction : JsArg → Bool
  | JsArg.function => true
  | _ => false

/-- The V8 test `IsObject`: true of every object value, arrays and functions
included. -/
def JsArg.IsObject : JsArg → Bool
  | JsArg.object _ _ _ => true
  | JsArg.array _ => true
  | JsArg.function => true
  | _ => false

/-- The text of a string argument. -/
def JsArg.text : JsArg → String
  | JsArg.string s => s
  | _ => ""

/-- The parameter list converted from an array argument. -/
def JsArg.parameters : JsArg → List Parameter
  | JsArg.array ps => ps
  | _ => []

/-- The `sql` property of an argument, when it has one. -/
def JsArg.sqlProp : JsArg → Option JsProp
  | JsArg.object sql _ _ => sql
  | _ => none

/-- The `params` property of an argument, when it has one. -/
def JsArg.paramsProp : JsArg → Option JsProp
  | JsArg.object _ params _ => params
  | _ => none

/-- The `noResults` property of an argument, when it has one. -/
def JsArg.noResultsProp : JsArg → Option JsProp
  | JsArg.object _ _ noResults => noResults
  | _ => none

/-- The blocks of memory released with `free` or `delete` by this file. -/
inductive Mem where
  | cb
  | connection
  | connectionString
  | data
  | req
  | params
  | sql
  | catalog
  | schema
  | table
  | type
  | column
  deriving DecidableEq, Repr

/-- The typed `delete` used for numeric and boolean parameter buffers. -/
inductive DeleteKind where
  | int64
  | double
  | bool
  deriving DecidableEq, Repr

/-- The worker functions handed to `uv_queue_work` by the async entry points. -/
inductive Work where
  | UV_Open
  | UV_Close
  | UV_CreateStatement
  | UV_Query
  | UV_Tables
  | UV_Columns
  | UV_BeginTransaction
  | UV_EndTransaction
  deriving DecidableEq, Repr

/-- The number of UTF-16 code units of one character: two for a character
outside the Basic Multilingual Plane, one otherwise. -/
def utf16Units (c : Char) : Nat := if c.toNat < 65536 then 1 else 2

/-- The `String::Length()` of the script engine (v8.h, not under src/): the
number of UTF-16 code units of a script string, not of its characters. -/
def Length (s : String) : Nat := (s.toList.map utf16Units).sum

/-- The `length()` of a `String::Value` (v8.h, not under src/), the wide
conversion of a script string: its number of UTF-16 code units. -/
def Value.length (s : String) : Nat := Length s

/-- The `length()` of a `String::Utf8Value` (v8.h, not under src/), the
narrow conversion of a script string: its number of bytes in UTF-8. -/
def Utf8Value.length (s : String) : Nat := s.utf8ByteSize

/-- The conversion of an `int` argument to `SQLSMALLINT`, the signed 16-bit
type of the `StringLength1` parameter of `SQLDriverConnect` (sql.h, not under
src/): the value is reduced modulo `2^16` into `-32768 .. 32767`. -/
def SQLSMALLINT.ofInt (n : Int) : Int := (n + 32768) % 65536 - 32768

/-- The observable effects of the connection code, named after the calls in
the source. -/
inductive Event where
  | uv_mutex_lock
  | uv_mutex_unlock
  | SQLDisconnect (hDBC : SQLHANDLE)
  | SQLFreeHandle (handleType : HandleType) (handle : SQLHANDLE)
  | SQLAllocHandle (handleType : HandleType) (parent : SQLHANDLE)
  | SQLSetConnectAttr (hDBC : SQLHANDLE) (attr : ConnectAttr) (value : Nat)
  | SQLDriverConnect (hDBC : SQLHANDLE) (connection : String) (StringLength1 : Int)
  | SQLGetFunctions (hDBC : SQLHANDLE)
  | SQLBindParameter (hSTMT : SQLHANDLE) (parameterNumber : Nat) (prm : Parameter)
  | SQLExecDirect (hSTMT : SQLHANDLE) (sql : Option String) (sqlLen : Nat)
  | SQLTables (hSTMT : SQLHANDLE) (catalog schema table type : Option String)
  | SQLColumns (hSTMT : SQLHANDLE) (catalog schema table column : Option String)
  | SQLEndTran (hDBC : SQLHANDLE) (completionType : Int)
  | GetSQLError (handleType : HandleType) (handle : SQLHANDLE)
  | uv_ref
  | uv_unref
  | Ref
  | Unref
  | NewODBCStatement (hENV hDBC hSTMT : SQLHANDLE)
  | NewODBCResult (hENV hDBC hSTMT : SQLHANDLE) (canFreeHandle : Bool)
  | Call (argv : List JsValue)
  | FatalException
  | free (m : Mem)
  | freeBuffer (ptr : SQLHANDLE)
  | deleteBuffer (kind : DeleteKind) (ptr : SQLHANDLE)
  | uv_queue_work (work : Work)
  | NanLowMemoryNotification
  deriving DecidableEq, Repr

/-- The answers of the ODBC driver during one operation: the return code of
each driver call the operation may issue, the values the driver writes
through out-pointers, and the diagnostic records it leaves on the handle;
and which of its two sets of entry points the build is compiled against. -/
structure Driver where
  /-- the return code of `SQLDriverConnect` -/
  rConnect : SQLRETURN
  /-- the return code of `SQLAllocHandle(SQL_HANDLE_STMT, ...)` -/
  rAllocStmt : SQLRETURN
  /-- the statement handle stored by `SQLAllocHandle` -/
  hSTMT : SQLHANDLE
  /-- the return code of `SQLGetFunctions` -/
  rGetFunctions : SQLRETURN
  /-- the value `SQLGetFunctions` stores for `SQL_API_SQLMORERESULTS` -/
  supported : Nat
  /-- the return code of `SQLFreeHandle(SQL_HANDLE_STMT, ...)` -/
  rFreeStmt : SQLRETURN
  /-- the return code of `SQLBindParameter` for the parameter at index `i` -/
  rBind : Nat → SQLRETURN
  /-- the return code of `SQLExecDirect` -/
  rExecDirect : SQLRETURN
  /-- the return code of `SQLTables` -/
  rTables : SQLRETURN
  /-- the return code of `SQLColumns` -/
  rColumns : SQLRETURN
  /-- the return code of `SQLEndTran` -/
  rEndTran : SQLRETURN
  /-- the return code of `SQLSetConnectAttr(SQL_ATTR_AUTOCOMMIT, ...)` -/
  rAutocommit : SQLRETURN
  /-- the records on the connection handle right after `SQLEndTran` -/
  diagEndTran : List DiagRec
  /-- the records on the inspected handle after the last driver call -/
  diag : List DiagRec
  /-- whether the build defines `UNICODE`, so that the wide-character entry
  points of the driver are called and `QuerySync` converts the SQL text with
  `String::Value` rather than `String::Utf8Value` -/
  UNICODE : Bool

/-! ## The connection object and the work data of the tasks -/

/-- The fields of the C++ class `ODBCConnection` used by this file. -/
structure ODBCConnection where
  m_hENV : SQLHANDLE
  m_hDBC : SQLHANDLE
  connected : Bool
  connectTimeout : Nat
  loginTimeout : Nat
  canHaveMoreResults : Nat
  deriving DecidableEq, Repr

/-- The work data of an `Open` task (`cb` and `conn` are passed separately). -/
structure open_connection_work_data where
  connection : String
  connectionLength : Int
  result : Int
  deriving DecidableEq, Repr

/-- The work data of a `Close` task. -/
structure close_connection_work_data where
  result : Int
  deriving DecidableEq, Repr

/-- The work data of a `CreateStatement` task. -/
structure create_statement_work_data where
  hSTMT : SQLHANDLE
  deriving DecidableEq, Repr

/-- The work data of a `Query`, `Tables`, `Columns`, `BeginTransaction` or
`EndTransaction` task.  The record is zero-filled by `calloc` on creation. -/
structure query_work_data where
  hSTMT : SQLHANDLE
  params : List Parameter
  paramCount : Nat
  completionType : Int
  noResultObject : Bool
  sql : Option String
  sqlLen : Nat
  catalog : Option String
  schema : Option String
  table : Option String
  type : Option String
  column : Option String
  result : Int
  deriving DecidableEq, Repr

/-- The zero-filled work data produced by `calloc(1, sizeof(query_work_data))`. -/
def query_work_data.calloc : query_work_data :=
  { hSTMT := 0, params := [], paramCount := 0, completionType := 0,
    noResultObject := false, sql := none, sqlLen := 0, catalog := none,
    schema := none, table := none, type := none, column := none, result := 0 }

/-- The events of `if (try_catch.HasCaught()) FatalException(try_catch);`. -/
def fatalIfCaught (hasCaught : Bool) : List Event :=
  if hasCaught then [Event.FatalException] else []

namespace ODBCConnection

/-! ## Free, Open -/

/-- The C++ `ODBCConnection::Free` (lines 92-105). -/
def Free (self : ODBCConnection) : ODBCConnection × List Event :=
  if self.m_hDBC ≠ 0 then
    if self.m_hDBC ≠ 0 then
      ({ self with m_hDBC := 0 },
        [Event.uv_mutex_lock,
         Event.SQLDisconnect self.m_hDBC,
         Event.SQLFreeHandle HandleType.SQL_HANDLE_DBC self.m_hDBC,
         Event.uv_mutex_unlock])
    else
      (self, [Event.uv_mutex_lock, Event.uv_mutex_unlock])
  else
    (self, [])

/-- The two optional timeout attribute calls shared by `UV_Open` and
`OpenSync` (lines 236-252 and 368-384). -/
def timeoutAttrs (self : ODBCConnection) : List Event :=
  (if self.connectTimeout > 0 then
    [Event.SQLSetConnectAttr self.m_hDBC ConnectAttr.SQL_ATTR_CONNECTION_TIMEOUT
      self.connectTimeout]
   else []) ++
  (if self.loginTimeout > 0 then
    [Event.SQLSetConnectAttr self.m_hDBC ConnectAttr.SQL_ATTR_LOGIN_TIMEOUT
      self.loginTimeout]
   else [])

/-- The C++ `ODBCConnection::UV_Open` (lines 226-290), run on a worker.  The
local `ret` is assigned by the connect call and then, when the connect
succeeded, by each of the three later driver calls in turn; its last value is
stored in `data->result`. -/
def UV_Open (self : ODBCConnection) (data : open_connection_work_data) (drv : Driver) :
    ODBCConnection × open_connection_work_data × List Event :=
  let pre := [Event.uv_mutex_lock] ++ timeoutAttrs self ++
    [Event.SQLDriverConnect self.m_hDBC data.connection
      (SQLSMALLINT.ofInt data.connectionLength)]
  let ret := drv.rConnect
  if SQL_SUCCEEDED ret then
    let hStmt := drv.hSTMT
    let ret := drv.rAllocStmt
    let ret := drv.rGetFunctions
    let self := { self with
      canHaveMoreResults := if !SQL_SUCCEEDED ret then 0 else drv.supported }
    let ret := drv.rFreeStmt
    (self, { data with result := ret },
      pre ++ [Event.SQLAllocHandle HandleType.SQL_HANDLE_STMT self.m_hDBC,
              Event.SQLGetFunctions self.m_hDBC,
              Event.SQLFreeHandle HandleType.SQL_HANDLE_STMT hStmt,
              Event.uv_mutex_unlock])
  else
    (self, { data with result := ret }, pre ++ [Event.uv_mutex_unlock])

/-- The C++ `ODBCConnection::UV_AfterOpen` (lines 292-335), the completion of
`Open`.  `diag` is what the connection handle carries when the error is
built; `hasCaught` tells whether the user callback threw. -/
def UV_AfterOpen (self : ODBCConnection) (data : open_connection_work_data)
    (diag : List DiagRec) (hasCaught : Bool) : ODBCConnection × List Event :=
  let err := data.result != 0
  let argv : List JsValue :=
    if err then [JsValue.sqlError (GetSQLError HandleType.SQL_HANDLE_DBC self.m_hDBC none diag)]
    else []
  let tErr := if err then [Event.GetSQLError HandleType.SQL_HANDLE_DBC self.m_hDBC] else []
  let self1 := if !err then { self with connected := true } else self
  let tRef := if !err then [Event.uv_ref] else []
  (self1,
    tErr ++ tRef ++ [Event.Unref, Event.Call argv] ++ fatalIfCaught hasCaught ++
      [Event.free Mem.cb, Event.free Mem.connection, Event.free Mem.data, Event.free Mem.req])

/-- The C++ `ODBCConnection::OpenSync` (lines 341-444), after the argument
check.  It returns the value handed back to the script or the thrown error. -/
def OpenSync (self : ODBCConnection) (connection : String) (drv : Driver) :
    ODBCConnection × Except JsValue JsValue × List Event :=
  let connectionLength : Int := Length connection + 1
  let pre := [Event.uv_mutex_lock] ++ timeoutAttrs self ++
    [Event.SQLDriverConnect self.m_hDBC connection (SQLSMALLINT.ofInt connectionLength)]
  let ret := drv.rConnect
  if !SQL_SUCCEEDED ret then
    let objError := GetSQLError HandleType.SQL_HANDLE_DBC self.m_hDBC none drv.diag
    (self, Except.error (JsValue.sqlError objError),
      pre ++ [Event.GetSQLError HandleType.SQL_HANDLE_DBC self.m_hDBC,
              Event.uv_mutex_unlock, Event.free Mem.connectionString])
  else
    let hStmt := drv.hSTMT
    let ret := drv.rAllocStmt
    let ret := drv.rGetFunctions
    let self := { self with
      canHaveMoreResults := if !SQL_SUCCEEDED ret then 0 else drv.supported }
    let ret := drv.rFreeStmt
    let self := { self with connected := true }
    (self, Except.ok (JsValue.boolean true),
      pre ++ [Event.SQLAllocHandle HandleType.SQL_HANDLE_STMT self.m_hDBC,
              Event.SQLGetFunctions self.m_hDBC,
              Event.SQLFreeHandle HandleType.SQL_HANDLE_STMT hStmt,
              Event.uv_ref,
              Event.uv_mutex_unlock, Event.free Mem.connectionString])

/-! ## Close, CreateStatement -/

/-- The C++ `ODBCConnection::UV_Close` (lines 480-491), run on a worker. -/
def UV_Close (self : ODBCConnection) (data : close_connection_work_data) :
    ODBCConnection × close_connection_work_data × List Event :=
  let r := Free self
  (r.1, { data with result := 0 }, r.2)

/-- The C++ `ODBCConnection::UV_AfterClose` (lines 493-532), the completion of
`Close`. -/
def UV_AfterClose (self : ODBCConnection) (data : close_connection_work_data)
    (hasCaught : Bool) : ODBCConnection × List Event :=
  let err := data.result != 0
  let argv : List JsValue := if err then [JsValue.error "Error closing database"] else []
  let self1 := if err then self else { self with connected := false }
  let tUnref := if err then [] else [Event.uv_unref]
  (self1,
    tUnref ++ [Event.Unref, Event.Call argv] ++ fatalIfCaught hasCaught ++
      [Event.free Mem.cb, Event.free Mem.data, Event.free Mem.req])

/-- The C++ `ODBCConnection::CloseSync` (lines 538-558). -/
def CloseSync (self : ODBCConnection) : ODBCConnection × JsValue × List Event :=
  let r := Free self
  let conn := { r.1 with connected := false }
  (conn, JsValue.boolean true, r.2 ++ [Event.uv_unref])

/-- The C++ `ODBCConnection::UV_CreateStatement` (lines 629-655), run on a
worker. -/
def UV_CreateStatement (self : ODBCConnection) (data : create_statement_work_data)
    (drv : Driver) : create_statement_work_data × List Event :=
  ({ data with hSTMT := drv.hSTMT },
    [Event.uv_mutex_lock,
     Event.SQLAllocHandle HandleType.SQL_HANDLE_STMT self.m_hDBC,
     Event.uv_mutex_unlock])

/-- The C++ `ODBCConnection::UV_AfterCreateStatement` (lines 657-694), the
completion of `CreateStatement`. -/
def UV_AfterCreateStatement (self : ODBCConnection) (data : create_statement_work_data)
    (hasCaught : Bool) : List Event :=
  let js_result := JsValue.odbcStatement self.m_hENV self.m_hDBC data.hSTMT
  [Event.NewODBCStatement self.m_hENV self.m_hDBC data.hSTMT,
   Event.Call [JsValue.null, js_result]] ++ fatalIfCaught hasCaught ++
  [Event.Unref, Event.free Mem.cb, Event.free Mem.data, Event.free Mem.req]

/-! ## Query -/

/-- The bind loop of `UV_Query` (lines 855-879): parameter `i` of the list is
bound as parameter number `i + 1`; a bind returning `SQL_ERROR` stores that
code and returns from `UV_Query` at once (`some` is the early return). -/
def UV_Query.bindLoop (hSTMT : SQLHANDLE) (rBind : Nat → SQLRETURN) :
    Nat → List Parameter → Option SQLRETURN × List Event
  | _, [] => (none, [])
  | i, prm :: rest =>
    let ret := rBind i
    if ret = SQL_ERROR then
      (some ret, [Event.SQLBindParameter hSTMT (i + 1) prm])
    else
      let r := UV_Query.bindLoop hSTMT rBind (i + 1) rest
      (r.1, Event.SQLBindParameter hSTMT (i + 1) prm :: r.2)

/-- The C++ `ODBCConnection::UV_Query` (lines 835-890), run on a worker.  The
return code of the statement allocation is not looked at. -/
def UV_Query (self : ODBCConnection) (data : query_work_data) (drv : Driver) :
    query_work_data × List Event :=
  let alloc := [Event.uv_mutex_lock,
                Event.SQLAllocHandle HandleType.SQL_HANDLE_STMT self.m_hDBC,
                Event.uv_mutex_unlock]
  let data := { data with hSTMT := drv.hSTMT }
  let binds :=
    if data.paramCount != 0 then
      UV_Query.bindLoop data.hSTMT drv.rBind 0 (data.params.take data.paramCount)
    else (none, [])
  match binds.1 with
  | some ret => ({ data with result := ret }, alloc ++ binds.2)
  | none =>
    let ret := drv.rExecDirect
    ({ data with result := ret },
      alloc ++ binds.2 ++ [Event.SQLExecDirect data.hSTMT data.sql data.sqlLen])

/-- The release of one parameter buffer (lines 955-963 and 1138-1146): nothing
for a null buffer; otherwise the release is chosen by the value-type tag. -/
def freeParameter (prm : Parameter) : List Event :=
  if prm.ParameterValuePtr ≠ 0 then
    if prm.ValueType = SQL_C_WCHAR then [Event.freeBuffer prm.ParameterValuePtr]
    else if prm.ValueType = SQL_C_CHAR then [Event.freeBuffer prm.ParameterValuePtr]
    else if prm.ValueType = SQL_C_LONG then
      [Event.deleteBuffer DeleteKind.int64 prm.ParameterValuePtr]
    else if prm.ValueType = SQL_C_DOUBLE then
      [Event.deleteBuffer DeleteKind.double prm.ParameterValuePtr]
    else if prm.ValueType = SQL_C_BIT then
      [Event.deleteBuffer DeleteKind.bool prm.ParameterValuePtr]
    else []
  else []

/-- The loop `for (i = 0; i < paramCount; i++)` releasing the parameter
buffers. -/
def freeParameters (params : List Parameter) (paramCount : Nat) : List Event :=
  ((params.take paramCount).map freeParameter).flatten

/-- The first part of `UV_AfterQuery` (lines 903-941): either the statement
handle is freed under the mutex and the callback gets `(null, true)`, or a
Result object is built around the statement handle and the callback gets
`(error or null, result)`.  `diag` is what the statement handle carries when
the error is built. -/
def UV_AfterQuery.deliver (self : ODBCConnection) (data : query_work_data)
    (diag : List DiagRec) : List Event :=
  if data.result != SQL_ERROR && data.noResultObject then
    [Event.uv_mutex_lock,
     Event.SQLFreeHandle HandleType.SQL_HANDLE_STMT data.hSTMT,
     Event.uv_mutex_unlock,
     Event.Call [JsValue.null, JsValue.boolean true]]
  else
    let js_result := JsValue.odbcResult self.m_hENV self.m_hDBC data.hSTMT true
    let construct := [Event.NewODBCResult self.m_hENV self.m_hDBC data.hSTMT true]
    if data.result == SQL_ERROR then
      construct ++
      [Event.GetSQLError HandleType.SQL_HANDLE_STMT data.hSTMT,
       Event.Call [JsValue.sqlError (GetSQLError HandleType.SQL_HANDLE_STMT data.hSTMT
          (some "[node-odbc] SQL_ERROR") diag), js_result]]
    else
      construct ++ [Event.Call [JsValue.null, js_result]]

/-- The second part of `UV_AfterQuery` (lines 943-976): the reference on the
connection is dropped, then the callback object, the parameter buffers and the
strings of the task are released. -/
def UV_AfterQuery.cleanup (data : query_work_data) (hasCaught : Bool) : List Event :=
  [Event.Unref] ++ fatalIfCaught hasCaught ++ [Event.free Mem.cb] ++
  (if data.paramCount != 0 then
    freeParameters data.params data.paramCount ++ [Event.free Mem.params]
   else []) ++
  [Event.free Mem.sql, Event.free Mem.catalog, Event.free Mem.schema,
   Event.free Mem.table, Event.free Mem.type, Event.free Mem.column,
   Event.free Mem.data, Event.free Mem.req]

/-- The C++ `ODBCConnection::UV_AfterQuery` (lines 892-977), the completion of
`Query`, `Tables` and `Columns`. -/
def UV_AfterQuery (self : ODBCConnection) (data : query_work_data)
    (diag : List DiagRec) (hasCaught : Bool) : List Event :=
  UV_AfterQuery.deliver self data diag ++ UV_AfterQuery.cleanup data hasCaught

/-- The bind loop of `QuerySync` (lines 1105-1126): as in `UV_Query`, but a
bind returning `SQL_ERROR` leaves the loop (`break`) and the code of the last
bind stays in `ret`. -/
def QuerySync.bindLoop (hSTMT : SQLHANDLE) (rBind : Nat → SQLRETURN) :
    Nat → List Parameter → SQLRETURN → SQLRETURN × List Event
  | _, [], ret => (ret, [])
  | i, prm :: rest, _ =>
    let ret := rBind i
    if ret = SQL_ERROR then
      (ret, [Event.SQLBindParameter hSTMT (i + 1) prm])
    else
      let r := QuerySync.bindLoop hSTMT rBind (i + 1) rest ret
      (r.1, Event.SQLBindParameter hSTMT (i + 1) prm :: r.2)

/-- The `sql->length()` of `ODBCConnection::QuerySync` (line 1133): `sql` is
a `String::Value` when the build defines `UNICODE` and a `String::Utf8Value`
otherwise (lines 989-993). -/
def QuerySync.sqlLength (sql : String) (drv : Driver) : Nat :=
  if drv.UNICODE then Value.length sql else Utf8Value.length sql

/-- The first part of `ODBCConnection::QuerySync` after the argument check
(lines 1092-1152): statement allocation, bind loop, direct execution and
release of the parameters.  It returns the final value of the local `ret`. -/
def QuerySync.execute (self : ODBCConnection) (sql : String) (params : List Parameter)
    (drv : Driver) : SQLRETURN × List Event :=
  let paramCount := params.length
  let alloc := [Event.uv_mutex_lock,
                Event.SQLAllocHandle HandleType.SQL_HANDLE_STMT self.m_hDBC,
                Event.uv_mutex_unlock]
  let ret := drv.rAllocStmt
  let hSTMT := drv.hSTMT
  let body : SQLRETURN × List Event :=
    if SQL_SUCCEEDED ret then
      let binds :=
        if paramCount != 0 then
          QuerySync.bindLoop hSTMT drv.rBind 0 (params.take paramCount) ret
        else (ret, [])
      let ret := binds.1
      let exec : SQLRETURN × List Event :=
        if SQL_SUCCEEDED ret then
          (drv.rExecDirect, [Event.SQLExecDirect hSTMT (some sql) (QuerySync.sqlLength sql drv)])
        else (ret, [])
      (exec.1, binds.2 ++ exec.2 ++ freeParameters params paramCount ++ [Event.free Mem.params])
    else (ret, [])
  (body.1, alloc ++ body.2 ++ [Event.free Mem.sql])

/-- The C++ `ODBCConnection::QuerySync` after the argument check (lines
1092-1189), for the SQL text, parameter list and `noResults` option taken from
the arguments.  It returns the value handed back to the script or the thrown
error. -/
def QuerySync (self : ODBCConnection) (sql : String) (params : List Parameter)
    (noResultObject : Bool) (drv : Driver) : Except JsValue JsValue × List Event :=
  let run := QuerySync.execute self sql params drv
  let ret := run.1
  let hSTMT := drv.hSTMT
  if ret = SQL_ERROR then
    (Except.error (JsValue.sqlError (GetSQLError HandleType.SQL_HANDLE_STMT hSTMT
        (some "[node-odbc] Error in ODBCConnection::QuerySync") drv.diag)),
      run.2 ++ [Event.GetSQLError HandleType.SQL_HANDLE_STMT hSTMT])
  else if noResultObject then
    (Except.ok (JsValue.boolean true),
      run.2 ++ [Event.uv_mutex_lock,
                Event.SQLFreeHandle HandleType.SQL_HANDLE_STMT hSTMT,
                Event.uv_mutex_unlock])
  else
    (Except.ok (JsValue.odbcResult self.m_hENV self.m_hDBC hSTMT true),
      run.2 ++ [Event.NewODBCResult self.m_hENV self.m_hDBC hSTMT true])

/-- The work data filled in by `ODBCConnection::Query` once the arguments
are accepted (lines 735-822): the SQL text and its length, the parameter list
with its count, and the `noResults` option. -/
def Query.workData (sql : String) (params : List Parameter) (noResultObject : Bool) :
    query_work_data :=
  { query_work_data.calloc with
    sql := some sql, sqlLen := Length sql, params := params,
    paramCount := params.length, noResultObject := noResultObject }

/-! ## Transactions -/

/-- The C++ `ODBCConnection::BeginTransactionSync` (lines 1414-1438). -/
def BeginTransactionSync (self : ODBCConnection) (drv : Driver) :
    Except JsValue JsValue × List Event :=
  let ret := drv.rAutocommit
  let call := [Event.SQLSetConnectAttr self.m_hDBC ConnectAttr.SQL_ATTR_AUTOCOMMIT
    SQL_AUTOCOMMIT_OFF]
  if !SQL_SUCCEEDED ret then
    (Except.error (JsValue.sqlError
        (GetSQLError HandleType.SQL_HANDLE_DBC self.m_hDBC none drv.diag)),
      call ++ [Event.GetSQLError HandleType.SQL_HANDLE_DBC self.m_hDBC])
  else
    (Except.ok (JsValue.boolean true), call)

/-- The C++ `ODBCConnection::UV_BeginTransaction` (lines 1481-1492), run on a
worker. -/
def UV_BeginTransaction (self : ODBCConnection) (data : query_work_data) (drv : Driver) :
    query_work_data × List Event :=
  ({ data with result := drv.rAutocommit },
    [Event.SQLSetConnectAttr self.m_hDBC ConnectAttr.SQL_ATTR_AUTOCOMMIT SQL_AUTOCOMMIT_OFF])

/-- The cast `(open_connection_work_data *)(req->data)` of the two transaction
completions (lines 1503 and 1683), applied to the work data that
`BeginTransaction` and `EndTransaction` allocate as a `query_work_data` (lines
1455-1456 and 1610-1611).  Which bytes of that record the fields of the result
show is fixed by the declarations of the two structs, in odbc_connection.h and
not under src/, so the reading is a parameter of the completions. -/
abbrev WorkDataCast := query_work_data → open_connection_work_data

/-- The C++ `ODBCConnection::UV_AfterBeginTransaction` (lines 1499-1529), the
completion of `BeginTransaction`.  `req` is the work data left by the worker;
the function reads it through the cast of line 1503, so the `result` it tests
is the one of the `open_connection_work_data` reading. -/
def UV_AfterBeginTransaction (self : ODBCConnection) (cast : WorkDataCast)
    (req : query_work_data) (diag : List DiagRec) (hasCaught : Bool) : List Event :=
  let data : open_connection_work_data := cast req
  let err := !SQL_SUCCEEDED data.result
  let argv : List JsValue :=
    if err then [JsValue.sqlError (GetSQLError HandleType.SQL_HANDLE_DBC self.m_hDBC none diag)]
    else []
  let tErr := if err then [Event.GetSQLError HandleType.SQL_HANDLE_DBC self.m_hDBC] else []
  tErr ++ [Event.Call argv] ++ fatalIfCaught hasCaught ++
    [Event.free Mem.cb, Event.free Mem.data, Event.free Mem.req]

/-- The completion type chosen from the `rollback` flag (lines 1547-1550 and
1618-1621). -/
def completionTypeOf (rollback : Bool) : Int :=
  if rollback then SQL_ROLLBACK else SQL_COMMIT

/-- The C++ `ODBCConnection::EndTransactionSync` (lines 1536-1592), after the
argument check.  The locals `error` and `objError` are threaded through the
two checks; `objError` starts as an empty handle. -/
def EndTransactionSync (self : ODBCConnection) (rollback : Bool) (drv : Driver) :
    Except JsValue JsValue × List Event :=
  let completionType := completionTypeOf rollback
  let ret := drv.rEndTran
  let t1 := [Event.SQLEndTran self.m_hDBC completionType]
  let s1 : Bool × JsValue × List Event :=
    if !SQL_SUCCEEDED ret then
      (true,
        JsValue.sqlError (GetSQLError HandleType.SQL_HANDLE_DBC self.m_hDBC none drv.diagEndTran),
        [Event.GetSQLError HandleType.SQL_HANDLE_DBC self.m_hDBC])
    else (false, JsValue.undefined, [])
  let ret := drv.rAutocommit
  let t2 := [Event.SQLSetConnectAttr self.m_hDBC ConnectAttr.SQL_ATTR_AUTOCOMMIT
    SQL_AUTOCOMMIT_ON]
  let s2 : Bool × JsValue × List Event :=
    if !SQL_SUCCEEDED ret && !s1.1 then
      (true,
        JsValue.sqlError (GetSQLError HandleType.SQL_HANDLE_DBC self.m_hDBC none drv.diag),
        [Event.GetSQLError HandleType.SQL_HANDLE_DBC self.m_hDBC])
    else (s1.1, s1.2.1, [])
  let trace := t1 ++ s1.2.2 ++ t2 ++ s2.2.2
  if s2.1 then (Except.error s2.2.1, trace)
  else (Except.ok (JsValue.boolean true), trace)

/-- The work data filled in by `ODBCConnection::EndTransaction` (lines
1608-1624). -/
def EndTransaction.workData (rollback : Bool) : query_work_data :=
  { query_work_data.calloc with completionType := completionTypeOf rollback }

/-- The C++ `ODBCConnection::UV_EndTransaction` (lines 1640-1672), run on a
worker. -/
def UV_EndTransaction (self : ODBCConnection) (data : query_work_data) (drv : Driver) :
    query_work_data × List Event :=
  let ret := drv.rEndTran
  let data := { data with result := ret }
  let err := !SQL_SUCCEEDED ret
  let ret := drv.rAutocommit
  let data := if !SQL_SUCCEEDED ret && !err then { data with result := ret } else data
  (data,
    [Event.SQLEndTran self.m_hDBC data.completionType,
     Event.SQLSetConnectAttr self.m_hDBC ConnectAttr.SQL_ATTR_AUTOCOMMIT SQL_AUTOCOMMIT_ON])

/-- The C++ `ODBCConnection::UV_AfterEndTransaction` (lines 1679-1709), the
completion of `EndTransaction`.  `req` is the work data left by the worker;
the function reads it through the cast of line 1683, so the `result` it tests
is the one of the `open_connection_work_data` reading. -/
def UV_AfterEndTransaction (self : ODBCConnection) (cast : WorkDataCast)
    (req : query_work_data) (diag : List DiagRec) (hasCaught : Bool) : List Event :=
  let data : open_connection_work_data := cast req
  let err := !SQL_SUCCEEDED data.result
  let argv : List JsValue :=
    if err then [JsValue.sqlError (GetSQLError HandleType.SQL_HANDLE_DBC self.m_hDBC none diag)]
    else []
  let tErr := if err then [Event.GetSQLError HandleType.SQL_HANDLE_DBC self.m_hDBC] else []
  tErr ++ [Event.Call argv] ++ fatalIfCaught hasCaught ++
    [Event.free Mem.cb, Event.free Mem.data, Event.free Mem.req]

/-! ## A task: the worker function followed by its completion

`uv_queue_work(loop, req, work, after)` runs `work` on a worker and then
`after` on the caller thread, with the same request. -/

/-- The work data filled in by `ODBCConnection::Open` (lines 196-211). -/
def Open.workData (connection : String) : open_connection_work_data :=
  { connection := connection, connectionLength := Length connection + 1, result := 0 }

/-- The task queued by `Open`: `UV_Open`, then `UV_AfterOpen`. -/
def Open.task (self : ODBCConnection) (connection : String) (drv : Driver)
    (hasCaught : Bool) : ODBCConnection × List Event :=
  let w := UV_Open self (Open.workData connection) drv
  let a := UV_AfterOpen w.1 w.2.1 drv.diag hasCaught
  (a.1, w.2.2 ++ a.2)

/-- The task queued by `Close`: `UV_Close`, then `UV_AfterClose`, on work data
zero-filled by `calloc`. -/
def Close.task (self : ODBCConnection) (hasCaught : Bool) : ODBCConnection × List Event :=
  let w := UV_Close self { result := 0 }
  let a := UV_AfterClose w.1 w.2.1 hasCaught
  (a.1, w.2.2 ++ a.2)

/-- The task queued by `Query`: `UV_Query`, then `UV_AfterQuery`. -/
def Query.task (self : ODBCConnection) (sql : String) (params : List Parameter)
    (noResultObject : Bool) (drv : Driver) (hasCaught : Bool) : List Event :=
  let w := UV_Query self (Query.workData sql params noResultObject) drv
  w.2 ++ UV_AfterQuery self w.1 drv.diag hasCaught

/-! ## Catalog queries -/

/-- The copy of a filter argument kept in the work data (lines 1224-1262 and
1334-1372): the field stays `NULL` when the argument equals the string
`"null"`, and otherwise points to a copy of the argument. -/
def copyFilter (arg : String) : Option String :=
  if !(arg == "null") then some arg else none

/-- The C++ `ODBCConnection::Tables` (lines 1195-1276), for four arguments
already converted to strings by `REQ_STRO_OR_NULL_ARG` (odbc.h, not under
src/).  `dataAllocated` tells whether `calloc` returned the work data. -/
def Tables (self : ODBCConnection) (catalog schema table type : String)
    (dataAllocated : Bool) : Except JsValue query_work_data × List Event :=
  if !dataAllocated then
    (Except.error (JsValue.error "Could not allocate enough memory"),
      [Event.NanLowMemoryNotification])
  else
    let data := { query_work_data.calloc with
      sql := none, catalog := none, schema := none, table := none, type := none,
      column := none }
    let data := { data with catalog := copyFilter catalog }
    let data := { data with schema := copyFilter schema }
    let data := { data with table := copyFilter table }
    let data := { data with type := copyFilter type }
    (Except.ok data, [Event.uv_queue_work Work.UV_Tables, Event.Ref])

/-- The C++ `ODBCConnection::UV_Tables` (lines 1278-1297), run on a worker. -/
def UV_Tables (self : ODBCConnection) (data : query_work_data) (drv : Driver) :
    query_work_data × List Event :=
  let data := { data with hSTMT := drv.hSTMT }
  let ret := drv.rTables
  ({ data with result := ret },
    [Event.uv_mutex_lock,
     Event.SQLAllocHandle HandleType.SQL_HANDLE_STMT self.m_hDBC,
     Event.uv_mutex_unlock,
     Event.SQLTables data.hSTMT data.catalog data.schema data.table data.type])

/-- The C++ `ODBCConnection::Columns` (lines 1305-1386), for four arguments
already converted to strings by `REQ_STRO_OR_NULL_ARG`. -/
def Columns (self : ODBCConnection) (catalog schema table column : String)
    (dataAllocated : Bool) : Except JsValue query_work_data × List Event :=
  if !dataAllocated then
    (Except.error (JsValue.error "Could not allocate enough memory"),
      [Event.NanLowMemoryNotification])
  else
    let data := { query_work_data.calloc with
      sql := none, catalog := none, schema := none, table := none, type := none,
      column := none }
    let data := { data with catalog := copyFilter catalog }
    let data := { data with schema := copyFilter schema }
    let data := { data with table := copyFilter table }
    let data := { data with column := copyFilter column }
    (Except.ok data, [Event.uv_queue_work Work.UV_Columns, Event.Ref])

/-- The C++ `ODBCConnection::UV_Columns` (lines 1388-1407), run on a worker. -/
def UV_Columns (self : ODBCConnection) (data : query_work_data) (drv : Driver) :
    query_work_data × List Event :=
  let data := { data with hSTMT := drv.hSTMT }
  let ret := drv.rColumns
  ({ data with result := ret },
    [Event.uv_mutex_lock,
     Event.SQLAllocHandle HandleType.SQL_HANDLE_STMT self.m_hDBC,
     Event.uv_mutex_unlock,
     Event.SQLColumns data.hSTMT data.catalog data.schema data.table data.column])

/-! ## The async entry points

Each entry point fills in the work data, queues the task and returns to the
script at once.  The argument checks done by the macros of odbc.h (not under
src/) are taken as passed; the checks written out in `Query` are modelled. -/

/-- The C++ `ODBCConnection::Open` (lines 182-224). -/
def Open (self : ODBCConnection) (connection : String) :
    open_connection_work_data × JsValue × List Event :=
  (Open.workData connection, JsValue.holder,
    [Event.uv_queue_work Work.UV_Open, Event.Ref])

/-- The C++ `ODBCConnection::Close` (lines 451-478). -/
def Close (self : ODBCConnection) : close_connection_work_data × JsValue × List Event :=
  ({ result := 0 }, JsValue.undefined, [Event.uv_queue_work Work.UV_Close, Event.Ref])

/-- The C++ `ODBCConnection::CreateStatement` (lines 598-627). -/
def CreateStatement (self : ODBCConnection) :
    create_statement_work_data × JsValue × List Event :=
  ({ hSTMT := 0 }, JsValue.undefined,
    [Event.uv_queue_work Work.UV_CreateStatement, Event.Ref])

/-- The C++ `ODBCConnection::CreateStatementSync` (lines 565-591). -/
def CreateStatementSync (self : ODBCConnection) (drv : Driver) : JsValue × List Event :=
  let hSTMT := drv.hSTMT
  (JsValue.odbcStatement self.m_hENV self.m_hDBC hSTMT,
    [Event.uv_mutex_lock,
     Event.SQLAllocHandle HandleType.SQL_HANDLE_STMT self.m_hDBC,
     Event.uv_mutex_unlock,
     Event.NewODBCStatement self.m_hENV self.m_hDBC hSTMT])

/-- The last steps of `Query` once the arguments are accepted (lines 805-832):
the work data is completed, the task is queued and a reference is taken. -/
def Query.submit (sql : String) (params : List Parameter) (noResultObject : Bool) :
    Except JsValue query_work_data × List Event :=
  (Except.ok (Query.workData sql params noResultObject),
    [Event.uv_queue_work Work.UV_Query, Event.Ref])

/-- The C++ `ODBCConnection::Query` (lines 700-833), on the list of arguments
of the call.  A rejected call throws a `TypeError` and returns before anything
is queued. -/
def Query (self : ODBCConnection) (args : List JsArg) :
    Except JsValue query_work_data × List Event :=
  match args with
  | [a0, a1, a2] =>
    if !a0.IsString then
      (Except.error (JsValue.typeError "Argument 0 must be an String."), [])
    else if !a1.IsArray then
      (Except.error (JsValue.typeError "Argument 1 must be an Array."), [])
    else if !a2.IsFunction then
      (Except.error (JsValue.typeError "Argument 2 must be a Function."), [])
    else
      Query.submit a0.text a1.parameters false
  | [a0, a1] =>
    if !a1.IsFunction then
      (Except.error (JsValue.typeError
        "ODBCConnection::Query(): Argument 1 must be a Function."), [])
    else if a0.IsString then
      Query.submit a0.text [] false
    else if a0.IsObject then
      let sql : String :=
        match a0.sqlProp with
        | some (JsProp.string s) => s
        | _ => ""
      let params : List Parameter :=
        match a0.paramsProp with
        | some (JsProp.array ps) => ps
        | _ => []
      let noResultObject : Bool :=
        match a0.noResultsProp with
        | some (JsProp.boolean b) => b
        | _ => false
      Query.submit sql params noResultObject
    else
      (Except.error (JsValue.typeError
        "ODBCConnection::Query(): Argument 0 must be a String or an Object."), [])
  | _ =>
    (Except.error (JsValue.typeError
      "ODBCConnection::Query(): Requires either 2 or 3 Arguments. "), [])

/-- The C++ `ODBCConnection::BeginTransaction` (lines 1445-1474).  No
reference is taken on the connection. -/
def BeginTransaction (self : ODBCConnection) (dataAllocated : Bool) :
    Except JsValue query_work_data × List Event :=
  if !dataAllocated then
    (Except.error (JsValue.error "Could not allocate enough memory"),
      [Event.NanLowMemoryNotification])
  else
    (Except.ok query_work_data.calloc, [Event.uv_queue_work Work.UV_BeginTransaction])

/-- The C++ `ODBCConnection::EndTransaction` (lines 1599-1633).  No reference
is taken on the connection. -/
def EndTransaction (self : ODBCConnection) (rollback : Bool) (dataAllocated : Bool) :
    Except JsValue query_work_data × List Event :=
  if !dataAllocated then
    (Except.error (JsValue.error "Could not allocate enough memory"),
      [Event.NanLowMemoryNotification])
  else
    (Except.ok (EndTransaction.workData rollback),
      [Event.uv_queue_work Work.UV_EndTransaction])

/-! ## The life of a submitted operation

An async call runs its entry point on the caller thread, then, when a task was
queued, the worker function and the completion. -/

/-- The effects of one async call, split by the function that performs them,
and the connection object it leaves. -/
structure Lifecycle where
  conn : ODBCConnection
  submit : List Event
  work : List Event
  complete : List Event

/-- All effects of one async call, in order. -/
def Lifecycle.effects (l : Lifecycle) : List Event :=
  l.submit ++ l.work ++ l.complete

/-- An async call on the connection, with the answers of the driver during
its task and whether its callback throws; for the two transaction calls also
the reading of the work data that the completion makes through its cast. -/
inductive Submission where
  | open (connection : String) (drv : Driver) (hasCaught : Bool)
  | close (hasCaught : Bool)
  | createStatement (drv : Driver) (hasCaught : Bool)
  | query (args : List JsArg) (drv : Driver) (hasCaught : Bool)
  | tables (catalog schema table type : String) (dataAllocated : Bool) (drv : Driver)
      (hasCaught : Bool)
  | columns (catalog schema table column : String) (dataAllocated : Bool) (drv : Driver)
      (hasCaught : Bool)
  | beginTransaction (dataAllocated : Bool) (drv : Driver) (cast : WorkDataCast)
      (hasCaught : Bool)
  | endTransaction (rollback : Bool) (dataAllocated : Bool) (drv : Driver)
      (cast : WorkDataCast) (hasCaught : Bool)

/-- The run of one async call: the entry point, and for a queued task the
worker function on the work data of the entry point, then the completion on
the work data left by the worker. -/
def Submission.run (self : ODBCConnection) : Submission → Lifecycle
  | Submission.open connection drv hasCaught =>
    let e := Open self connection
    let w := UV_Open self e.1 drv
    let a := UV_AfterOpen w.1 w.2.1 drv.diag hasCaught
    { conn := a.1, submit := e.2.2, work := w.2.2, complete := a.2 }
  | Submission.close hasCaught =>
    let e := Close self
    let w := UV_Close self e.1
    let a := UV_AfterClose w.1 w.2.1 hasCaught
    { conn := a.1, submit := e.2.2, work := w.2.2, complete := a.2 }
  | Submission.createStatement drv hasCaught =>
    let e := CreateStatement self
    let w := UV_CreateStatement self e.1 drv
    { conn := self, submit := e.2.2, work := w.2,
      complete := UV_AfterCreateStatement self w.1 hasCaught }
  | Submission.query args drv hasCaught =>
    match Query self args with
    | (Except.ok data, t) =>
      let w := UV_Query self data drv
      { conn := self, submit := t, work := w.2,
        complete := UV_AfterQuery self w.1 drv.diag hasCaught }
    | (Except.error _, t) => { conn := self, submit := t, work := [], complete := [] }
  | Submission.tables catalog schema table type dataAllocated drv hasCaught =>
    match Tables self catalog schema table type dataAllocated with
    | (Except.ok data, t) =>
      let w := UV_Tables self data drv
      { conn := self, submit := t, work := w.2,
        complete := UV_AfterQuery self w.1 drv.diag hasCaught }
    | (Except.error _, t) => { conn := self, submit := t, work := [], complete := [] }
  | Submission.columns catalog schema table column dataAllocated drv hasCaught =>
    match Columns self catalog schema table column dataAllocated with
    | (Except.ok data, t) =>
      let w := UV_Columns self data drv
      { conn := self, submit := t, work := w.2,
        complete := UV_AfterQuery self w.1 drv.diag hasCaught }
    | (Except.error _, t) => { conn := self, submit := t, work := [], complete := [] }
  | Submission.beginTransaction dataAllocated drv cast hasCaught =>
    match BeginTransaction self dataAllocated with
    | (Except.ok data, t) =>
      let w := UV_BeginTransaction self data drv
      { conn := self, submit := t, work := w.2,
        complete := UV_AfterBeginTransaction self cast w.1 drv.diag hasCaught }
    | (Except.error _, t) => { conn := self, submit := t, work := [], complete := [] }
  | Submission.endTransaction rollback dataAllocated drv cast hasCaught =>
    match EndTransaction self rollback dataAllocated with
    | (Except.ok data, t) =>
      let w := UV_EndTransaction self data drv
      { conn := self, submit := t, work := w.2,
        complete := UV_AfterEndTransaction self cast w.1 drv.diag hasCaught }
    | (Except.error _, t) => { conn := self, submit := t, work := [], complete := [] }

/-- The effects of a sequence of async calls, each submitted and completed
before the next, and the connection object at the end. -/
def runAll (self : ODBCConnection) : List Submission → ODBCConnection × List Event
  | [] => (self, [])
  | op :: rest =>
    let l := Submission.run self op
    let r := runAll l.conn rest
    (r.1, l.effects ++ r.2)

end ODBCConnection

/-! ## Observations on effect lists -/

/-- Tells whether an effect is an invocation of the user callback. -/
def Event.isCall : Event → Bool
  | Event.Call _ => true
  | _ => false

/-- Tells whether an effect is a call into the ODBC driver manager. -/
def Event.isDriverCall : Event → Bool
  | Event.SQLDisconnect _ => true
  | Event.SQLFreeHandle _ _ => true
  | Event.SQLAllocHandle _ _ => true
  | Event.SQLSetConnectAttr _ _ _ => true
  | Event.SQLDriverConnect _ _ _ => true
  | Event.SQLGetFunctions _ => true
  | Event.SQLBindParameter _ _ _ => true
  | Event.SQLExecDirect _ _ _ => true
  | Event.SQLTables _ _ _ _ _ => true
  | Event.SQLColumns _ _ _ _ _ => true
  | Event.SQLEndTran _ _ => true
  | _ => false

/-- Tells whether an effect is the direct execution of an SQL text. -/
def Event.isExecDirect : Event → Bool
  | Event.SQLExecDirect _ _ _ => true
  | _ => false

/-- Tells whether an effect is the construction of a Result object. -/
def Event.isNewResult : Event → Bool
  | Event.NewODBCResult _ _ _ _ => true
  | _ => false

/-- Tells whether an effect frees a statement handle. -/
def Event.isFreeStmt : Event → Bool
  | Event.SQLFreeHandle HandleType.SQL_HANDLE_STMT _ => true
  | _ => false

/-- Tells whether an effect belongs to the clean-up after the callback: the
release of the connection reference, the report of an exception thrown by the
callback, or a release of memory. -/
def Event.isCleanup : Event → Bool
  | Event.Unref => true
  | Event.FatalException => true
  | Event.free _ => true
  | Event.freeBuffer _ => true
  | Event.deleteBuffer _ _ => true
  | _ => false

/-- Tells whether an effect is the binding of a parameter. -/
def Event.isBind : Event → Bool
  | Event.SQLBindParameter _ _ _ => true
  | _ => false

/-- The driver calls of an effect list, in order. -/
def driverCalls (t : List Event) : List Event := t.filter Event.isDriverCall

/-- The number of invocations of the user callback in an effect list. -/
def callCount (t : List Event) : Nat := t.countP Event.isCall

/-- The argument lists of the callback invocations, in order. -/
def callArgs : List Event → List (List JsValue)
  | [] => []
  | Event.Call argv :: t => argv :: callArgs t
  | _ :: t => callArgs t

/-- The number of `uv_ref` keepalive registrations in an effect list. -/
def uvRefCount (t : List Event) : Nat := t.count Event.uv_ref

/-- The number of `uv_unref` keepalive deregistrations in an effect list. -/
def uvUnrefCount (t : List Event) : Nat := t.count Event.uv_unref

/-- Tells whether a script value is a Result object. -/
def JsValue.isResult : JsValue → Bool
  | JsValue.odbcResult _ _ _ _ => true
  | _ => false

/-- What the caller of a query observes: whether the SQL text was executed,
whether an error was reported, whether a Result object was yielded and whether
the `true` sentinel was yielded. -/
structure QueryOutcome where
  executed : Bool
  error : Bool
  result : Bool
  sentinel : Bool
  deriving DecidableEq, Repr

/-- The outcome of an async query, read from its effects: the error is the
first argument of the callback when it is not `null`, the Result object or the
sentinel is its second argument. -/
def asyncOutcome (t : List Event) : QueryOutcome :=
  let argv := (callArgs t).headD []
  { executed := !(t.filter Event.isExecDirect).isEmpty,
    error := (match argv with
      | a :: _ => a != JsValue.null
      | [] => false),
    result := (argv.getD 1 JsValue.undefined).isResult,
    sentinel := argv.getD 1 JsValue.undefined == JsValue.boolean true }

/-- The outcome of a sync query: the error is the thrown value, the Result
object or the sentinel is the returned value. -/
def syncOutcome (r : Except JsValue JsValue × List Event) : QueryOutcome :=
  { executed := !(r.2.filter Event.isExecDirect).isEmpty,
    error := (match r.1 with
      | Except.error _ => true
      | Except.ok _ => false),
    result := (match r.1 with
      | Except.error _ => false
      | Except.ok v => v.isResult),
    sentinel := (match r.1 with
      | Except.error _ => false
      | Except.ok v => v == JsValue.boolean true) }

/-- Tells whether an effect queues a task. -/
def Event.isQueueWork : Event → Bool
  | Event.uv_queue_work _ => true
  | _ => false

/-- Tells whether an effect sets a connection attribute. -/
def Event.isSetConnectAttr : Event → Bool
  | Event.SQLSetConnectAttr _ _ _ => true
  | _ => false

/-- Tells whether an effect releases a parameter buffer. -/
def Event.isBufferRelease : Event → Bool
  | Event.freeBuffer _ => true
  | Event.deleteBuffer _ _ => true
  | _ => false

/-- Tells whether an effect releases memory owned by the task. -/
def Event.isMemRelease : Event → Bool
  | Event.free _ => true
  | Event.freeBuffer _ => true
  | Event.deleteBuffer _ _ => true
  | _ => false

/-- The number of tasks queued in an effect list. -/
def queuedCount (t : List Event) : Nat := t.countP Event.isQueueWork

/-- The number of references taken on the connection in an effect list. -/
def refCount (t : List Event) : Nat := t.count Event.Ref

/-- The number of statement handles freed in an effect list. -/
def freeStmtCount (t : List Event) : Nat := t.countP Event.isFreeStmt

/-- The number of Result objects built in an effect list. -/
def newResultCount (t : List Event) : Nat := t.countP Event.isNewResult

/-- Tells whether every effect selected by `p` occurs while the mutex is held:
the list is walked from the state `held`, a lock sets it and an unlock clears
it. -/
def coveredByMutex (p : Event → Bool) : Bool → List Event → Bool
  | _, [] => true
  | _, Event.uv_mutex_lock :: t => coveredByMutex p true t
  | _, Event.uv_mutex_unlock :: t => coveredByMutex p false t
  | held, e :: t => (!p e || held) && coveredByMutex p held t

/-- Tells whether an effect locks or unlocks the mutex. -/
def Event.isMutexOp : Event → Bool
  | Event.uv_mutex_lock => true
  | Event.uv_mutex_unlock => true
  | _ => false

/-- Tells whether an effect is one of the driver calls the mutex is meant to
cover: setting a connection attribute, the driver connect, the allocation of a
handle and the free of a handle. -/
def Event.needsMutex : Event → Bool
  | Event.SQLSetConnectAttr _ _ _ => true
  | Event.SQLDriverConnect _ _ _ => true
  | Event.SQLAllocHandle _ _ => true
  | Event.SQLFreeHandle _ _ => true
  | _ => false

/-- The walk of the mutex over an effect list, from the state `held`: a lock
on a held mutex or an unlock of a free one is a misuse (`none`); otherwise the
result is the state at the end. -/
def mutexWalk : Bool → List Event → Option Bool
  | held, [] => some held
  | held, Event.uv_mutex_lock :: t => if held then none else mutexWalk true t
  | held, Event.uv_mutex_unlock :: t => if held then mutexWalk false t else none
  | held, _ :: t => mutexWalk held t

/-- Tells whether an effect list, started with the mutex free, never locks a
held mutex, never unlocks a free one, and ends with the mutex free. -/
def mutexBalanced (t : List Event) : Bool := mutexWalk false t == some false

/-- The number of locks of the mutex in an effect list. -/
def lockCount (t : List Event) : Nat := t.count Event.uv_mutex_lock

/-- The number of unlocks of the mutex in an effect list. -/
def unlockCount (t : List Event) : Nat := t.count Event.uv_mutex_unlock

/-- The number of references released on the connection in an effect list. -/
def unrefCount (t : List Event) : Nat := t.count Event.Unref

/-- The reference count of the connection object after an effect list, from
the count `before`: `Ref` adds one and `Unref` takes one away. -/
def refCountAfter (before : Int) : List Event → Int
  | [] => before
  | Event.Ref :: t => refCountAfter (before + 1) t
  | Event.Unref :: t => refCountAfter (before - 1) t
  | _ :: t => refCountAfter before t

/-- The shapes of argument list that claim C12 names for `Query`:
`(string, array, function)`, `(string, function)`, or `(options object
carrying a string sql, function)`. -/
def claimedQueryShape : List JsArg → Bool
  | [JsArg.string _, JsArg.array _, JsArg.function] => true
  | [JsArg.string _, JsArg.function] => true
  | [JsArg.object (some (JsProp.string _)) _ _, JsArg.function] => true
  | _ => false

/-- The shapes of argument list that `Query` accepts: `(string, array,
function)`, `(string, function)`, or `(object, function)` for any object
value. -/
def acceptedQueryShape : List JsArg → Bool
  | [a0, a1, a2] => a0.IsString && a1.IsArray && a2.IsFunction
  | [a0, a1] => a1.IsFunction && (a0.IsString || a0.IsObject)
  | _ => false

/-- A driver in which a set-autocommit attribute call takes effect: the
autocommit mode after the driver calls of an effect list, from the mode
`before`. -/
def autocommitAfter (before : Bool) : List Event → Bool
  | [] => before
  | Event.SQLSetConnectAttr _ ConnectAttr.SQL_ATTR_AUTOCOMMIT v :: t =>
    autocommitAfter (decide (v = SQL_AUTOCOMMIT_ON)) t
  | _ :: t => autocommitAfter before t

/-! ## Concrete inputs -/

/-- A fresh connection object: environment handle 1, connection handle 7, the
default timeouts of `New` (0 and 5 seconds). -/
def freshConn : ODBCConnection :=
  { m_hENV := 1, m_hDBC := 7, connected := false, connectTimeout := 0,
    loginTimeout := 5, canHaveMoreResults := 0 }

/-- An open connection: `freshConn` after a successful open. -/
def openConn : ODBCConnection :=
  { freshConn with connected := true, canHaveMoreResults := 1 }

/-- A driver that answers `SQL_SUCCESS` to every call, hands out statement
handle 9 and leaves no diagnostic record. -/
def Driver.allSuccess : Driver :=
  { rConnect := SQL_SUCCESS, rAllocStmt := SQL_SUCCESS, hSTMT := 9,
    rGetFunctions := SQL_SUCCESS, supported := 1, rFreeStmt := SQL_SUCCESS,
    rBind := fun _ => SQL_SUCCESS, rExecDirect := SQL_SUCCESS,
    rTables := SQL_SUCCESS, rColumns := SQL_SUCCESS, rEndTran := SQL_SUCCESS,
    rAutocommit := SQL_SUCCESS, diagEndTran := [], diag := [], UNICODE := true }

/-- A driver whose connect succeeds, whose temporary statement allocation
fails and whose free of that (null) statement reports an invalid handle. -/
def Driver.tempStmtFails : Driver :=
  { Driver.allSuccess with
    rAllocStmt := SQL_ERROR, hSTMT := 0, rFreeStmt := SQL_INVALID_HANDLE,
    diag := [{ state := "HY000", native := 0, message := "General error" }] }

/-- The work data of a query submitted with `noResults: true` whose
execution returned `SQL_ERROR` on statement handle 9. -/
def failedNoResultsQuery : query_work_data :=
  { ODBCConnection.Query.workData "DELETE FROM t" [] true with hSTMT := 9, result := SQL_ERROR }

/-- The work data of a query submitted without options whose execution
returned `SQL_ERROR` on statement handle 9. -/
def failedQuery : query_work_data :=
  { ODBCConnection.Query.workData "SELECT * FROM missing" [] false with hSTMT := 9, result := SQL_ERROR }

/-- The work data of a query submitted with `noResults: true` whose execution
returned `SQL_SUCCESS` on statement handle 9. -/
def succeededNoResultsQuery : query_work_data :=
  { ODBCConnection.Query.workData "DELETE FROM t" [] true with hSTMT := 9, result := SQL_SUCCESS }

/-- One diagnostic record, as left by a failed execution. -/
def sampleDiag : List DiagRec :=
  [{ state := "42S02", native := 208, message := "Invalid object name" }]

/-- A narrow-string parameter with its buffer at address 100. -/
def stringParam : Parameter :=
  { ValueType := SQL_C_CHAR, ParameterType := 1, ColumnSize := 3, DecimalDigits := 0,
    ParameterValuePtr := 100, BufferLength := 4, StrLen_or_IndPtr := 3 }

/-- An integer parameter with its buffer at address 200. -/
def intParam : Parameter :=
  { ValueType := SQL_C_LONG, ParameterType := 4, ColumnSize := 0, DecimalDigits := 0,
    ParameterValuePtr := 200, BufferLength := 0, StrLen_or_IndPtr := 0 }

/-- A driver that rejects the binding of the first parameter with `SQL_ERROR`
and accepts every other call. -/
def Driver.firstBindFails : Driver :=
  { Driver.allSuccess with
    rBind := fun i => if i = 0 then SQL_ERROR else SQL_SUCCESS, diag := sampleDiag }

/-- A driver whose direct execution fails with `SQL_ERROR`. -/
def Driver.execFails : Driver :=
  { Driver.allSuccess with rExecDirect := SQL_ERROR, diag := sampleDiag }

/-- A driver whose direct execution returns `SQL_INVALID_HANDLE`. -/
def Driver.execInvalidHandle : Driver :=
  { Driver.allSuccess with rExecDirect := SQL_INVALID_HANDLE }

/-- The work data of a query whose stored result code is
`SQL_INVALID_HANDLE`, on statement handle 9. -/
def invalidHandleQuery : query_work_data :=
  { ODBCConnection.Query.workData "SELECT 1" [] false with
    hSTMT := 9, result := SQL_INVALID_HANDLE }

/-- A driver whose statement allocation fails with `SQL_ERROR`, leaving a
null statement handle on which every later call reports an invalid handle. -/
def Driver.allocFails : Driver :=
  { Driver.allSuccess with
    rAllocStmt := SQL_ERROR, hSTMT := 0, rBind := fun _ => SQL_INVALID_HANDLE,
    rExecDirect := SQL_INVALID_HANDLE, rFreeStmt := SQL_INVALID_HANDLE, diag := sampleDiag }

/-- The work data of a query without options whose execution returned
`SQL_SUCCESS` on statement handle 9. -/
def succeededQuery : query_work_data :=
  { ODBCConnection.Query.workData "SELECT 1" [] false with hSTMT := 9, result := SQL_SUCCESS }

/-! # Theorems -/

open ODBCConnection

/-! ## Basic facts -/

theorem SQL_SUCCEEDED_iff (rc : SQLRETURN) :
    SQL_SUCCEEDED rc = true ↔ rc = SQL_SUCCESS ∨ rc = SQL_SUCCESS_WITH_INFO := by
  simp [SQL_SUCCEEDED]

theorem SQL_SUCCEEDED_SQL_ERROR : SQL_SUCCEEDED SQL_ERROR = false := by
  decide

theorem callCount_append (s t : List Event) : callCount (s ++ t) = callCount s + callCount t := by
  simp [callCount]

theorem callCount_fatalIfCaught (b : Bool) : callCount (fatalIfCaught b) = 0 := by
  cases b <;> rfl

theorem callArgs_append (s t : List Event) : callArgs (s ++ t) = callArgs s ++ callArgs t := by
  induction s with
  | nil => rfl
  | cons e s ih => cases e <;> simp [callArgs, ih]

theorem callArgs_fatalIfCaught (b : Bool) : callArgs (fatalIfCaught b) = [] := by
  cases b <;> rfl

/-- When the connect call succeeds, `UV_Open` stores the return code of the
free of the temporary statement, whatever the connect call returned. -/
theorem UV_Open_result_of_connected (self : ODBCConnection) (data : open_connection_work_data)
    (drv : Driver) (h : SQL_SUCCEEDED drv.rConnect = true) :
    (UV_Open self data drv).2.1.result = drv.rFreeStmt := by
  simp [UV_Open, h]

/-! ## Open -/

theorem uvRefCount_timeoutAttrs (self : ODBCConnection) : uvRefCount (timeoutAttrs self) = 0 := by
  unfold timeoutAttrs
  by_cases h1 : self.connectTimeout > 0 <;> by_cases h2 : self.loginTimeout > 0 <;>
    simp [h1, h2, uvRefCount]

/-- What the `Open` task does when the connect call succeeds, for every
connection string, timeout configuration and return code of the later driver
calls: the outcome follows the return code of the free of the temporary
statement.  When that code is zero, `connected` becomes true, `uv_ref` is
performed once and the callback gets no argument; otherwise `connected` is left
as it was, no `uv_ref` is performed and the callback gets an error. -/
theorem Open_task_of_connected (self : ODBCConnection) (connection : String) (drv : Driver)
    (hasCaught : Bool) (h : SQL_SUCCEEDED drv.rConnect = true) :
    (drv.rFreeStmt = 0 →
      (Open.task self connection drv hasCaught).1.connected = true ∧
      uvRefCount (Open.task self connection drv hasCaught).2 = 1 ∧
      callArgs (Open.task self connection drv hasCaught).2 = [[]]) ∧
    (drv.rFreeStmt ≠ 0 →
      (Open.task self connection drv hasCaught).1.connected = self.connected ∧
      uvRefCount (Open.task self connection drv hasCaught).2 = 0 ∧
      callArgs (Open.task self connection drv hasCaught).2 =
        [[JsValue.sqlError (GetSQLError HandleType.SQL_HANDLE_DBC self.m_hDBC none drv.diag)]]) := by
  have ht := uvRefCount_timeoutAttrs self
  unfold uvRefCount at ht
  constructor
  · intro hf
    refine ⟨?_, ?_, ?_⟩
    · simp [Open.task, UV_Open, UV_AfterOpen, h, hf]
    · cases hasCaught <;>
        simp [Open.task, UV_Open, UV_AfterOpen, h, hf, uvRefCount, fatalIfCaught, ht]
    · by_cases h1 : self.connectTimeout > 0 <;> by_cases h2 : self.loginTimeout > 0 <;>
        cases hasCaught <;>
        simp [Open.task, UV_Open, UV_AfterOpen, h, hf, fatalIfCaught, timeoutAttrs, h1, h2,
          callArgs]
  · intro hf
    refine ⟨?_, ?_, ?_⟩
    · simp [Open.task, UV_Open, UV_AfterOpen, h, hf]
    · cases hasCaught <;>
        simp [Open.task, UV_Open, UV_AfterOpen, h, hf, uvRefCount, fatalIfCaught, ht]
    · by_cases h1 : self.connectTimeout > 0 <;> by_cases h2 : self.loginTimeout > 0 <;>
        cases hasCaught <;>
        simp [Open.task, UV_Open, UV_AfterOpen, h, hf, fatalIfCaught, timeoutAttrs, h1, h2,
          callArgs]

/-- Claim C1, evaluated at the input where it fails: the connect call returns
`SQL_SUCCESS`, the temporary statement cannot be allocated and its free returns
`SQL_INVALID_HANDLE`.  `UV_Open` stores the code of the free, so `UV_AfterOpen`
leaves `connected` false, performs no `uv_ref` and hands an error to the
callback, while `OpenSync` on the same input sets `connected` and performs
`uv_ref` once. -/
theorem C1_open_reports_code_of_temporary_free :
    SQL_SUCCEEDED Driver.tempStmtFails.rConnect = true ∧
    (UV_Open freshConn (Open.workData "DSN=test") Driver.tempStmtFails).2.1.result
      = SQL_INVALID_HANDLE ∧
    (Open.task freshConn "DSN=test" Driver.tempStmtFails false).1.connected = false ∧
    uvRefCount (Open.task freshConn "DSN=test" Driver.tempStmtFails false).2 = 0 ∧
    callArgs (Open.task freshConn "DSN=test" Driver.tempStmtFails false).2 =
      [[JsValue.sqlError (GetSQLError HandleType.SQL_HANDLE_DBC 7 none
          Driver.tempStmtFails.diag)]] ∧
    (OpenSync freshConn "DSN=test" Driver.tempStmtFails).1.connected = true ∧
    uvRefCount (OpenSync freshConn "DSN=test" Driver.tempStmtFails).2.2 = 1 := by
  refine ⟨by decide, by decide, by decide, by decide, by decide, by decide, by decide⟩

/-! ## Close -/

theorem Free_handle_null (self : ODBCConnection) : (Free self).1.m_hDBC = 0 := by
  unfold Free
  by_cases h : self.m_hDBC = 0 <;> simp [h]

theorem Free_of_null (self : ODBCConnection) (h : self.m_hDBC = 0) : Free self = (self, []) := by
  simp [Free, h]

theorem Free_connected (self : ODBCConnection) : (Free self).1.connected = self.connected := by
  unfold Free
  by_cases h : self.m_hDBC = 0 <;> simp [h]

theorem uvUnrefCount_Free (self : ODBCConnection) : uvUnrefCount (Free self).2 = 0 := by
  unfold Free
  by_cases h : self.m_hDBC = 0 <;> simp [h, uvUnrefCount]

theorem uvUnrefCount_append (s t : List Event) :
    uvUnrefCount (s ++ t) = uvUnrefCount s + uvUnrefCount t := by
  simp [uvUnrefCount]

theorem uvUnrefCount_fatalIfCaught (b : Bool) : uvUnrefCount (fatalIfCaught b) = 0 := by
  cases b <;> rfl

/-- Claim C2 fails as stated: on an open connection, two calls of `CloseSync`
perform `uv_unref` twice in total (once per call), not once; so do two
completed async closes. -/
theorem C2_close_twice_unrefs_twice :
    uvUnrefCount ((CloseSync openConn).2.2 ++ (CloseSync (CloseSync openConn).1).2.2) = 2 ∧
    uvUnrefCount ((CloseSync openConn).2.2 ++ (CloseSync (CloseSync openConn).1).2.2) ≠ 1 ∧
    uvUnrefCount ((Close.task openConn false).2 ++
      (Close.task (Close.task openConn false).1 false).2) = 2 := by
  refine ⟨by decide, by decide, by decide⟩

/-- Claim C2 as amended: for every connection state, a second `CloseSync` (or
a second completed async close) leaves the connection object exactly as the
first one left it, with `connected` false and the native handle null, and
issues no driver call; each call performs one `uv_unref` of its own, so the
two calls perform two. -/
theorem C2_close_idempotent_on_connection_state (self : ODBCConnection) (hasCaught : Bool) :
    (CloseSync (CloseSync self).1).1 = (CloseSync self).1 ∧
    (CloseSync (CloseSync self).1).1.connected = false ∧
    (CloseSync (CloseSync self).1).1.m_hDBC = 0 ∧
    (CloseSync (CloseSync self).1).2.2 = [Event.uv_unref] ∧
    uvUnrefCount (CloseSync self).2.2 = 1 ∧
    uvUnrefCount ((CloseSync self).2.2 ++ (CloseSync (CloseSync self).1).2.2) = 2 ∧
    (Close.task (Close.task self hasCaught).1 hasCaught).1 = (Close.task self hasCaught).1 ∧
    (Close.task (Close.task self hasCaught).1 hasCaught).1.connected = false ∧
    (Close.task (Close.task self hasCaught).1 hasCaught).1.m_hDBC = 0 ∧
    driverCalls (Close.task (Close.task self hasCaught).1 hasCaught).2 = [] ∧
    uvUnrefCount (Close.task self hasCaught).2 = 1 ∧
    uvUnrefCount ((Close.task self hasCaught).2 ++
      (Close.task (Close.task self hasCaught).1 hasCaught).2) = 2 := by
  have hnull : (Free self).1.m_hDBC = 0 := Free_handle_null self
  have hsync : (CloseSync self).1.m_hDBC = 0 := by simp [CloseSync, hnull]
  have hfree2 : Free (CloseSync self).1 = ((CloseSync self).1, []) := Free_of_null _ hsync
  have hsync2 : CloseSync (CloseSync self).1 = ((CloseSync self).1, JsValue.boolean true,
      [Event.uv_unref]) := by
    rw [CloseSync, hfree2]
    simp [CloseSync]
  have hcount1 : uvUnrefCount (CloseSync self).2.2 = 1 := by
    simp [CloseSync, uvUnrefCount_append, uvUnrefCount_Free]
    rfl
  have htask : (Close.task self hasCaught).1.m_hDBC = 0 := by
    simp [Close.task, UV_Close, UV_AfterClose, hnull]
  have htaskc : (Close.task self hasCaught).1.connected = false := by
    simp [Close.task, UV_Close, UV_AfterClose]
  have hfree3 : Free (Close.task self hasCaught).1 = ((Close.task self hasCaught).1, []) :=
    Free_of_null _ htask
  have htask2 : Close.task (Close.task self hasCaught).1 hasCaught =
      ((Close.task self hasCaught).1,
        [Event.uv_unref, Event.Unref, Event.Call []] ++ fatalIfCaught hasCaught ++
          [Event.free Mem.cb, Event.free Mem.data, Event.free Mem.req]) := by
    have h1 : UV_Close (Close.task self hasCaught).1 { result := 0 } =
        ((Close.task self hasCaught).1, { result := 0 }, []) := by
      simp [UV_Close, hfree3]
    rw [Close.task, h1]
    simp only [UV_AfterClose]
    cases hc : (Close.task self hasCaught).1
    rw [hc] at htaskc
    simp at htaskc
    simp [htaskc]
  have hcountT : uvUnrefCount (Close.task self hasCaught).2 = 1 := by
    have hF := uvUnrefCount_Free self
    cases hasCaught <;>
      simp [Close.task, UV_Close, UV_AfterClose, uvUnrefCount_append, hF, fatalIfCaught] <;>
      simp [uvUnrefCount]
  refine ⟨?_, ?_, hsync2 ▸ hsync, ?_, hcount1, ?_, ?_, ?_, ?_, ?_, hcountT, ?_⟩
  · rw [hsync2]
  · rw [hsync2]; simp [CloseSync]
  · rw [hsync2]
  · rw [uvUnrefCount_append, hcount1, hsync2]; rfl
  · rw [htask2]
  · rw [htask2]; exact htaskc
  · rw [htask2]; exact htask
  · rw [htask2]; cases hasCaught <;> rfl
  · rw [uvUnrefCount_append, hcountT, htask2]; cases hasCaught <;> rfl

/-! ## EndTransaction -/

/-- Claim C3: for every pair of return codes of the completion call and the
autocommit reset, `UV_EndTransaction` stores the completion code when it is a
non-success code, the reset code when the completion succeeded and the reset
did not, and keeps the completion code in every other case, so the stored code
is a success code only when both calls succeeded; `EndTransactionSync` throws
in exactly the cases where the stored code is a non-success code, and when the
completion call failed it throws the error built from the diagnostics read
right after that call, before the reset is issued. -/
theorem C3_endTransaction_error_precedence (self : ODBCConnection) (data : query_work_data)
    (rollback : Bool) (drv : Driver) :
    (SQL_SUCCEEDED drv.rEndTran = false →
      (UV_EndTransaction self data drv).1.result = drv.rEndTran) ∧
    (SQL_SUCCEEDED drv.rEndTran = true → SQL_SUCCEEDED drv.rAutocommit = false →
      (UV_EndTransaction self data drv).1.result = drv.rAutocommit) ∧
    ((UV_EndTransaction self data drv).1.result ≠ drv.rEndTran →
      SQL_SUCCEEDED drv.rEndTran = true ∧ SQL_SUCCEEDED drv.rAutocommit = false) ∧
    (SQL_SUCCEEDED (UV_EndTransaction self data drv).1.result = true ↔
      (SQL_SUCCEEDED drv.rEndTran = true ∧ SQL_SUCCEEDED drv.rAutocommit = true)) ∧
    ((∃ e, (EndTransactionSync self rollback drv).1 = Except.error e) ↔
      SQL_SUCCEEDED (UV_EndTransaction self data drv).1.result = false) ∧
    (SQL_SUCCEEDED drv.rEndTran = false →
      (EndTransactionSync self rollback drv) =
        (Except.error (JsValue.sqlError
            (GetSQLError HandleType.SQL_HANDLE_DBC self.m_hDBC none drv.diagEndTran)),
         [Event.SQLEndTran self.m_hDBC (completionTypeOf rollback),
          Event.GetSQLError HandleType.SQL_HANDLE_DBC self.m_hDBC,
          Event.SQLSetConnectAttr self.m_hDBC ConnectAttr.SQL_ATTR_AUTOCOMMIT
            SQL_AUTOCOMMIT_ON])) ∧
    (SQL_SUCCEEDED drv.rEndTran = true → SQL_SUCCEEDED drv.rAutocommit = false →
      (EndTransactionSync self rollback drv).1 =
        Except.error (JsValue.sqlError
          (GetSQLError HandleType.SQL_HANDLE_DBC self.m_hDBC none drv.diag))) := by
  cases hE : SQL_SUCCEEDED drv.rEndTran <;> cases hA : SQL_SUCCEEDED drv.rAutocommit <;>
    simp [UV_EndTransaction, EndTransactionSync, hE, hA]

/-- Claim C4: for every rollback flag and every return code of the completion
call and of the reset, the driver calls of `UV_EndTransaction` and of
`EndTransactionSync` are the completion call followed by one
set-autocommit-on call, in that order; hence exactly one set-autocommit-on
call is issued, and in a driver where that call takes effect autocommit is on
afterwards, whatever it was before. -/
theorem C4_endTransaction_resets_autocommit (self : ODBCConnection) (rollback : Bool)
    (drv : Driver) (before : Bool) :
    (UV_EndTransaction self (EndTransaction.workData rollback) drv).2 =
      [Event.SQLEndTran self.m_hDBC (completionTypeOf rollback),
       Event.SQLSetConnectAttr self.m_hDBC ConnectAttr.SQL_ATTR_AUTOCOMMIT SQL_AUTOCOMMIT_ON] ∧
    driverCalls (EndTransactionSync self rollback drv).2 =
      [Event.SQLEndTran self.m_hDBC (completionTypeOf rollback),
       Event.SQLSetConnectAttr self.m_hDBC ConnectAttr.SQL_ATTR_AUTOCOMMIT SQL_AUTOCOMMIT_ON] ∧
    (UV_EndTransaction self (EndTransaction.workData rollback) drv).2.count
      (Event.SQLSetConnectAttr self.m_hDBC ConnectAttr.SQL_ATTR_AUTOCOMMIT SQL_AUTOCOMMIT_ON)
      = 1 ∧
    (EndTransactionSync self rollback drv).2.count
      (Event.SQLSetConnectAttr self.m_hDBC ConnectAttr.SQL_ATTR_AUTOCOMMIT SQL_AUTOCOMMIT_ON)
      = 1 ∧
    autocommitAfter before (UV_EndTransaction self (EndTransaction.workData rollback) drv).2
      = true ∧
    autocommitAfter before (EndTransactionSync self rollback drv).2 = true := by
  cases hE : SQL_SUCCEEDED drv.rEndTran <;> cases hA : SQL_SUCCEEDED drv.rAutocommit <;>
    simp [UV_EndTransaction, EndTransactionSync, EndTransaction.workData, hE, hA,
      query_work_data.calloc, driverCalls, Event.isDriverCall, autocommitAfter,
      SQL_AUTOCOMMIT_ON]

/-! ## Query: the completion -/

theorem freeParameter_isCleanup (prm : Parameter) :
    ∀ e ∈ freeParameter prm, Event.isCleanup e = true := by
  intro e he
  unfold freeParameter at he
  split_ifs at he <;> simp at he <;> subst he <;> rfl

theorem freeParameters_isCleanup (params : List Parameter) (paramCount : Nat) :
    ∀ e ∈ freeParameters params paramCount, Event.isCleanup e = true := by
  intro e he
  simp only [freeParameters, List.mem_flatten, List.mem_map] at he
  obtain ⟨l, ⟨prm, _, rfl⟩, hel⟩ := he
  exact freeParameter_isCleanup prm e hel

theorem cleanup_isCleanup (data : query_work_data) (hasCaught : Bool) :
    ∀ e ∈ UV_AfterQuery.cleanup data hasCaught, Event.isCleanup e = true := by
  intro e he
  simp only [UV_AfterQuery.cleanup, List.mem_append] at he
  rcases he with (((he | he) | he) | he) | he
  · simp at he; subst he; rfl
  · cases hasCaught <;> simp [fatalIfCaught] at he
    subst he; rfl
  · simp at he; subst he; rfl
  · split_ifs at he
    · rcases List.mem_append.mp he with h | h
      · exact freeParameters_isCleanup _ _ e h
      · simp at h; subst h; rfl
    · simp at he
  · simp at he
    rcases he with h | h | h | h | h | h | h | h <;> subst h <;> rfl

theorem callArgs_of_isCleanup (t : List Event) (h : ∀ e ∈ t, Event.isCleanup e = true) :
    callArgs t = [] := by
  induction t with
  | nil => rfl
  | cons e t ih =>
    have he := h e (List.mem_cons_self e t)
    have ht := ih (fun x hx => h x (List.mem_cons_of_mem e hx))
    cases e <;> simp [Event.isCleanup] at he <;> simp [callArgs, ht]

theorem callCount_of_isCleanup (t : List Event) (h : ∀ e ∈ t, Event.isCleanup e = true) :
    callCount t = 0 := by
  simp only [callCount, List.countP_eq_zero]
  intro e he
  have := h e he
  cases e <;> simp [Event.isCleanup] at this <;> simp [Event.isCall]

/-- Claim C5: when a result object was requested and the stored result code
is `SQL_ERROR`, `UV_AfterQuery` builds a Result object around the statement
handle of the task and invokes the callback once with two arguments: the error
translated from the diagnostics of that statement handle, and that Result
object; it frees no statement handle. -/
theorem C5_dual_channel_on_query_failure (self : ODBCConnection) (data : query_work_data)
    (diag : List DiagRec) (hasCaught : Bool)
    (hres : data.result = SQL_ERROR) (hobj : data.noResultObject = false) :
    callArgs (UV_AfterQuery self data diag hasCaught) =
      [[JsValue.sqlError (GetSQLError HandleType.SQL_HANDLE_STMT data.hSTMT
          (some "[node-odbc] SQL_ERROR") diag),
        JsValue.odbcResult self.m_hENV self.m_hDBC data.hSTMT true]] ∧
    Event.NewODBCResult self.m_hENV self.m_hDBC data.hSTMT true ∈
      UV_AfterQuery self data diag hasCaught ∧
    (∀ e ∈ UV_AfterQuery self data diag hasCaught, Event.isFreeStmt e = false) := by
  have hc := cleanup_isCleanup data hasCaught
  have hd : UV_AfterQuery.deliver self data diag =
      [Event.NewODBCResult self.m_hENV self.m_hDBC data.hSTMT true,
       Event.GetSQLError HandleType.SQL_HANDLE_STMT data.hSTMT,
       Event.Call [JsValue.sqlError (GetSQLError HandleType.SQL_HANDLE_STMT data.hSTMT
          (some "[node-odbc] SQL_ERROR") diag),
        JsValue.odbcResult self.m_hENV self.m_hDBC data.hSTMT true]] := by
    simp [UV_AfterQuery.deliver, hres, hobj]
  refine ⟨?_, ?_, ?_⟩
  · rw [UV_AfterQuery, callArgs_append, callArgs_of_isCleanup _ hc, hd]
    rfl
  · rw [UV_AfterQuery, hd]
    simp
  · intro e he
    rw [UV_AfterQuery, hd] at he
    rcases List.mem_append.mp he with h | h
    · simp at h
      rcases h with h | h | h <;> subst h <;> rfl
    · have := hc e h
      cases e <;> simp [Event.isCleanup] at this <;> rfl

/-- The hypotheses of claim C5 hold for a failed query on statement handle 9,
and the callback then receives the error and the Result object. -/
theorem C5_dual_channel_witness :
    failedQuery.result = SQL_ERROR ∧ failedQuery.noResultObject = false ∧
    callArgs (UV_AfterQuery openConn failedQuery sampleDiag false) =
      [[JsValue.sqlError (GetSQLError HandleType.SQL_HANDLE_STMT 9
          (some "[node-odbc] SQL_ERROR") sampleDiag),
        JsValue.odbcResult 1 7 9 true]] :=
  ⟨rfl, rfl,
    (C5_dual_channel_on_query_failure openConn failedQuery sampleDiag false rfl rfl).1⟩

/-- Claim C6 fails as stated: with `noResults: true` and the stored result
code `SQL_ERROR`, `UV_AfterQuery` builds a Result object and frees no
statement handle before the callback. -/
theorem C6_noResults_with_SQL_ERROR_builds_result :
    failedNoResultsQuery.noResultObject = true ∧
    Event.NewODBCResult 1 7 9 true ∈ UV_AfterQuery openConn failedNoResultsQuery sampleDiag false ∧
    (UV_AfterQuery openConn failedNoResultsQuery sampleDiag false).any Event.isFreeStmt
      = false := by
  refine ⟨rfl, by decide, by decide⟩

/-- Claim C6 as amended: with `noResults: true` and a stored result code
other than `SQL_ERROR`, `UV_AfterQuery` builds no Result object, and it frees
the statement handle of the task between a lock and an unlock of the mutex
before it invokes the callback, once, with `(null, true)`. -/
theorem C6_noResults_frees_statement_before_callback (self : ODBCConnection)
    (data : query_work_data) (diag : List DiagRec) (hasCaught : Bool)
    (hobj : data.noResultObject = true) (hres : data.result ≠ SQL_ERROR) :
    UV_AfterQuery self data diag hasCaught =
      [Event.uv_mutex_lock,
       Event.SQLFreeHandle HandleType.SQL_HANDLE_STMT data.hSTMT,
       Event.uv_mutex_unlock,
       Event.Call [JsValue.null, JsValue.boolean true]] ++
        UV_AfterQuery.cleanup data hasCaught ∧
    (∀ e ∈ UV_AfterQuery self data diag hasCaught, Event.isNewResult e = false) ∧
    callCount (UV_AfterQuery self data diag hasCaught) = 1 := by
  have hc := cleanup_isCleanup data hasCaught
  have hd : UV_AfterQuery.deliver self data diag =
      [Event.uv_mutex_lock,
       Event.SQLFreeHandle HandleType.SQL_HANDLE_STMT data.hSTMT,
       Event.uv_mutex_unlock,
       Event.Call [JsValue.null, JsValue.boolean true]] := by
    simp [UV_AfterQuery.deliver, hres, hobj]
  refine ⟨?_, ?_, ?_⟩
  · rw [UV_AfterQuery, hd]
  · intro e he
    rw [UV_AfterQuery, hd] at he
    rcases List.mem_append.mp he with h | h
    · simp at h
      rcases h with h | h | h | h <;> subst h <;> rfl
    · have := hc e h
      cases e <;> simp [Event.isCleanup] at this <;> rfl
  · rw [UV_AfterQuery, callCount_append, callCount_of_isCleanup _ hc, hd]
    rfl

/-- The hypotheses of amended claim C6 hold for a successful query submitted
with `noResults: true`; its completion frees statement handle 9 under the
mutex and then calls back. -/
theorem C6_noResults_witness :
    succeededNoResultsQuery.noResultObject = true ∧
    succeededNoResultsQuery.result ≠ SQL_ERROR ∧
    UV_AfterQuery openConn succeededNoResultsQuery [] false =
      [Event.uv_mutex_lock,
       Event.SQLFreeHandle HandleType.SQL_HANDLE_STMT 9,
       Event.uv_mutex_unlock,
       Event.Call [JsValue.null, JsValue.boolean true]] ++
        UV_AfterQuery.cleanup succeededNoResultsQuery false :=
  ⟨rfl, by decide,
    (C6_noResults_frees_statement_before_callback openConn succeededNoResultsQuery [] false
      rfl (by decide)).1⟩

/-! ## Query: the bind loops -/

theorem isCleanup_not_bind (e : Event) (h : Event.isCleanup e = true) :
    Event.isBind e = false ∧ Event.isExecDirect e = false := by
  cases e <;> simp [Event.isCleanup] at h <;> exact ⟨rfl, rfl⟩

theorem UV_Query_bindLoop_isBind (h : SQLHANDLE) (rBind : Nat → SQLRETURN) :
    ∀ (ps : List Parameter) (i : Nat), ∀ e ∈ (UV_Query.bindLoop h rBind i ps).2,
      Event.isBind e = true := by
  intro ps
  induction ps with
  | nil => intro i e he; simp [UV_Query.bindLoop] at he
  | cons prm rest ih =>
    intro i e he
    unfold UV_Query.bindLoop at he
    by_cases hr : rBind i = SQL_ERROR
    · simp [hr] at he; subst he; rfl
    · simp [hr] at he
      rcases he with he | he
      · subst he; rfl
      · exact ih (i + 1) e he

/-- A bind that is issued has a parameter number past the start of the loop,
and every bind before it returned something other than `SQL_ERROR`. -/
theorem UV_Query_bindLoop_mem (h : SQLHANDLE) (rBind : Nat → SQLRETURN) :
    ∀ (ps : List Parameter) (i n : Nat) (h1 : SQLHANDLE) (prm : Parameter),
      Event.SQLBindParameter h1 n prm ∈ (UV_Query.bindLoop h rBind i ps).2 →
      i + 1 ≤ n ∧ n ≤ i + ps.length ∧ ∀ j, i ≤ j → j + 1 < n → rBind j ≠ SQL_ERROR := by
  intro ps
  induction ps with
  | nil => intro i n h1 prm he; simp [UV_Query.bindLoop] at he
  | cons p rest ih =>
    intro i n h1 prm he
    unfold UV_Query.bindLoop at he
    by_cases hr : rBind i = SQL_ERROR
    · simp [hr] at he
      obtain ⟨_, hn, _⟩ := he
      subst hn
      refine ⟨le_refl _, by simp, ?_⟩
      intro j hj hlt
      omega
    · simp [hr] at he
      rcases he with ⟨_, hn, _⟩ | he
      · subst hn
        refine ⟨le_refl _, by simp, ?_⟩
        intro j hj hlt
        omega
      · obtain ⟨h2, h3, h4⟩ := ih (i + 1) n h1 prm he
        refine ⟨by omega, by simp only [List.length_cons]; omega, ?_⟩
        intro j hj hlt
        by_cases hji : j = i
        · subst hji; exact hr
        · exact h4 j (by omega) hlt

/-- The loop of `UV_Query` returns early, with `SQL_ERROR`, exactly when some
bind of the list is answered `SQL_ERROR`. -/
theorem UV_Query_bindLoop_result (h : SQLHANDLE) (rBind : Nat → SQLRETURN) :
    ∀ (ps : List Parameter) (i : Nat),
      ((UV_Query.bindLoop h rBind i ps).1 = some SQL_ERROR ∧
        ∃ j, i ≤ j ∧ j < i + ps.length ∧ rBind j = SQL_ERROR) ∨
      ((UV_Query.bindLoop h rBind i ps).1 = none ∧
        ∀ j, i ≤ j → j < i + ps.length → rBind j ≠ SQL_ERROR) := by
  intro ps
  induction ps with
  | nil =>
    intro i
    right
    refine ⟨rfl, ?_⟩
    intro j hj hlt
    simp at hlt
    omega
  | cons p rest ih =>
    intro i
    unfold UV_Query.bindLoop
    by_cases hr : rBind i = SQL_ERROR
    · left
      simp only [hr, if_true]
      exact ⟨trivial, i, le_refl _, by simp, hr⟩
    · simp only [hr, if_false]
      rcases ih (i + 1) with ⟨h1, j, hj1, hj2, hj3⟩ | ⟨h1, h2⟩
      · left
        exact ⟨h1, j, by omega, by simp only [List.length_cons]; omega, hj3⟩
      · right
        refine ⟨h1, ?_⟩
        intro j hj hlt
        by_cases hji : j = i
        · subst hji; exact hr
        · exact h2 j (by omega) (by simp only [List.length_cons] at hlt; omega)

/-- The two bind loops issue the same binds. -/
theorem QuerySync_bindLoop_events (h : SQLHANDLE) (rBind : Nat → SQLRETURN) :
    ∀ (ps : List Parameter) (i : Nat) (ret : SQLRETURN),
      (QuerySync.bindLoop h rBind i ps ret).2 = (UV_Query.bindLoop h rBind i ps).2 := by
  intro ps
  induction ps with
  | nil => intro i ret; rfl
  | cons p rest ih =>
    intro i ret
    unfold QuerySync.bindLoop UV_Query.bindLoop
    by_cases hr : rBind i = SQL_ERROR
    · simp [hr]
    · simp [hr, ih]

/-- The loop of `QuerySync` leaves `SQL_ERROR` in `ret` when some bind of the
list is answered `SQL_ERROR`. -/
theorem QuerySync_bindLoop_error (h : SQLHANDLE) (rBind : Nat → SQLRETURN) :
    ∀ (ps : List Parameter) (i : Nat) (ret : SQLRETURN),
      (∃ j, i ≤ j ∧ j < i + ps.length ∧ rBind j = SQL_ERROR) →
      (QuerySync.bindLoop h rBind i ps ret).1 = SQL_ERROR := by
  intro ps
  induction ps with
  | nil =>
    intro i ret hex
    obtain ⟨j, h1, h2, _⟩ := hex
    simp at h2
    omega
  | cons p rest ih =>
    intro i ret hex
    unfold QuerySync.bindLoop
    by_cases hr : rBind i = SQL_ERROR
    · simp [hr]
    · simp only [hr, if_false]
      obtain ⟨j, h1, h2, h3⟩ := hex
      apply ih (i + 1) (rBind i)
      refine ⟨j, ?_, by simp only [List.length_cons] at h2; omega, h3⟩
      by_cases hji : j = i
      · subst hji; exact absurd h3 hr
      · omega

/-! ## Query: the worker function and the first part of `QuerySync` -/

/-- The effects of `UV_Query` on the work data of `Query`: the allocation
under the mutex, the binds of the loop, and the direct execution unless the
loop returned early. -/
theorem UV_Query_trace (self : ODBCConnection) (sql : String) (params : List Parameter)
    (noResultObject : Bool) (drv : Driver) :
    (UV_Query self (Query.workData sql params noResultObject) drv).2 =
      [Event.uv_mutex_lock,
       Event.SQLAllocHandle HandleType.SQL_HANDLE_STMT self.m_hDBC,
       Event.uv_mutex_unlock] ++
      (UV_Query.bindLoop drv.hSTMT drv.rBind 0 params).2 ++
      (if (UV_Query.bindLoop drv.hSTMT drv.rBind 0 params).1 = none then
        [Event.SQLExecDirect drv.hSTMT (some sql) (Length sql)]
       else []) := by
  cases params with
  | nil => simp [UV_Query, Query.workData, query_work_data.calloc, UV_Query.bindLoop]
  | cons p rest =>
    simp only [UV_Query, Query.workData, query_work_data.calloc, List.length_cons,
      List.take_length]
    cases hb : (UV_Query.bindLoop drv.hSTMT drv.rBind 0 (p :: rest)).1 <;> simp [hb]

/-- The result code stored by `UV_Query` on the work data of `Query`: the code
of the early return of the loop, or else the code of the direct execution. -/
theorem UV_Query_result (self : ODBCConnection) (sql : String) (params : List Parameter)
    (noResultObject : Bool) (drv : Driver) :
    (UV_Query self (Query.workData sql params noResultObject) drv).1.result =
      ((UV_Query.bindLoop drv.hSTMT drv.rBind 0 params).1).getD drv.rExecDirect := by
  cases params with
  | nil => simp [UV_Query, Query.workData, query_work_data.calloc, UV_Query.bindLoop]
  | cons p rest =>
    simp only [UV_Query, Query.workData, query_work_data.calloc, List.length_cons,
      List.take_length]
    cases hb : (UV_Query.bindLoop drv.hSTMT drv.rBind 0 (p :: rest)).1 <;> simp [hb]

/-- The other fields `UV_Query` leaves in the work data of `Query`. -/
theorem UV_Query_fields (self : ODBCConnection) (sql : String) (params : List Parameter)
    (noResultObject : Bool) (drv : Driver) :
    (UV_Query self (Query.workData sql params noResultObject) drv).1.hSTMT = drv.hSTMT ∧
    (UV_Query self (Query.workData sql params noResultObject) drv).1.noResultObject
      = noResultObject := by
  cases params with
  | nil => simp [UV_Query, Query.workData, query_work_data.calloc, UV_Query.bindLoop]
  | cons p rest =>
    simp only [UV_Query, Query.workData, query_work_data.calloc, List.length_cons,
      List.take_length]
    cases hb : (UV_Query.bindLoop drv.hSTMT drv.rBind 0 (p :: rest)).1 <;> simp [hb]

/-- The first part of `QuerySync` when the statement allocation fails: nothing
is bound or executed and `ret` keeps the code of the allocation. -/
theorem QuerySync_execute_of_alloc_failed (self : ODBCConnection) (sql : String)
    (params : List Parameter) (drv : Driver) (h : SQL_SUCCEEDED drv.rAllocStmt = false) :
    QuerySync.execute self sql params drv =
      (drv.rAllocStmt,
        [Event.uv_mutex_lock,
         Event.SQLAllocHandle HandleType.SQL_HANDLE_STMT self.m_hDBC,
         Event.uv_mutex_unlock, Event.free Mem.sql]) := by
  simp [QuerySync.execute, h]

/-- The first part of `QuerySync` when the statement allocation succeeds. -/
theorem QuerySync_execute_of_alloc_succeeded (self : ODBCConnection) (sql : String)
    (params : List Parameter) (drv : Driver) (h : SQL_SUCCEEDED drv.rAllocStmt = true) :
    QuerySync.execute self sql params drv =
      ((if SQL_SUCCEEDED (QuerySync.bindLoop drv.hSTMT drv.rBind 0 params drv.rAllocStmt).1
          then drv.rExecDirect
          else (QuerySync.bindLoop drv.hSTMT drv.rBind 0 params drv.rAllocStmt).1),
        [Event.uv_mutex_lock,
         Event.SQLAllocHandle HandleType.SQL_HANDLE_STMT self.m_hDBC,
         Event.uv_mutex_unlock] ++
        ((QuerySync.bindLoop drv.hSTMT drv.rBind 0 params drv.rAllocStmt).2 ++
          (if SQL_SUCCEEDED (QuerySync.bindLoop drv.hSTMT drv.rBind 0 params drv.rAllocStmt).1
            then [Event.SQLExecDirect drv.hSTMT (some sql) (QuerySync.sqlLength sql drv)]
            else []) ++
          freeParameters params params.length ++ [Event.free Mem.params]) ++
        [Event.free Mem.sql]) := by
  cases params with
  | nil => simp [QuerySync.execute, h, QuerySync.bindLoop]
  | cons p rest =>
    simp only [QuerySync.execute, h, List.length_cons, List.take_length]
    cases hs : SQL_SUCCEEDED (QuerySync.bindLoop drv.hSTMT drv.rBind 0 (p :: rest)
      drv.rAllocStmt).1 <;> simp [hs]

/-! ## Query: the binds and the executions of both forms -/

theorem filter_isBind_of_isCleanup (t : List Event) (h : ∀ e ∈ t, Event.isCleanup e = true) :
    t.filter Event.isBind = [] ∧ t.filter Event.isExecDirect = [] := by
  constructor
  · rw [List.filter_eq_nil_iff]
    intro e he
    simp [(isCleanup_not_bind e (h e he)).1]
  · rw [List.filter_eq_nil_iff]
    intro e he
    simp [(isCleanup_not_bind e (h e he)).2]

theorem filter_bindLoop (h : SQLHANDLE) (rBind : Nat → SQLRETURN) (ps : List Parameter)
    (i : Nat) :
    (UV_Query.bindLoop h rBind i ps).2.filter Event.isBind = (UV_Query.bindLoop h rBind i ps).2 ∧
    (UV_Query.bindLoop h rBind i ps).2.filter Event.isExecDirect = [] := by
  have hb := UV_Query_bindLoop_isBind h rBind ps i
  constructor
  · rw [List.filter_eq_self]
    exact hb
  · rw [List.filter_eq_nil_iff]
    intro e he
    have := hb e he
    cases e <;> simp [Event.isBind] at this
    simp [Event.isExecDirect]

/-- The binds issued by `UV_Query` are those of its loop. -/
theorem UV_Query_binds (self : ODBCConnection) (sql : String) (params : List Parameter)
    (noResultObject : Bool) (drv : Driver) :
    (UV_Query self (Query.workData sql params noResultObject) drv).2.filter Event.isBind =
      (UV_Query.bindLoop drv.hSTMT drv.rBind 0 params).2 := by
  rw [UV_Query_trace]
  have hf := (filter_bindLoop drv.hSTMT drv.rBind params 0).1
  split_ifs <;> simp [List.filter_append, hf, Event.isBind]

/-- The executions issued by `UV_Query`: one unless the loop returned early. -/
theorem UV_Query_execs (self : ODBCConnection) (sql : String) (params : List Parameter)
    (noResultObject : Bool) (drv : Driver) :
    (UV_Query self (Query.workData sql params noResultObject) drv).2.filter Event.isExecDirect =
      if (UV_Query.bindLoop drv.hSTMT drv.rBind 0 params).1 = none then
        [Event.SQLExecDirect drv.hSTMT (some sql) (Length sql)]
      else [] := by
  rw [UV_Query_trace]
  have hf := (filter_bindLoop drv.hSTMT drv.rBind params 0).2
  split_ifs <;> simp [List.filter_append, hf, Event.isExecDirect]

/-- The effects of `QuerySync` after its first part contain no bind and no
execution. -/
theorem QuerySync_filter (self : ODBCConnection) (sql : String) (params : List Parameter)
    (noResultObject : Bool) (drv : Driver) :
    (QuerySync self sql params noResultObject drv).2.filter Event.isBind =
      (QuerySync.execute self sql params drv).2.filter Event.isBind ∧
    (QuerySync self sql params noResultObject drv).2.filter Event.isExecDirect =
      (QuerySync.execute self sql params drv).2.filter Event.isExecDirect := by
  by_cases h1 : (QuerySync.execute self sql params drv).1 = SQL_ERROR <;>
    cases noResultObject <;>
    simp [QuerySync, h1, List.filter_append, Event.isBind, Event.isExecDirect]

/-- The binds issued by `QuerySync`: those of the loop when the statement was
allocated, none otherwise. -/
theorem QuerySync_binds (self : ODBCConnection) (sql : String) (params : List Parameter)
    (noResultObject : Bool) (drv : Driver) :
    (QuerySync self sql params noResultObject drv).2.filter Event.isBind =
      if SQL_SUCCEEDED drv.rAllocStmt then (UV_Query.bindLoop drv.hSTMT drv.rBind 0 params).2
      else [] := by
  rw [(QuerySync_filter self sql params noResultObject drv).1]
  cases halloc : SQL_SUCCEEDED drv.rAllocStmt with
  | false =>
    rw [QuerySync_execute_of_alloc_failed self sql params drv halloc]
    simp [Event.isBind]
  | true =>
    rw [QuerySync_execute_of_alloc_succeeded self sql params drv halloc,
      QuerySync_bindLoop_events]
    have hf := (filter_bindLoop drv.hSTMT drv.rBind params 0).1
    have hc := (filter_isBind_of_isCleanup _ (freeParameters_isCleanup params params.length)).1
    cases hs : SQL_SUCCEEDED (QuerySync.bindLoop drv.hSTMT drv.rBind 0 params drv.rAllocStmt).1 <;>
      simp [List.filter_append, hf, hc, Event.isBind]

/-- The executions issued by `QuerySync`: one when the statement was allocated
and the loop left a success code in `ret`, none otherwise. -/
theorem QuerySync_execs (self : ODBCConnection) (sql : String) (params : List Parameter)
    (noResultObject : Bool) (drv : Driver) :
    (QuerySync self sql params noResultObject drv).2.filter Event.isExecDirect =
      if SQL_SUCCEEDED drv.rAllocStmt = true ∧
          SQL_SUCCEEDED (QuerySync.bindLoop drv.hSTMT drv.rBind 0 params drv.rAllocStmt).1 = true
      then [Event.SQLExecDirect drv.hSTMT (some sql) (QuerySync.sqlLength sql drv)]
      else [] := by
  rw [(QuerySync_filter self sql params noResultObject drv).2]
  cases halloc : SQL_SUCCEEDED drv.rAllocStmt with
  | false =>
    rw [QuerySync_execute_of_alloc_failed self sql params drv halloc]
    simp [Event.isExecDirect]
  | true =>
    rw [QuerySync_execute_of_alloc_succeeded self sql params drv halloc,
      QuerySync_bindLoop_events]
    have hf := (filter_bindLoop drv.hSTMT drv.rBind params 0).2
    have hc := (filter_isBind_of_isCleanup _ (freeParameters_isCleanup params params.length)).2
    cases hs : SQL_SUCCEEDED (QuerySync.bindLoop drv.hSTMT drv.rBind 0 params drv.rAllocStmt).1 <;>
      simp [List.filter_append, hf, hc, Event.isExecDirect]

theorem mem_filter_isBind (t : List Event) (h : SQLHANDLE) (n : Nat) (prm : Parameter) :
    Event.SQLBindParameter h n prm ∈ t ↔
      Event.SQLBindParameter h n prm ∈ t.filter Event.isBind := by
  simp [List.mem_filter, Event.isBind]

/-- A bind is issued by `UV_Query` exactly when it is issued by its loop. -/
theorem mem_UV_Query_bind (self : ODBCConnection) (sql : String) (params : List Parameter)
    (noResultObject : Bool) (drv : Driver) (h : SQLHANDLE) (n : Nat) (prm : Parameter) :
    Event.SQLBindParameter h n prm ∈
        (UV_Query self (Query.workData sql params noResultObject) drv).2 ↔
      Event.SQLBindParameter h n prm ∈ (UV_Query.bindLoop drv.hSTMT drv.rBind 0 params).2 := by
  rw [mem_filter_isBind, UV_Query_binds]

/-- A bind is issued by `QuerySync` exactly when the statement was allocated
and the loop issues it. -/
theorem mem_QuerySync_bind (self : ODBCConnection) (sql : String) (params : List Parameter)
    (noResultObject : Bool) (drv : Driver) (h : SQLHANDLE) (n : Nat) (prm : Parameter) :
    Event.SQLBindParameter h n prm ∈ (QuerySync self sql params noResultObject drv).2 ↔
      (SQL_SUCCEEDED drv.rAllocStmt = true ∧
        Event.SQLBindParameter h n prm ∈ (UV_Query.bindLoop drv.hSTMT drv.rBind 0 params).2) := by
  rw [mem_filter_isBind, QuerySync_binds]
  cases SQL_SUCCEEDED drv.rAllocStmt <;> simp

theorem no_exec_of_filter (t : List Event) (h : t.filter Event.isExecDirect = []) :
    ∀ e ∈ t, Event.isExecDirect e = false := by
  intro e he
  rw [List.filter_eq_nil_iff] at h
  simpa using h e he

/-! ## Query: binding errors -/

/-- Claim C7: for every parameter list and every assignment of return codes
to the binds, if the bind of parameter `k` (parameter number `k + 1`) is issued
and returns `SQL_ERROR`, then `UV_Query` and `QuerySync` bind no parameter
after it, never call `SQLExecDirect`, and the result code of the operation is
`SQL_ERROR` (so `QuerySync` throws the translated error). -/
theorem C7_bind_error_aborts_before_execution (self : ODBCConnection) (sql : String)
    (params : List Parameter) (noResultObject : Bool) (drv : Driver) (k : Nat)
    (herr : drv.rBind k = SQL_ERROR) :
    ((∃ h prm, Event.SQLBindParameter h (k + 1) prm ∈
        (UV_Query self (Query.workData sql params noResultObject) drv).2) →
      (∀ h n prm, Event.SQLBindParameter h n prm ∈
        (UV_Query self (Query.workData sql params noResultObject) drv).2 → n ≤ k + 1) ∧
      (∀ e ∈ (UV_Query self (Query.workData sql params noResultObject) drv).2,
        Event.isExecDirect e = false) ∧
      (UV_Query self (Query.workData sql params noResultObject) drv).1.result = SQL_ERROR) ∧
    ((∃ h prm, Event.SQLBindParameter h (k + 1) prm ∈
        (QuerySync self sql params noResultObject drv).2) →
      (∀ h n prm, Event.SQLBindParameter h n prm ∈
        (QuerySync self sql params noResultObject drv).2 → n ≤ k + 1) ∧
      (∀ e ∈ (QuerySync self sql params noResultObject drv).2,
        Event.isExecDirect e = false) ∧
      (QuerySync.execute self sql params drv).1 = SQL_ERROR ∧
      (QuerySync self sql params noResultObject drv).1 =
        Except.error (JsValue.sqlError (GetSQLError HandleType.SQL_HANDLE_STMT drv.hSTMT
          (some "[node-odbc] Error in ODBCConnection::QuerySync") drv.diag))) := by
  have hloop := UV_Query_bindLoop_mem drv.hSTMT drv.rBind params 0
  have hres := UV_Query_bindLoop_result drv.hSTMT drv.rBind params 0
  -- a bind of number `k + 1` inside the loop forces the early return
  have hearly : (∃ h prm, Event.SQLBindParameter h (k + 1) prm ∈
      (UV_Query.bindLoop drv.hSTMT drv.rBind 0 params).2) →
      (UV_Query.bindLoop drv.hSTMT drv.rBind 0 params).1 = some SQL_ERROR ∧
      ∃ j, 0 ≤ j ∧ j < 0 + params.length ∧ drv.rBind j = SQL_ERROR := by
    rintro ⟨h, prm, hmem⟩
    obtain ⟨_, hle, _⟩ := hloop (k + 1) h prm hmem
    rcases hres with h1 | ⟨_, h2⟩
    · exact h1
    · exact absurd herr (h2 k (Nat.zero_le k) (by omega))
  have hlater : ∀ h n prm, Event.SQLBindParameter h n prm ∈
      (UV_Query.bindLoop drv.hSTMT drv.rBind 0 params).2 → n ≤ k + 1 := by
    intro h n prm hmem
    obtain ⟨_, _, hno⟩ := hloop n h prm hmem
    by_contra hlt
    exact hno k (Nat.zero_le k) (by omega) herr
  constructor
  · -- the worker function of the async form
    intro hex
    simp only [mem_UV_Query_bind] at hex ⊢
    obtain ⟨hsome, _⟩ := hearly hex
    refine ⟨hlater, ?_, ?_⟩
    · apply no_exec_of_filter
      rw [UV_Query_execs, hsome]
      simp
    · rw [UV_Query_result, hsome]
      rfl
  · -- the sync form
    intro hex
    simp only [mem_QuerySync_bind] at hex ⊢
    cases halloc : SQL_SUCCEEDED drv.rAllocStmt with
    | false => simp [halloc] at hex
    | true =>
      simp only [halloc, true_and] at hex ⊢
      obtain ⟨_, hj⟩ := hearly hex
      have hret := QuerySync_bindLoop_error drv.hSTMT drv.rBind params 0 drv.rAllocStmt hj
      have hrun : (QuerySync.execute self sql params drv).1 = SQL_ERROR := by
        rw [QuerySync_execute_of_alloc_succeeded self sql params drv halloc, hret]
        simp [SQL_SUCCEEDED_SQL_ERROR]
      refine ⟨hlater, ?_, hrun, ?_⟩
      · apply no_exec_of_filter
        rw [QuerySync_execs, hret]
        simp [SQL_SUCCEEDED_SQL_ERROR]
      · simp [QuerySync, hrun]

/-- The hypotheses of claim C7 hold for a two-parameter query whose first bind
is rejected: the first bind is issued in both forms, no execution follows and
the result code is `SQL_ERROR`. -/
theorem C7_bind_error_witness :
    Driver.firstBindFails.rBind 0 = SQL_ERROR ∧
    Event.SQLBindParameter 9 1 stringParam ∈
      (UV_Query openConn (Query.workData "INSERT INTO t VALUES (?, ?)"
        [stringParam, intParam] false) Driver.firstBindFails).2 ∧
    Event.SQLBindParameter 9 1 stringParam ∈
      (QuerySync openConn "INSERT INTO t VALUES (?, ?)" [stringParam, intParam] false
        Driver.firstBindFails).2 ∧
    (UV_Query openConn (Query.workData "INSERT INTO t VALUES (?, ?)"
        [stringParam, intParam] false) Driver.firstBindFails).1.result = SQL_ERROR ∧
    (QuerySync.execute openConn "INSERT INTO t VALUES (?, ?)" [stringParam, intParam]
        Driver.firstBindFails).1 = SQL_ERROR :=
  ⟨rfl, by decide, by decide,
    ((C7_bind_error_aborts_before_execution openConn "INSERT INTO t VALUES (?, ?)"
      [stringParam, intParam] false Driver.firstBindFails 0 rfl).1
        ⟨9, stringParam, by decide⟩).2.2,
    ((C7_bind_error_aborts_before_execution openConn "INSERT INTO t VALUES (?, ?)"
      [stringParam, intParam] false Driver.firstBindFails 0 rfl).2
        ⟨9, stringParam, by decide⟩).2.2.1⟩

/-! ## Query: the outcome of both forms -/

theorem callArgs_of_no_call (t : List Event) (h : ∀ e ∈ t, Event.isCall e = false) :
    callArgs t = [] := by
  induction t with
  | nil => rfl
  | cons e t ih =>
    have he := h e (List.mem_cons_self e t)
    have ht := ih (fun x hx => h x (List.mem_cons_of_mem e hx))
    cases e <;> simp [Event.isCall] at he <;> simp [callArgs, ht]

theorem callArgs_bindLoop (h : SQLHANDLE) (rBind : Nat → SQLRETURN) (ps : List Parameter)
    (i : Nat) : callArgs (UV_Query.bindLoop h rBind i ps).2 = [] := by
  apply callArgs_of_no_call
  intro e he
  have := UV_Query_bindLoop_isBind h rBind ps i e he
  cases e <;> simp [Event.isBind] at this
  rfl

/-- The worker function `UV_Query` never invokes the callback. -/
theorem callArgs_UV_Query (self : ODBCConnection) (sql : String) (params : List Parameter)
    (noResultObject : Bool) (drv : Driver) :
    callArgs (UV_Query self (Query.workData sql params noResultObject) drv).2 = [] := by
  rw [UV_Query_trace, callArgs_append, callArgs_append, callArgs_bindLoop]
  split_ifs <;> rfl

/-- The arguments of the one callback invocation of `UV_AfterQuery`. -/
theorem callArgs_UV_AfterQuery (self : ODBCConnection) (data : query_work_data)
    (diag : List DiagRec) (hasCaught : Bool) :
    callArgs (UV_AfterQuery self data diag hasCaught) =
      [if data.result != SQL_ERROR && data.noResultObject then
          [JsValue.null, JsValue.boolean true]
        else if data.result == SQL_ERROR then
          [JsValue.sqlError (GetSQLError HandleType.SQL_HANDLE_STMT data.hSTMT
              (some "[node-odbc] SQL_ERROR") diag),
            JsValue.odbcResult self.m_hENV self.m_hDBC data.hSTMT true]
        else [JsValue.null, JsValue.odbcResult self.m_hENV self.m_hDBC data.hSTMT true]] := by
  rw [UV_AfterQuery, callArgs_append,
    callArgs_of_isCleanup _ (cleanup_isCleanup data hasCaught), UV_AfterQuery.deliver]
  by_cases h1 : data.result = SQL_ERROR <;> cases h2 : data.noResultObject <;>
    simp [h1, h2, callArgs]

/-- The completion `UV_AfterQuery` binds and executes nothing. -/
theorem UV_AfterQuery_filter (self : ODBCConnection) (data : query_work_data)
    (diag : List DiagRec) (hasCaught : Bool) :
    (UV_AfterQuery self data diag hasCaught).filter Event.isExecDirect = [] ∧
    (UV_AfterQuery self data diag hasCaught).filter Event.isBind = [] := by
  have hc := filter_isBind_of_isCleanup _ (cleanup_isCleanup data hasCaught)
  rw [UV_AfterQuery, UV_AfterQuery.deliver]
  by_cases h1 : data.result = SQL_ERROR <;> cases h2 : data.noResultObject <;>
    simp [h1, h2, List.filter_append, hc.1, hc.2, Event.isExecDirect, Event.isBind]

/-- The outcome of the async `Query`, in terms of the bind loop and of the
code stored by `UV_Query`. -/
theorem asyncOutcome_Query_task (self : ODBCConnection) (sql : String)
    (params : List Parameter) (noResultObject : Bool) (drv : Driver) (hasCaught : Bool) :
    asyncOutcome (Query.task self sql params noResultObject drv hasCaught) =
      { executed := decide ((UV_Query.bindLoop drv.hSTMT drv.rBind 0 params).1 = none),
        error := decide (((UV_Query.bindLoop drv.hSTMT drv.rBind 0 params).1).getD
          drv.rExecDirect = SQL_ERROR),
        result := !(decide (((UV_Query.bindLoop drv.hSTMT drv.rBind 0 params).1).getD
          drv.rExecDirect ≠ SQL_ERROR) && noResultObject),
        sentinel := decide (((UV_Query.bindLoop drv.hSTMT drv.rBind 0 params).1).getD
          drv.rExecDirect ≠ SQL_ERROR) && noResultObject } := by
  have hres := UV_Query_result self sql params noResultObject drv
  have hfld := UV_Query_fields self sql params noResultObject drv
  have hex := UV_Query_execs self sql params noResultObject drv
  have hca := callArgs_UV_Query self sql params noResultObject drv
  have haf := UV_AfterQuery_filter self
    (UV_Query self (Query.workData sql params noResultObject) drv).1 drv.diag hasCaught
  have hcb := callArgs_UV_AfterQuery self
    (UV_Query self (Query.workData sql params noResultObject) drv).1 drv.diag hasCaught
  rw [hres, hfld.1, hfld.2] at hcb
  simp only [asyncOutcome, Query.task, List.filter_append, callArgs_append, hex, hca, haf.1,
    hcb, List.nil_append, List.append_nil, List.headD_cons]
  cases h3 : (UV_Query.bindLoop drv.hSTMT drv.rBind 0 params).1 with
  | none =>
    by_cases h1 : drv.rExecDirect = SQL_ERROR <;> cases noResultObject <;>
      simp [h1, JsValue.isResult]
  | some r =>
    by_cases h1 : r = SQL_ERROR <;> cases noResultObject <;>
      simp [h1, JsValue.isResult]

/-- The outcome of `QuerySync`, in terms of the final value of `ret`. -/
theorem syncOutcome_QuerySync (self : ODBCConnection) (sql : String)
    (params : List Parameter) (noResultObject : Bool) (drv : Driver) :
    syncOutcome (QuerySync self sql params noResultObject drv) =
      { executed := decide (SQL_SUCCEEDED drv.rAllocStmt = true ∧
          SQL_SUCCEEDED (QuerySync.bindLoop drv.hSTMT drv.rBind 0 params drv.rAllocStmt).1
            = true),
        error := decide ((QuerySync.execute self sql params drv).1 = SQL_ERROR),
        result := decide ((QuerySync.execute self sql params drv).1 ≠ SQL_ERROR) &&
          !noResultObject,
        sentinel := decide ((QuerySync.execute self sql params drv).1 ≠ SQL_ERROR) &&
          noResultObject } := by
  have hex := QuerySync_execs self sql params noResultObject drv
  simp only [syncOutcome, hex]
  by_cases h1 : (QuerySync.execute self sql params drv).1 = SQL_ERROR <;>
    cases noResultObject <;>
    by_cases h3 : (SQL_SUCCEEDED drv.rAllocStmt = true ∧
      SQL_SUCCEEDED (QuerySync.bindLoop drv.hSTMT drv.rBind 0 params drv.rAllocStmt).1
        = true) <;>
    simp [QuerySync, h1, h3, JsValue.isResult]

/-- When every bind is answered with a success code or with `SQL_ERROR`, the
loop of `QuerySync`, entered with a success code in `ret`, leaves a success
code exactly when the loop of `UV_Query` does not return early, and leaves
`SQL_ERROR` otherwise. -/
theorem bindLoops_agree (h : SQLHANDLE) (rBind : Nat → SQLRETURN) :
    ∀ (ps : List Parameter) (i : Nat) (ret : SQLRETURN), SQL_SUCCEEDED ret = true →
      (∀ j, i ≤ j → j < i + ps.length →
        rBind j = SQL_ERROR ∨ SQL_SUCCEEDED (rBind j) = true) →
      ((UV_Query.bindLoop h rBind i ps).1 = none ∧
        SQL_SUCCEEDED (QuerySync.bindLoop h rBind i ps ret).1 = true) ∨
      ((UV_Query.bindLoop h rBind i ps).1 = some SQL_ERROR ∧
        (QuerySync.bindLoop h rBind i ps ret).1 = SQL_ERROR) := by
  intro ps
  induction ps with
  | nil =>
    intro i ret hret _
    left
    exact ⟨rfl, hret⟩
  | cons p rest ih =>
    intro i ret hret hall
    unfold UV_Query.bindLoop QuerySync.bindLoop
    by_cases hr : rBind i = SQL_ERROR
    · right
      simp [hr]
    · simp only [hr, if_false]
      have hi : SQL_SUCCEEDED (rBind i) = true := by
        rcases hall i (le_refl i) (by simp) with h1 | h1
        · exact absurd h1 hr
        · exact h1
      apply ih (i + 1) (rBind i) hi
      intro j hj hlt
      exact hall j (by omega) (by simp only [List.length_cons]; omega)

/-! ## Query: the sync and async forms compared -/

/-- Claim C8 fails as stated: when the execution returns `SQL_ERROR` and a
result object was requested, both forms execute the SQL and report an error,
but the async callback also receives a Result object while `QuerySync` yields
none. -/
theorem C8_failed_query_yields_result_only_async :
    asyncOutcome (Query.task openConn "SELECT * FROM missing" [] false Driver.execFails false) =
      { executed := true, error := true, result := true, sentinel := false } ∧
    syncOutcome (QuerySync openConn "SELECT * FROM missing" [] false Driver.execFails) =
      { executed := true, error := true, result := false, sentinel := false } ∧
    asyncOutcome (Query.task openConn "SELECT * FROM missing" [] false Driver.execFails false) ≠
      syncOutcome (QuerySync openConn "SELECT * FROM missing" [] false Driver.execFails) := by
  refine ⟨by decide, by decide, by decide⟩

/-- Claim C8 as amended: for the same driver return codes, when the statement
allocation returns a success code and every bind returns a success code or
`SQL_ERROR`, `QuerySync` and the async `Query` execute the SQL in exactly the
same cases, report an error in exactly the same cases and yield the `true`
sentinel in exactly the same cases; when no error is reported they yield a
Result object in exactly the same cases, and when an error is reported the
async callback receives a Result object as well while `QuerySync` yields
none. -/
theorem C8_query_forms_agree_when_statement_allocated (self : ODBCConnection) (sql : String)
    (params : List Parameter) (noResultObject : Bool) (drv : Driver) (hasCaught : Bool)
    (halloc : SQL_SUCCEEDED drv.rAllocStmt = true)
    (hbind : ∀ i, i < params.length →
      drv.rBind i = SQL_ERROR ∨ SQL_SUCCEEDED (drv.rBind i) = true) :
    (asyncOutcome (Query.task self sql params noResultObject drv hasCaught)).executed =
      (syncOutcome (QuerySync self sql params noResultObject drv)).executed ∧
    (asyncOutcome (Query.task self sql params noResultObject drv hasCaught)).error =
      (syncOutcome (QuerySync self sql params noResultObject drv)).error ∧
    (asyncOutcome (Query.task self sql params noResultObject drv hasCaught)).sentinel =
      (syncOutcome (QuerySync self sql params noResultObject drv)).sentinel ∧
    ((asyncOutcome (Query.task self sql params noResultObject drv hasCaught)).error = false →
      (asyncOutcome (Query.task self sql params noResultObject drv hasCaught)).result =
        (syncOutcome (QuerySync self sql params noResultObject drv)).result) ∧
    ((asyncOutcome (Query.task self sql params noResultObject drv hasCaught)).error = true →
      (asyncOutcome (Query.task self sql params noResultObject drv hasCaught)).result = true ∧
      (syncOutcome (QuerySync self sql params noResultObject drv)).result = false) := by
  have hloops := bindLoops_agree drv.hSTMT drv.rBind params 0 drv.rAllocStmt halloc
    (fun j _ hlt => hbind j (by omega))
  have hexec := QuerySync_execute_of_alloc_succeeded self sql params drv halloc
  rw [asyncOutcome_Query_task, syncOutcome_QuerySync, hexec]
  rcases hloops with ⟨h1, h2⟩ | ⟨h1, h2⟩
  · by_cases h3 : drv.rExecDirect = SQL_ERROR <;> cases noResultObject <;>
      simp [h1, h2, h3, halloc]
  · cases noResultObject <;> simp [h1, h2, halloc, SQL_SUCCEEDED_SQL_ERROR]

/-- The hypotheses of amended claim C8 hold for a two-parameter query whose
first bind is rejected: neither form executes the SQL and both report an
error. -/
theorem C8_query_forms_witness :
    SQL_SUCCEEDED Driver.firstBindFails.rAllocStmt = true ∧
    (∀ i, i < [stringParam, intParam].length →
      Driver.firstBindFails.rBind i = SQL_ERROR ∨
        SQL_SUCCEEDED (Driver.firstBindFails.rBind i) = true) ∧
    (asyncOutcome (Query.task openConn "INSERT INTO t VALUES (?, ?)" [stringParam, intParam]
        false Driver.firstBindFails false)).executed =
      (syncOutcome (QuerySync openConn "INSERT INTO t VALUES (?, ?)" [stringParam, intParam]
        false Driver.firstBindFails)).executed ∧
    (asyncOutcome (Query.task openConn "INSERT INTO t VALUES (?, ?)" [stringParam, intParam]
        false Driver.firstBindFails false)).error =
      (syncOutcome (QuerySync openConn "INSERT INTO t VALUES (?, ?)" [stringParam, intParam]
        false Driver.firstBindFails)).error :=
  have hb : ∀ i, i < [stringParam, intParam].length →
      Driver.firstBindFails.rBind i = SQL_ERROR ∨
        SQL_SUCCEEDED (Driver.firstBindFails.rBind i) = true := by
    intro i _
    by_cases hi : i = 0
    · left; simp [Driver.firstBindFails, hi]
    · right; simp [Driver.firstBindFails, hi]; rfl
  ⟨rfl, hb,
    (C8_query_forms_agree_when_statement_allocated openConn "INSERT INTO t VALUES (?, ?)"
      [stringParam, intParam] false Driver.firstBindFails false rfl hb).1,
    (C8_query_forms_agree_when_statement_allocated openConn "INSERT INTO t VALUES (?, ?)"
      [stringParam, intParam] false Driver.firstBindFails false rfl hb).2.1⟩

/-! ## Query: which codes are reported as errors -/

/-- Claim C9 fails as stated: when the stored result code is
`SQL_INVALID_HANDLE`, a non-success code, the callback of `UV_AfterQuery`
receives `null` as its error argument, and `QuerySync` returns a Result object
instead of throwing. -/
theorem C9_invalid_handle_is_not_reported :
    SQL_SUCCEEDED SQL_INVALID_HANDLE = false ∧
    invalidHandleQuery.result = SQL_INVALID_HANDLE ∧
    callArgs (UV_AfterQuery openConn invalidHandleQuery sampleDiag false) =
      [[JsValue.null, JsValue.odbcResult 1 7 9 true]] ∧
    (QuerySync.execute openConn "SELECT 1" [] Driver.execInvalidHandle).1 = SQL_INVALID_HANDLE ∧
    (QuerySync openConn "SELECT 1" [] false Driver.execInvalidHandle).1 =
      Except.ok (JsValue.odbcResult 1 7 9 true) := by
  refine ⟨by decide, rfl, by decide, by decide, rfl⟩

/-- Claim C9 as amended: for every stored result code, `UV_AfterQuery` hands
the callback the error translated from the statement handle when the code
equals `SQL_ERROR`, and `null` for every other code; `QuerySync` throws the
translated error when the final code equals `SQL_ERROR` and returns a value
for every other code. -/
theorem C9_error_reported_iff_SQL_ERROR (self : ODBCConnection) (data : query_work_data)
    (diag : List DiagRec) (hasCaught : Bool) (sql : String) (params : List Parameter)
    (noResultObject : Bool) (drv : Driver) :
    (data.result = SQL_ERROR →
      callArgs (UV_AfterQuery self data diag hasCaught) =
        [[JsValue.sqlError (GetSQLError HandleType.SQL_HANDLE_STMT data.hSTMT
            (some "[node-odbc] SQL_ERROR") diag),
          JsValue.odbcResult self.m_hENV self.m_hDBC data.hSTMT true]]) ∧
    (data.result ≠ SQL_ERROR →
      ∃ v, callArgs (UV_AfterQuery self data diag hasCaught) = [[JsValue.null, v]]) ∧
    ((asyncOutcome (UV_AfterQuery self data diag hasCaught)).error = true ↔
      data.result = SQL_ERROR) ∧
    ((QuerySync.execute self sql params drv).1 = SQL_ERROR →
      (QuerySync self sql params noResultObject drv).1 =
        Except.error (JsValue.sqlError (GetSQLError HandleType.SQL_HANDLE_STMT drv.hSTMT
          (some "[node-odbc] Error in ODBCConnection::QuerySync") drv.diag))) ∧
    ((QuerySync.execute self sql params drv).1 ≠ SQL_ERROR →
      ∃ v, (QuerySync self sql params noResultObject drv).1 = Except.ok v) ∧
    ((syncOutcome (QuerySync self sql params noResultObject drv)).error = true ↔
      (QuerySync.execute self sql params drv).1 = SQL_ERROR) := by
  have hcb := callArgs_UV_AfterQuery self data diag hasCaught
  refine ⟨?_, ?_, ?_, ?_, ?_, ?_⟩
  · intro h
    rw [hcb]
    simp [h]
  · intro h
    rw [hcb]
    cases h2 : data.noResultObject <;> simp [h, h2]
  · simp only [asyncOutcome, hcb, List.headD_cons]
    by_cases h : data.result = SQL_ERROR <;> cases h2 : data.noResultObject <;> simp [h, h2]
  · intro h
    simp [QuerySync, h]
  · intro h
    cases noResultObject <;> simp [QuerySync, h]
  · rw [syncOutcome_QuerySync]
    simp

/-! ## Completions invoke the callback once -/

/-- Claim C10: for every stored result code, option value, parameter list and
behaviour of the callback, each completion function (`UV_AfterOpen`,
`UV_AfterClose`, `UV_AfterCreateStatement`, `UV_AfterQuery`, which also
completes `Tables` and `Columns`, `UV_AfterBeginTransaction` and
`UV_AfterEndTransaction`, whatever their cast of the work data reads) invokes
the user callback exactly once. -/
theorem C10_completion_calls_back_exactly_once (self : ODBCConnection)
    (openData : open_connection_work_data) (closeData : close_connection_work_data)
    (stmtData : create_statement_work_data) (queryData : query_work_data)
    (cast : WorkDataCast) (diag : List DiagRec) (hasCaught : Bool) :
    callCount (UV_AfterOpen self openData diag hasCaught).2 = 1 ∧
    callCount (UV_AfterClose self closeData hasCaught).2 = 1 ∧
    callCount (UV_AfterCreateStatement self stmtData hasCaught) = 1 ∧
    callCount (UV_AfterQuery self queryData diag hasCaught) = 1 ∧
    callCount (UV_AfterBeginTransaction self cast queryData diag hasCaught) = 1 ∧
    callCount (UV_AfterEndTransaction self cast queryData diag hasCaught) = 1 := by
  refine ⟨?_, ?_, ?_, ?_, ?_, ?_⟩
  · by_cases h : openData.result = 0 <;> cases hasCaught <;>
      simp [UV_AfterOpen, fatalIfCaught, callCount, Event.isCall, h]
  · by_cases h : closeData.result = 0 <;> cases hasCaught <;>
      simp [UV_AfterClose, fatalIfCaught, callCount, Event.isCall, h]
  · cases hasCaught <;>
      simp [UV_AfterCreateStatement, fatalIfCaught, callCount, Event.isCall]
  · rw [UV_AfterQuery, callCount_append,
      callCount_of_isCleanup _ (cleanup_isCleanup queryData hasCaught), UV_AfterQuery.deliver]
    by_cases h1 : queryData.result = SQL_ERROR <;> cases h2 : queryData.noResultObject <;>
      simp [h1, h2, callCount, Event.isCall]
  · cases h : SQL_SUCCEEDED (cast queryData).result <;> cases hasCaught <;>
      simp [UV_AfterBeginTransaction, fatalIfCaught, callCount, Event.isCall, h]
  · cases h : SQL_SUCCEEDED (cast queryData).result <;> cases hasCaught <;>
      simp [UV_AfterEndTransaction, fatalIfCaught, callCount, Event.isCall, h]

/-! ## The arguments handed to the callback -/

/-- Claim C11 fails as stated: on success the completions of `Open` and
`Close` invoke the callback with no argument at all, so the error and the
success payload are both absent. -/
theorem C11_success_callback_has_no_argument :
    callArgs (UV_AfterOpen freshConn (Open.workData "DSN=test") [] false).2 = [[]] ∧
    callArgs (UV_AfterClose openConn { result := 0 } false).2 = [[]] := by
  refine ⟨by decide, by decide⟩

/-- Claim C11 as amended: the completions of `CreateStatement`, `Query`,
`Tables` and `Columns` always hand the callback a success payload as second
argument (a Statement object, a Result object or `true`), together with an
error or `null` as first argument; the completions of `Open` and `Close` hand
it exactly one argument, the error, on failure, and no argument on success;
the completions of `BeginTransaction` and `EndTransaction` hand it either no
argument at all or exactly one argument, the error, whatever their cast of the
work data reads. -/
theorem C11_callback_arguments (self : ODBCConnection)
    (openData : open_connection_work_data) (closeData : close_connection_work_data)
    (stmtData : create_statement_work_data) (queryData : query_work_data)
    (cast : WorkDataCast) (diag : List DiagRec) (hasCaught : Bool) :
    callArgs (UV_AfterCreateStatement self stmtData hasCaught) =
      [[JsValue.null, JsValue.odbcStatement self.m_hENV self.m_hDBC stmtData.hSTMT]] ∧
    (∃ first second, callArgs (UV_AfterQuery self queryData diag hasCaught) = [[first, second]] ∧
      (second = JsValue.boolean true ∨
        second = JsValue.odbcResult self.m_hENV self.m_hDBC queryData.hSTMT true)) ∧
    callArgs (UV_AfterOpen self openData diag hasCaught).2 =
      [if openData.result = 0 then []
       else [JsValue.sqlError (GetSQLError HandleType.SQL_HANDLE_DBC self.m_hDBC none diag)]] ∧
    callArgs (UV_AfterClose self closeData hasCaught).2 =
      [if closeData.result = 0 then [] else [JsValue.error "Error closing database"]] ∧
    (callArgs (UV_AfterBeginTransaction self cast queryData diag hasCaught) = [[]] ∨
      callArgs (UV_AfterBeginTransaction self cast queryData diag hasCaught) =
        [[JsValue.sqlError (GetSQLError HandleType.SQL_HANDLE_DBC self.m_hDBC none diag)]]) ∧
    (callArgs (UV_AfterEndTransaction self cast queryData diag hasCaught) = [[]] ∨
      callArgs (UV_AfterEndTransaction self cast queryData diag hasCaught) =
        [[JsValue.sqlError (GetSQLError HandleType.SQL_HANDLE_DBC self.m_hDBC none diag)]]) := by
  refine ⟨?_, ?_, ?_, ?_, ?_, ?_⟩
  · cases hasCaught <;> simp [UV_AfterCreateStatement, fatalIfCaught, callArgs]
  · rw [callArgs_UV_AfterQuery]
    by_cases h1 : queryData.result = SQL_ERROR <;> cases h2 : queryData.noResultObject <;>
      simp only [h1, h2, bne_self_eq_false, Bool.false_and, Bool.and_false, Bool.and_true,
        beq_self_eq_true, if_true, if_false, Bool.false_eq_true, bne_iff_ne, ne_eq,
        not_false_eq_true, decide_True, decide_False, beq_iff_eq, Bool.and_self,
        Bool.true_and, decide_eq_true_eq, not_true_eq_false]
    · exact ⟨_, _, rfl, Or.inr rfl⟩
    · exact ⟨_, _, rfl, Or.inr rfl⟩
    · exact ⟨_, _, rfl, Or.inr rfl⟩
    · exact ⟨_, _, rfl, Or.inl rfl⟩
  · by_cases h : openData.result = 0 <;> cases hasCaught <;>
      simp [UV_AfterOpen, fatalIfCaught, callArgs, h]
  · by_cases h : closeData.result = 0 <;> cases hasCaught <;>
      simp [UV_AfterClose, fatalIfCaught, callArgs, h]
  · cases h : SQL_SUCCEEDED (cast queryData).result <;> cases hasCaught <;>
      simp [UV_AfterBeginTransaction, fatalIfCaught, callArgs, h]
  · cases h : SQL_SUCCEEDED (cast queryData).result <;> cases hasCaught <;>
      simp [UV_AfterEndTransaction, fatalIfCaught, callArgs, h]

/-! ## Query: the argument shapes -/

/-- Claim C12 fails as stated: an options object that carries no `sql`
property is none of the three shapes of the claim, yet `Query` accepts it,
takes the empty string as SQL text, queues one task and takes one reference;
so it does for an array given in place of the options object. -/
theorem C12_object_without_sql_is_accepted :
    claimedQueryShape [JsArg.object none none none, JsArg.function] = false ∧
    Query openConn [JsArg.object none none none, JsArg.function] =
      (Except.ok (Query.workData "" [] false),
        [Event.uv_queue_work Work.UV_Query, Event.Ref]) ∧
    claimedQueryShape [JsArg.array [intParam], JsArg.function] = false ∧
    Query openConn [JsArg.array [intParam], JsArg.function] =
      (Except.ok (Query.workData "" [] false),
        [Event.uv_queue_work Work.UV_Query, Event.Ref]) := by
  refine ⟨rfl, rfl, rfl, rfl⟩

theorem Query_submit_effects (sql : String) (params : List Parameter) (noResultObject : Bool) :
    (∃ data, (Query.submit sql params noResultObject).1 = Except.ok data) ∧
    (Query.submit sql params noResultObject).2 =
      [Event.uv_queue_work Work.UV_Query, Event.Ref] := by
  exact ⟨⟨_, rfl⟩, rfl⟩

/-- The two outcomes of `Query`: on an accepted argument list it returns work
data and its effects are one queued task followed by one reference; on any
other list it throws a `TypeError` and has no effect. -/
theorem Query_accepts_or_throws (self : ODBCConnection) (args : List JsArg) :
    (acceptedQueryShape args = true →
      (∃ data, (Query self args).1 = Except.ok data) ∧
      (Query self args).2 = [Event.uv_queue_work Work.UV_Query, Event.Ref]) ∧
    (acceptedQueryShape args = false →
      (∃ msg, (Query self args).1 = Except.error (JsValue.typeError msg)) ∧
      (Query self args).2 = []) := by
  match args with
  | [] => exact ⟨fun h => (by cases h), fun _ => ⟨⟨_, rfl⟩, rfl⟩⟩
  | [_] => exact ⟨fun h => (by cases h), fun _ => ⟨⟨_, rfl⟩, rfl⟩⟩
  | [a0, a1] =>
    cases h1 : a1.IsFunction <;> cases h0 : a0.IsString <;> cases h2 : a0.IsObject <;>
      simp [acceptedQueryShape, Query, h1, h0, h2, Query.submit]
  | [a0, a1, a2] =>
    cases h0 : a0.IsString <;> cases h1 : a1.IsArray <;> cases h2 : a2.IsFunction <;>
      simp [acceptedQueryShape, Query, h0, h1, h2, Query.submit]
  | _ :: _ :: _ :: _ :: _ => exact ⟨fun h => (by cases h), fun _ => ⟨⟨_, rfl⟩, rfl⟩⟩

/-- Claim C12 as amended: for every argument list, async `Query` proceeds
(queues exactly one task and takes one reference on the connection, in that
order, and does nothing else) iff the list is `(string, array, function)`,
`(string, function)` or `(object, function)` for any object value, an options
object whose missing or non-string `sql` stands for the empty SQL text; for
every other argument list it throws a `TypeError`, queues no task, takes no
reference and makes no driver call. -/
theorem C12_query_argument_shapes (self : ODBCConnection) (args : List JsArg) :
    (acceptedQueryShape args = true →
      (∃ data, (Query self args).1 = Except.ok data) ∧
      (Query self args).2 = [Event.uv_queue_work Work.UV_Query, Event.Ref] ∧
      queuedCount (Query self args).2 = 1 ∧ refCount (Query self args).2 = 1) ∧
    (acceptedQueryShape args = false →
      (∃ msg, (Query self args).1 = Except.error (JsValue.typeError msg)) ∧
      (Query self args).2 = []) ∧
    ((∃ data, (Query self args).1 = Except.ok data) ↔ acceptedQueryShape args = true) := by
  have key := Query_accepts_or_throws self args
  cases hs : acceptedQueryShape args with
  | true =>
    obtain ⟨hok, htr⟩ := key.1 hs
    refine ⟨fun _ => ⟨hok, htr, ?_, ?_⟩, fun h => (by cases h), ?_⟩
    · rw [htr]; rfl
    · rw [htr]; rfl
    · exact ⟨fun _ => rfl, fun _ => hok⟩
  | false =>
    obtain ⟨herr, htr⟩ := key.2 hs
    refine ⟨fun h => (by cases h), fun _ => ⟨herr, htr⟩, ?_⟩
    constructor
    · rintro ⟨data, hd⟩
      obtain ⟨msg, hm⟩ := herr
      rw [hm] at hd
      cases hd
    · intro h
      cases h

/-! ## Catalog queries: the filters -/

theorem copyFilter_eq_none_iff (arg : String) : copyFilter arg = none ↔ arg = "null" := by
  unfold copyFilter
  by_cases h : arg = "null" <;> simp [h]

theorem copyFilter_of_ne (arg : String) (h : arg ≠ "null") : copyFilter arg = some arg := by
  simp [copyFilter, h]

/-- Claim C13: for `Tables` and for `Columns`, each of the four filters handed
to the catalog call of the driver is absent exactly when the argument equals
the string `"null"`, and is the argument itself for every other string, the
empty string included; the slot the operation does not use (`column` for
`Tables`, `type` for `Columns`) stays absent in the work data. -/
theorem C13_catalog_filter_sentinel (self : ODBCConnection) (a b c d : String) (drv : Driver) :
    (∃ data fa fb fc fd,
      Tables self a b c d true =
        (Except.ok data, [Event.uv_queue_work Work.UV_Tables, Event.Ref]) ∧
      (UV_Tables self data drv).2 =
        [Event.uv_mutex_lock,
         Event.SQLAllocHandle HandleType.SQL_HANDLE_STMT self.m_hDBC,
         Event.uv_mutex_unlock,
         Event.SQLTables drv.hSTMT fa fb fc fd] ∧
      data.column = none ∧
      (fa = none ↔ a = "null") ∧ (a ≠ "null" → fa = some a) ∧
      (fb = none ↔ b = "null") ∧ (b ≠ "null" → fb = some b) ∧
      (fc = none ↔ c = "null") ∧ (c ≠ "null" → fc = some c) ∧
      (fd = none ↔ d = "null") ∧ (d ≠ "null" → fd = some d)) ∧
    (∃ data fa fb fc fd,
      Columns self a b c d true =
        (Except.ok data, [Event.uv_queue_work Work.UV_Columns, Event.Ref]) ∧
      (UV_Columns self data drv).2 =
        [Event.uv_mutex_lock,
         Event.SQLAllocHandle HandleType.SQL_HANDLE_STMT self.m_hDBC,
         Event.uv_mutex_unlock,
         Event.SQLColumns drv.hSTMT fa fb fc fd] ∧
      data.type = none ∧
      (fa = none ↔ a = "null") ∧ (a ≠ "null" → fa = some a) ∧
      (fb = none ↔ b = "null") ∧ (b ≠ "null" → fb = some b) ∧
      (fc = none ↔ c = "null") ∧ (c ≠ "null" → fc = some c) ∧
      (fd = none ↔ d = "null") ∧ (d ≠ "null" → fd = some d)) := by
  constructor
  · exact ⟨_, copyFilter a, copyFilter b, copyFilter c, copyFilter d, rfl, rfl, rfl,
      copyFilter_eq_none_iff a, copyFilter_of_ne a,
      copyFilter_eq_none_iff b, copyFilter_of_ne b,
      copyFilter_eq_none_iff c, copyFilter_of_ne c,
      copyFilter_eq_none_iff d, copyFilter_of_ne d⟩
  · exact ⟨_, copyFilter a, copyFilter b, copyFilter c, copyFilter d, rfl, rfl, rfl,
      copyFilter_eq_none_iff a, copyFilter_of_ne a,
      copyFilter_eq_none_iff b, copyFilter_of_ne b,
      copyFilter_eq_none_iff c, copyFilter_of_ne c,
      copyFilter_eq_none_iff d, copyFilter_of_ne d⟩

/-! ## Free -/

/-- Claim C15: for every connection state, the native handle is null after
`Free`; on a non-null handle `Free` issues exactly one disconnect and one
handle-free of that handle, between a lock and an unlock of the mutex; on a
null handle it does nothing; and a second `Free` changes nothing and issues no
driver call, so two calls leave the state and the driver calls of one. -/
theorem C15_free_idempotent (self : ODBCConnection) :
    (Free self).1.m_hDBC = 0 ∧
    (self.m_hDBC ≠ 0 →
      (Free self).2 =
        [Event.uv_mutex_lock,
         Event.SQLDisconnect self.m_hDBC,
         Event.SQLFreeHandle HandleType.SQL_HANDLE_DBC self.m_hDBC,
         Event.uv_mutex_unlock]) ∧
    (self.m_hDBC = 0 → Free self = (self, [])) ∧
    coveredByMutex Event.isDriverCall false (Free self).2 = true ∧
    Free (Free self).1 = ((Free self).1, []) ∧
    driverCalls ((Free self).2 ++ (Free (Free self).1).2) = driverCalls (Free self).2 := by
  have hnull := Free_handle_null self
  have h2 := Free_of_null _ hnull
  refine ⟨hnull, ?_, Free_of_null self, ?_, h2, ?_⟩
  · intro h
    simp [Free, h]
  · by_cases h : self.m_hDBC = 0 <;>
      simp [Free, h, coveredByMutex, Event.isDriverCall]
  · rw [h2]
    simp

/-! ## Open: the timeout attributes -/

/-- Claim C17: for every connect timeout and login timeout, `UV_Open` and
`OpenSync` start with the lock of the mutex, then issue the connection-timeout
attribute call iff `connectTimeout > 0` and the login-timeout attribute call
iff `loginTimeout > 0`, each with the configured value, then the
driver-connect call on the connection string (with some length argument); no
attribute call follows, and every driver call of the operation occurs while
the mutex is held. -/
theorem C17_timeout_attributes_on_open (self : ODBCConnection)
    (data : open_connection_work_data) (connection : String) (drv : Driver) :
    (∃ len rest,
      (UV_Open self data drv).2.2 =
        [Event.uv_mutex_lock] ++
        (if self.connectTimeout > 0 then
          [Event.SQLSetConnectAttr self.m_hDBC ConnectAttr.SQL_ATTR_CONNECTION_TIMEOUT
            self.connectTimeout]
         else []) ++
        (if self.loginTimeout > 0 then
          [Event.SQLSetConnectAttr self.m_hDBC ConnectAttr.SQL_ATTR_LOGIN_TIMEOUT
            self.loginTimeout]
         else []) ++
        [Event.SQLDriverConnect self.m_hDBC data.connection len] ++ rest ∧
      (∀ e ∈ rest, Event.isSetConnectAttr e = false)) ∧
    coveredByMutex Event.isDriverCall false (UV_Open self data drv).2.2 = true ∧
    (∃ len rest,
      (OpenSync self connection drv).2.2 =
        [Event.uv_mutex_lock] ++
        (if self.connectTimeout > 0 then
          [Event.SQLSetConnectAttr self.m_hDBC ConnectAttr.SQL_ATTR_CONNECTION_TIMEOUT
            self.connectTimeout]
         else []) ++
        (if self.loginTimeout > 0 then
          [Event.SQLSetConnectAttr self.m_hDBC ConnectAttr.SQL_ATTR_LOGIN_TIMEOUT
            self.loginTimeout]
         else []) ++
        [Event.SQLDriverConnect self.m_hDBC connection len] ++ rest ∧
      (∀ e ∈ rest, Event.isSetConnectAttr e = false)) ∧
    coveredByMutex Event.isDriverCall false (OpenSync self connection drv).2.2 = true := by
  refine ⟨?_, ?_, ?_, ?_⟩
  · cases hc : SQL_SUCCEEDED drv.rConnect
    · refine ⟨SQLSMALLINT.ofInt data.connectionLength, [Event.uv_mutex_unlock], ?_, ?_⟩
      · simp [UV_Open, hc, timeoutAttrs]
      · simp [Event.isSetConnectAttr]
    · refine ⟨SQLSMALLINT.ofInt data.connectionLength,
        [Event.SQLAllocHandle HandleType.SQL_HANDLE_STMT self.m_hDBC,
        Event.SQLGetFunctions self.m_hDBC,
        Event.SQLFreeHandle HandleType.SQL_HANDLE_STMT drv.hSTMT,
        Event.uv_mutex_unlock], ?_, ?_⟩
      · simp [UV_Open, hc, timeoutAttrs]
      · simp [Event.isSetConnectAttr]
  · by_cases h1 : self.connectTimeout > 0 <;> by_cases h2 : self.loginTimeout > 0 <;>
      cases hc : SQL_SUCCEEDED drv.rConnect <;>
      simp [UV_Open, hc, timeoutAttrs, h1, h2, coveredByMutex, Event.isDriverCall]
  · cases hc : SQL_SUCCEEDED drv.rConnect
    · refine ⟨SQLSMALLINT.ofInt (Length connection + 1),
        [Event.GetSQLError HandleType.SQL_HANDLE_DBC self.m_hDBC,
        Event.uv_mutex_unlock, Event.free Mem.connectionString], ?_, ?_⟩
      · simp [OpenSync, hc, timeoutAttrs]
      · simp [Event.isSetConnectAttr]
    · refine ⟨SQLSMALLINT.ofInt (Length connection + 1),
        [Event.SQLAllocHandle HandleType.SQL_HANDLE_STMT self.m_hDBC,
        Event.SQLGetFunctions self.m_hDBC,
        Event.SQLFreeHandle HandleType.SQL_HANDLE_STMT drv.hSTMT,
        Event.uv_ref, Event.uv_mutex_unlock, Event.free Mem.connectionString], ?_, ?_⟩
      · simp [OpenSync, hc, timeoutAttrs]
      · simp [Event.isSetConnectAttr]
  · by_cases h1 : self.connectTimeout > 0 <;> by_cases h2 : self.loginTimeout > 0 <;>
      cases hc : SQL_SUCCEEDED drv.rConnect <;>
      simp [OpenSync, hc, timeoutAttrs, h1, h2, coveredByMutex, Event.isDriverCall]

/-! ## Query: positional binding -/

theorem counts_of_isBind (t : List Event) (h : ∀ e ∈ t, Event.isBind e = true) :
    freeStmtCount t = 0 ∧ newResultCount t = 0 ∧ t.filter Event.isBufferRelease = [] := by
  refine ⟨?_, ?_, ?_⟩
  · simp only [freeStmtCount, List.countP_eq_zero]
    intro e he
    have := h e he
    cases e <;> simp [Event.isBind] at this
    simp [Event.isFreeStmt]
  · simp only [newResultCount, List.countP_eq_zero]
    intro e he
    have := h e he
    cases e <;> simp [Event.isBind] at this
    simp [Event.isNewResult]
  · rw [List.filter_eq_nil_iff]
    intro e he
    have := h e he
    cases e <;> simp [Event.isBind] at this
    simp [Event.isBufferRelease]

theorem counts_of_isCleanup (t : List Event) (h : ∀ e ∈ t, Event.isCleanup e = true) :
    freeStmtCount t = 0 ∧ newResultCount t = 0 := by
  constructor
  · simp only [freeStmtCount, List.countP_eq_zero]
    intro e he
    have := h e he
    cases e <;> simp [Event.isCleanup] at this <;> simp [Event.isFreeStmt]
  · simp only [newResultCount, List.countP_eq_zero]
    intro e he
    have := h e he
    cases e <;> simp [Event.isCleanup] at this <;> simp [Event.isNewResult]

theorem freeStmtCount_append (s t : List Event) :
    freeStmtCount (s ++ t) = freeStmtCount s + freeStmtCount t := by
  simp [freeStmtCount]

theorem newResultCount_append (s t : List Event) :
    newResultCount (s ++ t) = newResultCount s + newResultCount t := by
  simp [newResultCount]

/-- The worker function `UV_Query` neither frees a statement handle nor builds
a Result object. -/
theorem UV_Query_counts (self : ODBCConnection) (sql : String) (params : List Parameter)
    (noResultObject : Bool) (drv : Driver) :
    freeStmtCount (UV_Query self (Query.workData sql params noResultObject) drv).2 = 0 ∧
    newResultCount (UV_Query self (Query.workData sql params noResultObject) drv).2 = 0 := by
  have hb := counts_of_isBind _ (UV_Query_bindLoop_isBind drv.hSTMT drv.rBind params 0)
  rw [UV_Query_trace]
  constructor
  · rw [freeStmtCount_append, freeStmtCount_append, hb.1]
    split_ifs <;> rfl
  · rw [newResultCount_append, newResultCount_append, hb.2.1]
    split_ifs <;> rfl

/-- The completion `UV_AfterQuery` frees the statement handle once and builds
no Result object when the stored code is not `SQL_ERROR` and no result object
is requested; otherwise it builds one Result object and frees nothing. -/
theorem UV_AfterQuery_counts (self : ODBCConnection) (data : query_work_data)
    (diag : List DiagRec) (hasCaught : Bool) :
    freeStmtCount (UV_AfterQuery self data diag hasCaught) =
      (if data.result ≠ SQL_ERROR ∧ data.noResultObject = true then 1 else 0) ∧
    newResultCount (UV_AfterQuery self data diag hasCaught) =
      (if data.result ≠ SQL_ERROR ∧ data.noResultObject = true then 0 else 1) := by
  have hc := counts_of_isCleanup _ (cleanup_isCleanup data hasCaught)
  rw [UV_AfterQuery, freeStmtCount_append, newResultCount_append, hc.1, hc.2,
    UV_AfterQuery.deliver]
  by_cases h1 : data.result = SQL_ERROR <;> cases h2 : data.noResultObject <;>
    simp [h1, h2, freeStmtCount, newResultCount, Event.isFreeStmt, Event.isNewResult]

/-- The effect of `UV_AfterQuery` on the statement handle of the task: it is
freed when the stored code is not `SQL_ERROR` and no result object is
requested, and wrapped in a Result object otherwise. -/
theorem UV_AfterQuery_handle (self : ODBCConnection) (data : query_work_data)
    (diag : List DiagRec) (hasCaught : Bool) :
    ((data.result ≠ SQL_ERROR ∧ data.noResultObject = true) →
      Event.SQLFreeHandle HandleType.SQL_HANDLE_STMT data.hSTMT ∈
        UV_AfterQuery self data diag hasCaught) ∧
    (¬(data.result ≠ SQL_ERROR ∧ data.noResultObject = true) →
      Event.NewODBCResult self.m_hENV self.m_hDBC data.hSTMT true ∈
        UV_AfterQuery self data diag hasCaught) := by
  constructor
  · rintro ⟨h1, h2⟩
    apply List.mem_append_left
    simp [UV_AfterQuery.deliver, h1, h2]
  · intro h
    apply List.mem_append_left
    by_cases h1 : data.result = SQL_ERROR
    · simp [UV_AfterQuery.deliver, h1]
    · cases h2 : data.noResultObject
      · simp [UV_AfterQuery.deliver, h1, h2]
      · exact absurd ⟨h1, h2⟩ h

/-- The first part of `QuerySync` neither frees a statement handle nor builds
a Result object. -/
theorem QuerySync_execute_counts (self : ODBCConnection) (sql : String)
    (params : List Parameter) (drv : Driver) :
    freeStmtCount (QuerySync.execute self sql params drv).2 = 0 ∧
    newResultCount (QuerySync.execute self sql params drv).2 = 0 := by
  cases halloc : SQL_SUCCEEDED drv.rAllocStmt with
  | false =>
    rw [QuerySync_execute_of_alloc_failed self sql params drv halloc]
    exact ⟨rfl, rfl⟩
  | true =>
    have hb := counts_of_isBind _ (UV_Query_bindLoop_isBind drv.hSTMT drv.rBind params 0)
    have hc := counts_of_isCleanup _ (freeParameters_isCleanup params params.length)
    rw [QuerySync_execute_of_alloc_succeeded self sql params drv halloc,
      QuerySync_bindLoop_events]
    constructor
    · simp only [freeStmtCount_append, hb.1, hc.1]
      split_ifs <;> rfl
    · simp only [newResultCount_append, hb.2.1, hc.2]
      split_ifs <;> rfl

/-- Claim C14 fails as stated: when the execution of an async query fails with
`SQL_ERROR`, the statement handle is not freed by the engine but transferred
into a Result object, which the callback receives next to the error. -/
theorem C14_failed_async_query_transfers_handle :
    (UV_Query openConn (Query.workData "SELECT * FROM missing" [] false)
      Driver.execFails).1.result = SQL_ERROR ∧
    freeStmtCount (Query.task openConn "SELECT * FROM missing" [] false Driver.execFails false)
      = 0 ∧
    newResultCount (Query.task openConn "SELECT * FROM missing" [] false Driver.execFails false)
      = 1 := by
  refine ⟨by decide, by decide, by decide⟩

/-- Claim C14 as amended: in every run of the async `Query`, for every option
value and every combination of driver return codes, the statement handle is
either freed exactly once by the engine or transferred into exactly one Result
object, never both and never neither: it is freed when the result code is not
`SQL_ERROR` and no result object is requested, and transferred in every other
case, a failed execution included.  In every run of `QuerySync` whose final
code is not `SQL_ERROR` the same holds: the handle is freed exactly once when
no result object is requested and transferred into exactly one Result object
otherwise. -/
theorem C14_statement_handle_ownership (self : ODBCConnection) (sql : String)
    (params : List Parameter) (noResultObject : Bool) (drv : Driver) (hasCaught : Bool) :
    freeStmtCount (Query.task self sql params noResultObject drv hasCaught) +
      newResultCount (Query.task self sql params noResultObject drv hasCaught) = 1 ∧
    (freeStmtCount (Query.task self sql params noResultObject drv hasCaught) = 1 ↔
      ((UV_Query self (Query.workData sql params noResultObject) drv).1.result ≠ SQL_ERROR ∧
        noResultObject = true)) ∧
    (freeStmtCount (Query.task self sql params noResultObject drv hasCaught) = 1 →
      Event.SQLFreeHandle HandleType.SQL_HANDLE_STMT drv.hSTMT ∈
        Query.task self sql params noResultObject drv hasCaught) ∧
    (newResultCount (Query.task self sql params noResultObject drv hasCaught) = 1 →
      Event.NewODBCResult self.m_hENV self.m_hDBC drv.hSTMT true ∈
        Query.task self sql params noResultObject drv hasCaught) ∧
    ((QuerySync.execute self sql params drv).1 ≠ SQL_ERROR →
      freeStmtCount (QuerySync self sql params noResultObject drv).2 +
        newResultCount (QuerySync self sql params noResultObject drv).2 = 1 ∧
      (freeStmtCount (QuerySync self sql params noResultObject drv).2 = 1 ↔
        noResultObject = true) ∧
      (noResultObject = true →
        Event.SQLFreeHandle HandleType.SQL_HANDLE_STMT drv.hSTMT ∈
          (QuerySync self sql params noResultObject drv).2) ∧
      (noResultObject = false →
        Event.NewODBCResult self.m_hENV self.m_hDBC drv.hSTMT true ∈
          (QuerySync self sql params noResultObject drv).2)) := by
  have hq := UV_Query_counts self sql params noResultObject drv
  have hfld := UV_Query_fields self sql params noResultObject drv
  have ha := UV_AfterQuery_counts self
    (UV_Query self (Query.workData sql params noResultObject) drv).1 drv.diag hasCaught
  rw [hfld.2] at ha
  have hfree : freeStmtCount (Query.task self sql params noResultObject drv hasCaught) =
      (if (UV_Query self (Query.workData sql params noResultObject) drv).1.result ≠ SQL_ERROR ∧
        noResultObject = true then 1 else 0) := by
    rw [Query.task, freeStmtCount_append, hq.1, ha.1, Nat.zero_add]
  have hnew : newResultCount (Query.task self sql params noResultObject drv hasCaught) =
      (if (UV_Query self (Query.workData sql params noResultObject) drv).1.result ≠ SQL_ERROR ∧
        noResultObject = true then 0 else 1) := by
    rw [Query.task, newResultCount_append, hq.2, ha.2, Nat.zero_add]
  refine ⟨?_, ?_, ?_, ?_, ?_⟩
  · rw [hfree, hnew]
    split_ifs <;> rfl
  · rw [hfree]
    split_ifs with h
    · exact ⟨fun _ => h, fun _ => rfl⟩
    · exact ⟨fun h0 => (by cases h0), fun h1 => absurd h1 h⟩
  · rw [hfree]
    split_ifs with h
    · intro _
      have := (UV_AfterQuery_handle self
        (UV_Query self (Query.workData sql params noResultObject) drv).1 drv.diag hasCaught).1
      rw [hfld.1, hfld.2] at this
      exact List.mem_append_right _ (this h)
    · intro h0
      cases h0
  · rw [hnew]
    split_ifs with h
    · intro h0
      cases h0
    · intro _
      have := (UV_AfterQuery_handle self
        (UV_Query self (Query.workData sql params noResultObject) drv).1 drv.diag hasCaught).2
      rw [hfld.1, hfld.2] at this
      exact List.mem_append_right _ (this h)
  · intro hne
    have hx := QuerySync_execute_counts self sql params drv
    cases noResultObject <;>
      simp [QuerySync, hne, freeStmtCount_append, newResultCount_append, hx.1, hx.2] <;>
      simp [freeStmtCount, newResultCount, Event.isFreeStmt, Event.isNewResult]

/-! ## Query: the release of the parameter buffers -/

theorem freeParameter_isBufferRelease (prm : Parameter) :
    ∀ e ∈ freeParameter prm, Event.isBufferRelease e = true := by
  intro e he
  unfold freeParameter at he
  split_ifs at he <;> simp at he <;> subst he <;> rfl

theorem freeParameters_isBufferRelease (params : List Parameter) (paramCount : Nat) :
    ∀ e ∈ freeParameters params paramCount, Event.isBufferRelease e = true := by
  intro e he
  simp only [freeParameters, List.mem_flatten, List.mem_map] at he
  obtain ⟨l, ⟨prm, _, rfl⟩, hel⟩ := he
  exact freeParameter_isBufferRelease prm e hel

/-- The release chosen for a non-null buffer whose value-type tag is one of
the five known tags: a raw free for the two string tags, a typed delete for
the integer, double and boolean tags. -/
theorem freeParameter_of_known_tag (prm : Parameter) (hptr : prm.ParameterValuePtr ≠ 0) :
    (prm.ValueType = SQL_C_WCHAR → freeParameter prm = [Event.freeBuffer prm.ParameterValuePtr]) ∧
    (prm.ValueType = SQL_C_CHAR → freeParameter prm = [Event.freeBuffer prm.ParameterValuePtr]) ∧
    (prm.ValueType = SQL_C_LONG →
      freeParameter prm = [Event.deleteBuffer DeleteKind.int64 prm.ParameterValuePtr]) ∧
    (prm.ValueType = SQL_C_DOUBLE →
      freeParameter prm = [Event.deleteBuffer DeleteKind.double prm.ParameterValuePtr]) ∧
    (prm.ValueType = SQL_C_BIT →
      freeParameter prm = [Event.deleteBuffer DeleteKind.bool prm.ParameterValuePtr]) := by
  refine ⟨?_, ?_, ?_, ?_, ?_⟩ <;> intro h <;>
    simp [freeParameter, hptr, h, SQL_C_WCHAR, SQL_C_CHAR, SQL_C_LONG, SQL_C_DOUBLE, SQL_C_BIT]

/-- For every stored result code and option, the buffer releases of the
completion `UV_AfterQuery` are those of its loop over the parameter list, one
pass over the list. -/
theorem UV_AfterQuery_releases (self : ODBCConnection) (data : query_work_data)
    (diag : List DiagRec) (hasCaught : Bool) :
    (UV_AfterQuery self data diag hasCaught).filter Event.isBufferRelease =
      freeParameters data.params data.paramCount := by
  have hf : (freeParameters data.params data.paramCount).filter Event.isBufferRelease =
      freeParameters data.params data.paramCount := by
    rw [List.filter_eq_self]
    exact freeParameters_isBufferRelease _ _
  have hd : (UV_AfterQuery.deliver self data diag).filter Event.isBufferRelease = [] := by
    unfold UV_AfterQuery.deliver
    by_cases h1 : data.result = SQL_ERROR <;> cases h2 : data.noResultObject <;>
      simp [h1, h2, Event.isBufferRelease]
  rw [UV_AfterQuery, List.filter_append, hd, UV_AfterQuery.cleanup]
  by_cases hp : data.paramCount = 0
  · cases hasCaught <;>
      simp [hp, fatalIfCaught, List.filter_append, Event.isBufferRelease, freeParameters]
  · cases hasCaught <;>
      simp [hp, fatalIfCaught, List.filter_append, Event.isBufferRelease, hf]

/-- The buffer releases of `QuerySync` are those of its loop over the
parameter list when the statement allocation returned a success code; there
is none when it did not. -/
theorem QuerySync_releases (self : ODBCConnection) (sql : String) (params : List Parameter)
    (noResultObject : Bool) (drv : Driver) :
    (QuerySync self sql params noResultObject drv).2.filter Event.isBufferRelease =
      if SQL_SUCCEEDED drv.rAllocStmt = true then freeParameters params params.length
      else [] := by
  have hf : (freeParameters params params.length).filter Event.isBufferRelease =
      freeParameters params params.length := by
    rw [List.filter_eq_self]
    exact freeParameters_isBufferRelease _ _
  have htail : (QuerySync self sql params noResultObject drv).2.filter Event.isBufferRelease =
      (QuerySync.execute self sql params drv).2.filter Event.isBufferRelease := by
    by_cases h1 : (QuerySync.execute self sql params drv).1 = SQL_ERROR <;>
      cases noResultObject <;>
      simp [QuerySync, h1, List.filter_append, Event.isBufferRelease]
  rw [htail]
  cases halloc : SQL_SUCCEEDED drv.rAllocStmt with
  | false =>
    rw [QuerySync_execute_of_alloc_failed self sql params drv halloc]
    simp [Event.isBufferRelease]
  | true =>
    have hb := (counts_of_isBind _
      (UV_Query_bindLoop_isBind drv.hSTMT drv.rBind params 0)).2.2
    rw [QuerySync_execute_of_alloc_succeeded self sql params drv halloc,
      QuerySync_bindLoop_events]
    cases hs : SQL_SUCCEEDED (QuerySync.bindLoop drv.hSTMT drv.rBind 0 params drv.rAllocStmt).1 <;>
      simp [List.filter_append, hb, hf, Event.isBufferRelease]

/-- Claim C18, evaluated at the input where it fails: when the statement
allocation of `QuerySync` fails, the two parameter buffers of the call are not
released at all (only the copy of the SQL text is), while the async form on
the same input releases each buffer once, the string buffer with a raw free
and the integer buffer with a typed delete. -/
theorem C18_querySync_keeps_buffers_when_allocation_fails :
    SQL_SUCCEEDED Driver.allocFails.rAllocStmt = false ∧
    (QuerySync openConn "INSERT INTO t VALUES (?, ?)" [stringParam, intParam] false
      Driver.allocFails).2.filter Event.isMemRelease = [Event.free Mem.sql] ∧
    (Query.task openConn "INSERT INTO t VALUES (?, ?)" [stringParam, intParam] false
      Driver.allocFails false).filter Event.isBufferRelease =
      [Event.freeBuffer 100, Event.deleteBuffer DeleteKind.int64 200] := by
  refine ⟨by decide, by decide, by decide⟩

/-! ## The order of the steps of a completion -/

/-- Claim C19, on the code: for every input, `UV_AfterQuery` (the completion
of `Query`, `Tables` and `Columns`) and `UV_AfterCreateStatement` invoke the
callback first and release the reference on the connection after it, while
`UV_AfterOpen` and `UV_AfterClose` release the reference right before the
callback; in all four no memory of the task is released before the
callback. -/
theorem C19_unref_follows_callback_in_query_and_createStatement (self : ODBCConnection)
    (openData : open_connection_work_data) (closeData : close_connection_work_data)
    (stmtData : create_statement_work_data) (queryData : query_work_data)
    (diag : List DiagRec) (hasCaught : Bool) :
    (∃ pre argv post,
      UV_AfterQuery self queryData diag hasCaught =
        pre ++ [Event.Call argv, Event.Unref] ++ post ∧
      (∀ e ∈ pre, e ≠ Event.Unref ∧ Event.isMemRelease e = false)) ∧
    (∃ pre argv mid post,
      UV_AfterCreateStatement self stmtData hasCaught =
        pre ++ [Event.Call argv] ++ mid ++ [Event.Unref] ++ post ∧
      (∀ e ∈ pre ++ mid, e ≠ Event.Unref ∧ Event.isMemRelease e = false)) ∧
    (∃ pre argv post,
      (UV_AfterOpen self openData diag hasCaught).2 =
        pre ++ [Event.Unref, Event.Call argv] ++ post ∧
      (∀ e ∈ pre, Event.isCall e = false ∧ Event.isMemRelease e = false)) ∧
    (∃ pre argv post,
      (UV_AfterClose self closeData hasCaught).2 =
        pre ++ [Event.Unref, Event.Call argv] ++ post ∧
      (∀ e ∈ pre, Event.isCall e = false ∧ Event.isMemRelease e = false)) := by
  have hcl : UV_AfterQuery.cleanup queryData hasCaught =
      Event.Unref :: (UV_AfterQuery.cleanup queryData hasCaught).tail := by
    simp [UV_AfterQuery.cleanup]
  refine ⟨?_, ?_, ?_, ?_⟩
  · by_cases h1 : queryData.result = SQL_ERROR
    · refine ⟨[Event.NewODBCResult self.m_hENV self.m_hDBC queryData.hSTMT true,
          Event.GetSQLError HandleType.SQL_HANDLE_STMT queryData.hSTMT],
        [JsValue.sqlError (GetSQLError HandleType.SQL_HANDLE_STMT queryData.hSTMT
            (some "[node-odbc] SQL_ERROR") diag),
          JsValue.odbcResult self.m_hENV self.m_hDBC queryData.hSTMT true],
        (UV_AfterQuery.cleanup queryData hasCaught).tail, ?_, ?_⟩
      · conv_lhs => rw [UV_AfterQuery, hcl]
        simp [UV_AfterQuery.deliver, h1]
      · simp [Event.isMemRelease]
    · cases h2 : queryData.noResultObject
      · refine ⟨[Event.NewODBCResult self.m_hENV self.m_hDBC queryData.hSTMT true],
          [JsValue.null, JsValue.odbcResult self.m_hENV self.m_hDBC queryData.hSTMT true],
          (UV_AfterQuery.cleanup queryData hasCaught).tail, ?_, ?_⟩
        · conv_lhs => rw [UV_AfterQuery, hcl]
          simp [UV_AfterQuery.deliver, h1, h2]
        · simp [Event.isMemRelease]
      · refine ⟨[Event.uv_mutex_lock,
            Event.SQLFreeHandle HandleType.SQL_HANDLE_STMT queryData.hSTMT,
            Event.uv_mutex_unlock],
          [JsValue.null, JsValue.boolean true],
          (UV_AfterQuery.cleanup queryData hasCaught).tail, ?_, ?_⟩
        · conv_lhs => rw [UV_AfterQuery, hcl]
          simp [UV_AfterQuery.deliver, h1, h2]
        · simp [Event.isMemRelease]
  · refine ⟨[Event.NewODBCStatement self.m_hENV self.m_hDBC stmtData.hSTMT],
      [JsValue.null, JsValue.odbcStatement self.m_hENV self.m_hDBC stmtData.hSTMT],
      fatalIfCaught hasCaught, [Event.free Mem.cb, Event.free Mem.data, Event.free Mem.req],
      ?_, ?_⟩
    · simp [UV_AfterCreateStatement]
    · cases hasCaught <;> simp [fatalIfCaught, Event.isMemRelease]
  · by_cases h : openData.result = 0
    · refine ⟨[Event.uv_ref], [],
        fatalIfCaught hasCaught ++ [Event.free Mem.cb, Event.free Mem.connection,
          Event.free Mem.data, Event.free Mem.req], ?_, ?_⟩
      · simp [UV_AfterOpen, h]
      · simp [Event.isCall, Event.isMemRelease]
    · refine ⟨[Event.GetSQLError HandleType.SQL_HANDLE_DBC self.m_hDBC],
        [JsValue.sqlError (GetSQLError HandleType.SQL_HANDLE_DBC self.m_hDBC none diag)],
        fatalIfCaught hasCaught ++ [Event.free Mem.cb, Event.free Mem.connection,
          Event.free Mem.data, Event.free Mem.req], ?_, ?_⟩
      · simp [UV_AfterOpen, h]
      · simp [Event.isCall, Event.isMemRelease]
  · by_cases h : closeData.result = 0
    · refine ⟨[Event.uv_unref], [],
        fatalIfCaught hasCaught ++ [Event.free Mem.cb, Event.free Mem.data,
          Event.free Mem.req], ?_, ?_⟩
      · simp [UV_AfterClose, h]
      · simp [Event.isCall, Event.isMemRelease]
    · refine ⟨[], [JsValue.error "Error closing database"],
        fatalIfCaught hasCaught ++ [Event.free Mem.cb, Event.free Mem.data,
          Event.free Mem.req], ?_, ?_⟩
      · simp [UV_AfterClose, h]
      · simp

/-! ## The reference taken when a task is queued -/

/-- Claim C20, on the code: `BeginTransaction` and `EndTransaction` queue
their task without taking a reference on the connection, for every rollback
flag, while `Open`, `Close`, `CreateStatement`, `Query` (on accepted
arguments), `Tables` and `Columns` queue one task and then take exactly one
reference in the same call. -/
theorem C20_transactions_queue_without_reference (self : ODBCConnection) (rollback : Bool)
    (connection a b c d : String) (args : List JsArg) :
    (BeginTransaction self true).2 = [Event.uv_queue_work Work.UV_BeginTransaction] ∧
    queuedCount (BeginTransaction self true).2 = 1 ∧
    refCount (BeginTransaction self true).2 = 0 ∧
    (EndTransaction self rollback true).2 = [Event.uv_queue_work Work.UV_EndTransaction] ∧
    queuedCount (EndTransaction self rollback true).2 = 1 ∧
    refCount (EndTransaction self rollback true).2 = 0 ∧
    (Open self connection).2.2 = [Event.uv_queue_work Work.UV_Open, Event.Ref] ∧
    (Close self).2.2 = [Event.uv_queue_work Work.UV_Close, Event.Ref] ∧
    (CreateStatement self).2.2 = [Event.uv_queue_work Work.UV_CreateStatement, Event.Ref] ∧
    (Tables self a b c d true).2 = [Event.uv_queue_work Work.UV_Tables, Event.Ref] ∧
    (Columns self a b c d true).2 = [Event.uv_queue_work Work.UV_Columns, Event.Ref] ∧
    (queuedCount (Query self args).2 = 1 →
      (Query self args).2 = [Event.uv_queue_work Work.UV_Query, Event.Ref]) := by
  refine ⟨rfl, rfl, rfl, rfl, rfl, rfl, rfl, rfl, rfl, rfl, rfl, ?_⟩
  intro hq
  cases hs : acceptedQueryShape args with
  | true => exact ((Query_accepts_or_throws self args).1 hs).2
  | false =>
    have := ((Query_accepts_or_throws self args).2 hs).2
    rw [this] at hq
    cases hq

/-! ## The mutex: walks over effect lists -/

theorem mutexWalk_append (s : List Event) :
    ∀ (held : Bool) (t : List Event),
      mutexWalk held (s ++ t) = (mutexWalk held s).bind (fun h => mutexWalk h t) := by
  induction s with
  | nil => intro held t; rfl
  | cons e s ih =>
    intro held t
    cases e <;> cases held <;> simp [mutexWalk, ih]

theorem mutexWalk_of_no_mutex (s : List Event) (h : ∀ e ∈ s, Event.isMutexOp e = false) :
    ∀ held : Bool, mutexWalk held s = some held := by
  induction s with
  | nil => intro held; rfl
  | cons e s ih =>
    intro held
    have he := h e (List.mem_cons_self e s)
    have hs := ih (fun x hx => h x (List.mem_cons_of_mem e hx)) held
    cases e <;> simp [Event.isMutexOp] at he <;> simp [mutexWalk, hs]

/-- A walk without misuse accounts for every lock and unlock: the locks plus
the initial state equal the unlocks plus the final state. -/
theorem mutexWalk_counts (s : List Event) :
    ∀ (held final : Bool), mutexWalk held s = some final →
      lockCount s + (if held then 1 else 0) = unlockCount s + (if final then 1 else 0) := by
  induction s with
  | nil =>
    intro held final h
    simp [mutexWalk] at h
    subst h
    rfl
  | cons e s ih =>
    intro held final h
    cases e <;> cases held <;> simp [mutexWalk] at h <;>
      have := ih _ _ h <;>
      simp [lockCount, unlockCount] at this ⊢ <;> omega

theorem lockCount_eq_of_balanced (s : List Event) (h : mutexBalanced s = true) :
    lockCount s = unlockCount s := by
  have h1 : mutexWalk false s = some false := by
    simpa [mutexBalanced] using h
  simpa using mutexWalk_counts s false false h1

theorem coveredByMutex_skip (p : Event → Bool) (s : List Event)
    (h : ∀ e ∈ s, Event.isMutexOp e = false ∧ p e = false) :
    ∀ (held : Bool) (t : List Event),
      coveredByMutex p held (s ++ t) = coveredByMutex p held t := by
  induction s with
  | nil => intro held t; rfl
  | cons e s ih =>
    intro held t
    have he := h e (List.mem_cons_self e s)
    have hs := ih (fun x hx => h x (List.mem_cons_of_mem e hx)) held t
    cases e <;> simp [Event.isMutexOp] at he <;> simp_all [coveredByMutex]

theorem isBind_no_mutex (e : Event) (h : Event.isBind e = true) :
    Event.isMutexOp e = false ∧ Event.needsMutex e = false ∧
    e ≠ Event.Ref ∧ e ≠ Event.Unref := by
  cases e <;> simp [Event.isBind] at h <;> simp [Event.isMutexOp, Event.needsMutex]

theorem isCleanup_no_mutex (e : Event) (h : Event.isCleanup e = true) :
    Event.isMutexOp e = false ∧ Event.needsMutex e = false ∧ e ≠ Event.Ref := by
  cases e <;> simp [Event.isCleanup] at h <;> simp [Event.isMutexOp, Event.needsMutex]

/-- The effects of `UV_Query` on any work data: the statement allocation
between a lock and an unlock, then binds only, then at most one direct
execution. -/
theorem UV_Query_effects (self : ODBCConnection) (data : query_work_data) (drv : Driver) :
    ∃ binds tail, (∀ e ∈ binds, Event.isBind e = true) ∧
      (tail = [] ∨ tail = [Event.SQLExecDirect drv.hSTMT data.sql data.sqlLen]) ∧
      (UV_Query self data drv).2 =
        [Event.uv_mutex_lock,
         Event.SQLAllocHandle HandleType.SQL_HANDLE_STMT self.m_hDBC,
         Event.uv_mutex_unlock] ++ binds ++ tail := by
  by_cases hp : data.paramCount = 0
  · exact ⟨[], [Event.SQLExecDirect drv.hSTMT data.sql data.sqlLen],
      by simp, Or.inr rfl, by simp [UV_Query, hp]⟩
  · have hb := UV_Query_bindLoop_isBind drv.hSTMT drv.rBind
      (data.params.take data.paramCount) 0
    cases hl : (UV_Query.bindLoop drv.hSTMT drv.rBind 0
        (data.params.take data.paramCount)).1 with
    | none =>
      exact ⟨_, [Event.SQLExecDirect drv.hSTMT data.sql data.sqlLen], hb, Or.inr rfl,
        by simp [UV_Query, hp, hl]⟩
    | some r =>
      exact ⟨_, [], hb, Or.inl rfl, by simp [UV_Query, hp, hl]⟩

theorem mutexWalk_alloc (handleType : HandleType) (parent : SQLHANDLE) (t : List Event) :
    mutexWalk false ([Event.uv_mutex_lock, Event.SQLAllocHandle handleType parent,
      Event.uv_mutex_unlock] ++ t) = mutexWalk false t := by
  simp [mutexWalk]

theorem mutexWalk_skip (s : List Event) (h : ∀ e ∈ s, Event.isMutexOp e = false)
    (held : Bool) (t : List Event) : mutexWalk held (s ++ t) = mutexWalk held t := by
  rw [mutexWalk_append, mutexWalk_of_no_mutex s h held]
  rfl

/-- The effects of the first part of `QuerySync`: the statement allocation
between a lock and an unlock, then effects that neither touch the mutex nor
need it. -/
theorem QuerySync_execute_shape (self : ODBCConnection) (sql : String)
    (params : List Parameter) (drv : Driver) :
    ∃ rest, (∀ e ∈ rest, Event.isMutexOp e = false ∧ Event.needsMutex e = false) ∧
      (QuerySync.execute self sql params drv).2 =
        [Event.uv_mutex_lock,
         Event.SQLAllocHandle HandleType.SQL_HANDLE_STMT self.m_hDBC,
         Event.uv_mutex_unlock] ++ rest := by
  cases halloc : SQL_SUCCEEDED drv.rAllocStmt with
  | false =>
    refine ⟨[Event.free Mem.sql], ?_, ?_⟩
    · simp [Event.isMutexOp, Event.needsMutex]
    · rw [QuerySync_execute_of_alloc_failed self sql params drv halloc]
      rfl
  | true =>
    refine ⟨((UV_Query.bindLoop drv.hSTMT drv.rBind 0 params).2 ++
        (if SQL_SUCCEEDED (QuerySync.bindLoop drv.hSTMT drv.rBind 0 params drv.rAllocStmt).1
          then [Event.SQLExecDirect drv.hSTMT (some sql) (QuerySync.sqlLength sql drv)]
          else []) ++
        freeParameters params params.length ++ [Event.free Mem.params]) ++
        [Event.free Mem.sql], ?_, ?_⟩
    rotate_left
    · rw [QuerySync_execute_of_alloc_succeeded self sql params drv halloc,
        QuerySync_bindLoop_events, List.append_assoc]
    · intro e he
      simp only [List.mem_append] at he
      rcases he with (((he | he) | he) | he) | he
      · have := isBind_no_mutex e (UV_Query_bindLoop_isBind _ _ _ _ e he)
        exact ⟨this.1, this.2.1⟩
      · split_ifs at he
        · simp at he; subst he; exact ⟨rfl, rfl⟩
        · simp at he
      · have := isCleanup_no_mutex e (freeParameters_isCleanup _ _ e he)
        exact ⟨this.1, this.2.1⟩
      · simp at he; subst he; exact ⟨rfl, rfl⟩
      · simp at he; subst he; exact ⟨rfl, rfl⟩

/-- The effects of `QuerySync` after its first part: the error is read, or
the statement handle is freed between a lock and an unlock, or a Result
object is built. -/
theorem QuerySync_tail (self : ODBCConnection) (sql : String) (params : List Parameter)
    (noResultObject : Bool) (drv : Driver) :
    ∃ tail, (QuerySync self sql params noResultObject drv).2 =
        (QuerySync.execute self sql params drv).2 ++ tail ∧
      (tail = [Event.GetSQLError HandleType.SQL_HANDLE_STMT drv.hSTMT] ∨
       tail = [Event.uv_mutex_lock,
               Event.SQLFreeHandle HandleType.SQL_HANDLE_STMT drv.hSTMT,
               Event.uv_mutex_unlock] ∨
       tail = [Event.NewODBCResult self.m_hENV self.m_hDBC drv.hSTMT true]) := by
  by_cases h1 : (QuerySync.execute self sql params drv).1 = SQL_ERROR
  · exact ⟨_, by simp [QuerySync, h1], Or.inl rfl⟩
  · cases noResultObject
    · exact ⟨_, by simp [QuerySync, h1], Or.inr (Or.inr rfl)⟩
    · exact ⟨_, by simp [QuerySync, h1], Or.inr (Or.inl rfl)⟩

/-- The first part of `UV_AfterQuery` is one of three effect lists. -/
theorem UV_AfterQuery_deliver_cases (self : ODBCConnection) (data : query_work_data)
    (diag : List DiagRec) :
    UV_AfterQuery.deliver self data diag =
      [Event.uv_mutex_lock,
       Event.SQLFreeHandle HandleType.SQL_HANDLE_STMT data.hSTMT,
       Event.uv_mutex_unlock,
       Event.Call [JsValue.null, JsValue.boolean true]] ∨
    UV_AfterQuery.deliver self data diag =
      [Event.NewODBCResult self.m_hENV self.m_hDBC data.hSTMT true,
       Event.GetSQLError HandleType.SQL_HANDLE_STMT data.hSTMT,
       Event.Call [JsValue.sqlError (GetSQLError HandleType.SQL_HANDLE_STMT data.hSTMT
          (some "[node-odbc] SQL_ERROR") diag),
        JsValue.odbcResult self.m_hENV self.m_hDBC data.hSTMT true]] ∨
    UV_AfterQuery.deliver self data diag =
      [Event.NewODBCResult self.m_hENV self.m_hDBC data.hSTMT true,
       Event.Call [JsValue.null, JsValue.odbcResult self.m_hENV self.m_hDBC data.hSTMT true]] := by
  by_cases h1 : data.result = SQL_ERROR
  · right; left
    simp [UV_AfterQuery.deliver, h1]
  · cases h2 : data.noResultObject
    · right; right
      simp [UV_AfterQuery.deliver, h1, h2]
    · left
      simp [UV_AfterQuery.deliver, h1, h2]

/-! ## The mutex: balance -/

/-- Claim C23: for every input and every driver return code, each of `Free`,
`UV_Open`, `OpenSync`, `CreateStatementSync`, `UV_CreateStatement`,
`UV_Query`, `UV_AfterQuery`, `QuerySync`, `UV_Tables` and `UV_Columns` never
locks the mutex while holding it, never unlocks it while not holding it,
returns with the mutex free, and so locks it exactly as many times as it
unlocks it; this covers the early return of `UV_Query` on a bind error and
the error path of `OpenSync`. -/
theorem C23_mutex_balance (self : ODBCConnection) (openData : open_connection_work_data)
    (stmtData : create_statement_work_data) (queryData : query_work_data)
    (connection sql : String) (params : List Parameter) (noResultObject : Bool)
    (drv : Driver) (diag : List DiagRec) (hasCaught : Bool) :
    (mutexBalanced (Free self).2 = true ∧
      lockCount (Free self).2 = unlockCount (Free self).2) ∧
    (mutexBalanced (UV_Open self openData drv).2.2 = true ∧
      lockCount (UV_Open self openData drv).2.2 = unlockCount (UV_Open self openData drv).2.2) ∧
    (mutexBalanced (OpenSync self connection drv).2.2 = true ∧
      lockCount (OpenSync self connection drv).2.2 =
        unlockCount (OpenSync self connection drv).2.2) ∧
    (mutexBalanced (CreateStatementSync self drv).2 = true ∧
      lockCount (CreateStatementSync self drv).2 = unlockCount (CreateStatementSync self drv).2) ∧
    (mutexBalanced (UV_CreateStatement self stmtData drv).2 = true ∧
      lockCount (UV_CreateStatement self stmtData drv).2 =
        unlockCount (UV_CreateStatement self stmtData drv).2) ∧
    (mutexBalanced (UV_Query self queryData drv).2 = true ∧
      lockCount (UV_Query self queryData drv).2 = unlockCount (UV_Query self queryData drv).2) ∧
    (mutexBalanced (UV_AfterQuery self queryData diag hasCaught) = true ∧
      lockCount (UV_AfterQuery self queryData diag hasCaught) =
        unlockCount (UV_AfterQuery self queryData diag hasCaught)) ∧
    (mutexBalanced (QuerySync self sql params noResultObject drv).2 = true ∧
      lockCount (QuerySync self sql params noResultObject drv).2 =
        unlockCount (QuerySync self sql params noResultObject drv).2) ∧
    (mutexBalanced (UV_Tables self queryData drv).2 = true ∧
      lockCount (UV_Tables self queryData drv).2 = unlockCount (UV_Tables self queryData drv).2) ∧
    (mutexBalanced (UV_Columns self queryData drv).2 = true ∧
      lockCount (UV_Columns self queryData drv).2 =
        unlockCount (UV_Columns self queryData drv).2) := by
  have both : ∀ t : List Event, mutexBalanced t = true →
      mutexBalanced t = true ∧ lockCount t = unlockCount t :=
    fun t h => ⟨h, lockCount_eq_of_balanced t h⟩
  refine ⟨both _ ?_, both _ ?_, both _ ?_, both _ ?_, both _ ?_, both _ ?_, both _ ?_,
    both _ ?_, both _ ?_, both _ ?_⟩
  · by_cases h : self.m_hDBC = 0 <;> simp [Free, h, mutexBalanced, mutexWalk]
  · by_cases h1 : self.connectTimeout > 0 <;> by_cases h2 : self.loginTimeout > 0 <;>
      cases hc : SQL_SUCCEEDED drv.rConnect <;>
      simp [UV_Open, hc, timeoutAttrs, h1, h2, mutexBalanced, mutexWalk]
  · by_cases h1 : self.connectTimeout > 0 <;> by_cases h2 : self.loginTimeout > 0 <;>
      cases hc : SQL_SUCCEEDED drv.rConnect <;>
      simp [OpenSync, hc, timeoutAttrs, h1, h2, mutexBalanced, mutexWalk]
  · simp [CreateStatementSync, mutexBalanced, mutexWalk]
  · simp [UV_CreateStatement, mutexBalanced, mutexWalk]
  · obtain ⟨binds, tail, hb, ht, heq⟩ := UV_Query_effects self queryData drv
    have hno : ∀ e ∈ binds ++ tail, Event.isMutexOp e = false := by
      intro e he
      rcases List.mem_append.mp he with h | h
      · exact (isBind_no_mutex e (hb e h)).1
      · rcases ht with ht | ht <;> rw [ht] at h <;> simp at h
        subst h; rfl
    rw [heq, List.append_assoc, mutexBalanced, mutexWalk_alloc, mutexWalk_of_no_mutex _ hno]
    rfl
  · have hcl := mutexWalk_of_no_mutex (UV_AfterQuery.cleanup queryData hasCaught)
      (fun e he => (isCleanup_no_mutex e (cleanup_isCleanup queryData hasCaught e he)).1)
    rw [UV_AfterQuery, mutexBalanced, mutexWalk_append]
    generalize UV_AfterQuery.cleanup queryData hasCaught = c at hcl ⊢
    rcases UV_AfterQuery_deliver_cases self queryData diag with h | h | h <;>
      rw [h] <;> simp [mutexWalk, hcl]
  · obtain ⟨rest, hrest, heq⟩ := QuerySync_execute_shape self sql params drv
    obtain ⟨tail, htail, hcases⟩ := QuerySync_tail self sql params noResultObject drv
    have hno : ∀ e ∈ rest, Event.isMutexOp e = false := fun e he => (hrest e he).1
    rw [htail, heq, mutexBalanced, mutexWalk_append, mutexWalk_alloc,
      mutexWalk_of_no_mutex _ hno]
    rcases hcases with h | h | h <;> rw [h] <;> simp [mutexWalk]
  · simp [UV_Tables, mutexBalanced, mutexWalk]
  · simp [UV_Columns, mutexBalanced, mutexWalk]

/-! ## The mutex: coverage of the driver calls -/

theorem coveredByMutex_of_none (p : Event → Bool) (s : List Event)
    (h : ∀ e ∈ s, Event.isMutexOp e = false ∧ p e = false) (held : Bool) :
    coveredByMutex p held s = true := by
  have := coveredByMutex_skip p s h held []
  rw [List.append_nil] at this
  rw [this]
  rfl

theorem coveredByMutex_alloc (p : Event → Bool) (handleType : HandleType) (parent : SQLHANDLE)
    (t : List Event) :
    coveredByMutex p false ([Event.uv_mutex_lock, Event.SQLAllocHandle handleType parent,
      Event.uv_mutex_unlock] ++ t) = coveredByMutex p false t := by
  simp [coveredByMutex]

/-- Claim C21, on the code: for every input, the transaction functions
(`UV_BeginTransaction`, `BeginTransactionSync`, `UV_EndTransaction`,
`EndTransactionSync`) set the autocommit attribute without ever locking the
mutex, so that call is not covered; in every other operation (`UV_Open`,
`OpenSync`, `UV_Close`, `CloseSync`, `UV_CreateStatement`,
`CreateStatementSync`, `UV_Query`, `UV_AfterQuery`, `QuerySync`, `UV_Tables`,
`UV_Columns`) every attribute call, driver connect, handle allocation and
handle free occurs while the mutex is held. -/
theorem C21_transactions_set_attribute_without_mutex (self : ODBCConnection)
    (openData : open_connection_work_data) (closeData : close_connection_work_data)
    (stmtData : create_statement_work_data) (queryData : query_work_data)
    (connection sql : String) (params : List Parameter) (noResultObject rollback : Bool)
    (drv : Driver) (diag : List DiagRec) (hasCaught : Bool) :
    (coveredByMutex Event.needsMutex false (UV_BeginTransaction self queryData drv).2 = false ∧
      lockCount (UV_BeginTransaction self queryData drv).2 = 0) ∧
    (coveredByMutex Event.needsMutex false (BeginTransactionSync self drv).2 = false ∧
      lockCount (BeginTransactionSync self drv).2 = 0) ∧
    (coveredByMutex Event.needsMutex false (UV_EndTransaction self queryData drv).2 = false ∧
      lockCount (UV_EndTransaction self queryData drv).2 = 0) ∧
    (coveredByMutex Event.needsMutex false (EndTransactionSync self rollback drv).2 = false ∧
      lockCount (EndTransactionSync self rollback drv).2 = 0) ∧
    coveredByMutex Event.needsMutex false (UV_Open self openData drv).2.2 = true ∧
    coveredByMutex Event.needsMutex false (OpenSync self connection drv).2.2 = true ∧
    coveredByMutex Event.needsMutex false (UV_Close self closeData).2.2 = true ∧
    coveredByMutex Event.needsMutex false (CloseSync self).2.2 = true ∧
    coveredByMutex Event.needsMutex false (UV_CreateStatement self stmtData drv).2 = true ∧
    coveredByMutex Event.needsMutex false (CreateStatementSync self drv).2 = true ∧
    coveredByMutex Event.needsMutex false (UV_Query self queryData drv).2 = true ∧
    coveredByMutex Event.needsMutex false (UV_AfterQuery self queryData diag hasCaught) = true ∧
    coveredByMutex Event.needsMutex false (QuerySync self sql params noResultObject drv).2
      = true ∧
    coveredByMutex Event.needsMutex false (UV_Tables self queryData drv).2 = true ∧
    coveredByMutex Event.needsMutex false (UV_Columns self queryData drv).2 = true := by
  refine ⟨?_, ?_, ?_, ?_, ?_, ?_, ?_, ?_, ?_, ?_, ?_, ?_, ?_, ?_, ?_⟩
  · simp [UV_BeginTransaction, coveredByMutex, Event.needsMutex, lockCount]
  · cases h : SQL_SUCCEEDED drv.rAutocommit <;>
      simp [BeginTransactionSync, h, coveredByMutex, Event.needsMutex, lockCount]
  · simp [UV_EndTransaction, coveredByMutex, Event.needsMutex, lockCount]
  · cases hE : SQL_SUCCEEDED drv.rEndTran <;> cases hA : SQL_SUCCEEDED drv.rAutocommit <;>
      simp [EndTransactionSync, hE, hA, coveredByMutex, Event.needsMutex, lockCount]
  · by_cases h1 : self.connectTimeout > 0 <;> by_cases h2 : self.loginTimeout > 0 <;>
      cases hc : SQL_SUCCEEDED drv.rConnect <;>
      simp [UV_Open, hc, timeoutAttrs, h1, h2, coveredByMutex, Event.needsMutex]
  · by_cases h1 : self.connectTimeout > 0 <;> by_cases h2 : self.loginTimeout > 0 <;>
      cases hc : SQL_SUCCEEDED drv.rConnect <;>
      simp [OpenSync, hc, timeoutAttrs, h1, h2, coveredByMutex, Event.needsMutex]
  · by_cases h : self.m_hDBC = 0 <;>
      simp [UV_Close, Free, h, coveredByMutex, Event.needsMutex]
  · by_cases h : self.m_hDBC = 0 <;>
      simp [CloseSync, Free, h, coveredByMutex, Event.needsMutex]
  · simp [UV_CreateStatement, coveredByMutex, Event.needsMutex]
  · simp [CreateStatementSync, coveredByMutex, Event.needsMutex]
  · obtain ⟨binds, tail, hb, ht, heq⟩ := UV_Query_effects self queryData drv
    have hno : ∀ e ∈ binds ++ tail,
        Event.isMutexOp e = false ∧ Event.needsMutex e = false := by
      intro e he
      rcases List.mem_append.mp he with h | h
      · exact ⟨(isBind_no_mutex e (hb e h)).1, (isBind_no_mutex e (hb e h)).2.1⟩
      · rcases ht with ht | ht <;> rw [ht] at h <;> simp at h
        subst h; exact ⟨rfl, rfl⟩
    rw [heq, List.append_assoc, coveredByMutex_alloc]
    exact coveredByMutex_of_none _ _ hno false
  · have hcl := coveredByMutex_of_none Event.needsMutex
      (UV_AfterQuery.cleanup queryData hasCaught)
      (fun e he => ⟨(isCleanup_no_mutex e (cleanup_isCleanup queryData hasCaught e he)).1,
        (isCleanup_no_mutex e (cleanup_isCleanup queryData hasCaught e he)).2.1⟩)
    rw [UV_AfterQuery]
    generalize UV_AfterQuery.cleanup queryData hasCaught = c at hcl ⊢
    rcases UV_AfterQuery_deliver_cases self queryData diag with h | h | h <;>
      rw [h] <;> simp [coveredByMutex, Event.needsMutex, hcl]
  · obtain ⟨rest, hrest, heq⟩ := QuerySync_execute_shape self sql params drv
    obtain ⟨tail, htail, hcases⟩ := QuerySync_tail self sql params noResultObject drv
    rw [htail, heq, List.append_assoc, coveredByMutex_alloc, coveredByMutex_skip _ _ hrest]
    rcases hcases with h | h | h <;> rw [h] <;> simp [coveredByMutex, Event.needsMutex]
  · simp [UV_Tables, coveredByMutex, Event.needsMutex]
  · simp [UV_Columns, coveredByMutex, Event.needsMutex]

/-! ## The reference count of the connection object -/

theorem refCountAfter_append (s : List Event) :
    ∀ (before : Int) (t : List Event),
      refCountAfter before (s ++ t) = refCountAfter (refCountAfter before s) t := by
  induction s with
  | nil => intro before t; rfl
  | cons e s ih =>
    intro before t
    cases e <;> simp [refCountAfter, ih]

theorem refCountAfter_eq (s : List Event) :
    ∀ before : Int, refCountAfter before s = before + (refCount s : Int) - (unrefCount s : Int) := by
  induction s with
  | nil => intro before; simp [refCountAfter, refCount, unrefCount]
  | cons e s ih =>
    intro before
    cases e <;> simp [refCountAfter, ih, refCount, unrefCount] <;> omega

theorem refCount_append (s t : List Event) : refCount (s ++ t) = refCount s + refCount t := by
  simp [refCount]

theorem unrefCount_append (s t : List Event) :
    unrefCount (s ++ t) = unrefCount s + unrefCount t := by
  simp [unrefCount]

theorem refs_of_isBind (t : List Event) (h : ∀ e ∈ t, Event.isBind e = true) :
    refCount t = 0 ∧ unrefCount t = 0 := by
  constructor
  · simp only [refCount, List.count_eq_zero]
    intro hm
    exact (isBind_no_mutex _ (h _ hm)).2.2.1 rfl
  · simp only [unrefCount, List.count_eq_zero]
    intro hm
    exact (isBind_no_mutex _ (h _ hm)).2.2.2 rfl

/-- The worker function `UV_Query` neither takes nor releases a reference, on
any work data. -/
theorem refs_UV_Query (self : ODBCConnection) (data : query_work_data) (drv : Driver) :
    refCount (UV_Query self data drv).2 = 0 ∧ unrefCount (UV_Query self data drv).2 = 0 := by
  obtain ⟨binds, tail, hb, ht, heq⟩ := UV_Query_effects self data drv
  have hbind := refs_of_isBind binds hb
  rw [heq]
  constructor
  · rw [refCount_append, refCount_append, hbind.1]
    rcases ht with ht | ht <;> rw [ht] <;> rfl
  · rw [unrefCount_append, unrefCount_append, hbind.2]
    rcases ht with ht | ht <;> rw [ht] <;> rfl

/-- The completion `UV_AfterQuery` releases exactly one reference and takes
none, for every input. -/
theorem refs_UV_AfterQuery (self : ODBCConnection) (data : query_work_data)
    (diag : List DiagRec) (hasCaught : Bool) :
    refCount (UV_AfterQuery self data diag hasCaught) = 0 ∧
    unrefCount (UV_AfterQuery self data diag hasCaught) = 1 := by
  have hfr : refCount (freeParameters data.params data.paramCount) = 0 ∧
      unrefCount (freeParameters data.params data.paramCount) = 0 := by
    constructor
    · simp only [refCount, List.count_eq_zero]
      intro hm
      have := freeParameters_isBufferRelease _ _ _ hm
      simp [Event.isBufferRelease] at this
    · simp only [unrefCount, List.count_eq_zero]
      intro hm
      have := freeParameters_isBufferRelease _ _ _ hm
      simp [Event.isBufferRelease] at this
  have hcl : refCount (UV_AfterQuery.cleanup data hasCaught) = 0 ∧
      unrefCount (UV_AfterQuery.cleanup data hasCaught) = 1 := by
    unfold UV_AfterQuery.cleanup
    generalize freeParameters data.params data.paramCount = fp at hfr
    have h1 : List.count Event.Ref fp = 0 := hfr.1
    have h2 : List.count Event.Unref fp = 0 := hfr.2
    constructor
    · by_cases hp : data.paramCount = 0 <;> cases hasCaught <;>
        simp [hp, fatalIfCaught, refCount, h1]
    · by_cases hp : data.paramCount = 0 <;> cases hasCaught <;>
        simp [hp, fatalIfCaught, unrefCount, h2]
  rw [UV_AfterQuery, refCount_append, unrefCount_append, hcl.1, hcl.2]
  rcases UV_AfterQuery_deliver_cases self data diag with h | h | h <;>
    rw [h] <;> exact ⟨rfl, rfl⟩

/-- The value of `Query` on an accepted argument list, as a pair. -/
theorem Query_of_accepted (self : ODBCConnection) (args : List JsArg)
    (h : acceptedQueryShape args = true) :
    ∃ data, Query self args =
      (Except.ok data, [Event.uv_queue_work Work.UV_Query, Event.Ref]) := by
  obtain ⟨⟨data, hd⟩, ht⟩ := (Query_accepts_or_throws self args).1 h
  exact ⟨data, Prod.ext hd ht⟩

/-- The value of `Query` on a rejected argument list, as a pair. -/
theorem Query_of_rejected (self : ODBCConnection) (args : List JsArg)
    (h : acceptedQueryShape args = false) :
    ∃ msg, Query self args = (Except.error (JsValue.typeError msg), []) := by
  obtain ⟨⟨msg, hd⟩, ht⟩ := (Query_accepts_or_throws self args).2 h
  exact ⟨msg, Prod.ext hd ht⟩

/-- The references taken and released by each part of one async call: the
entry point takes as many as the completion releases, one or none, and nothing
else takes or releases any. -/
theorem run_refs (self : ODBCConnection) (op : Submission) :
    refCount (Submission.run self op).submit = unrefCount (Submission.run self op).complete ∧
    refCount (Submission.run self op).submit ≤ 1 ∧
    unrefCount (Submission.run self op).submit = 0 ∧
    refCount (Submission.run self op).work = 0 ∧
    unrefCount (Submission.run self op).work = 0 ∧
    refCount (Submission.run self op).complete = 0 := by
  cases op with
  | «open» connection drv hasCaught =>
    have hw : refCount (UV_Open self (Open self connection).1 drv).2.2 = 0 ∧
        unrefCount (UV_Open self (Open self connection).1 drv).2.2 = 0 := by
      constructor <;>
        by_cases h1 : self.connectTimeout > 0 <;> by_cases h2 : self.loginTimeout > 0 <;>
        cases hc : SQL_SUCCEEDED drv.rConnect <;>
        simp [UV_Open, hc, timeoutAttrs, h1, h2, refCount, unrefCount]
    have ha : ∀ (c : ODBCConnection) (d : open_connection_work_data),
        refCount (UV_AfterOpen c d drv.diag hasCaught).2 = 0 ∧
        unrefCount (UV_AfterOpen c d drv.diag hasCaught).2 = 1 := by
      intro c d
      constructor <;> by_cases h : d.result = 0 <;> cases hasCaught <;>
        simp [UV_AfterOpen, fatalIfCaught, h, refCount, unrefCount]
    simp only [Submission.run]
    exact ⟨by rw [(ha _ _).2]; rfl, by simp [refCount, Open, Close, CreateStatement], rfl, hw.1, hw.2, (ha _ _).1⟩
  | close hasCaught =>
    have hw : refCount (UV_Close self (Close self).1).2.2 = 0 ∧
        unrefCount (UV_Close self (Close self).1).2.2 = 0 := by
      constructor <;> by_cases h : self.m_hDBC = 0 <;>
        simp [UV_Close, Free, h, refCount, unrefCount]
    have ha : ∀ (c : ODBCConnection) (d : close_connection_work_data),
        refCount (UV_AfterClose c d hasCaught).2 = 0 ∧
        unrefCount (UV_AfterClose c d hasCaught).2 = 1 := by
      intro c d
      constructor <;> by_cases h : d.result = 0 <;> cases hasCaught <;>
        simp [UV_AfterClose, fatalIfCaught, h, refCount, unrefCount]
    simp only [Submission.run]
    exact ⟨by rw [(ha _ _).2]; rfl, by simp [refCount, Open, Close, CreateStatement], rfl, hw.1, hw.2, (ha _ _).1⟩
  | createStatement drv hasCaught =>
    simp only [Submission.run]
    refine ⟨?_, by simp [refCount, Open, Close, CreateStatement], rfl, rfl, rfl, ?_⟩ <;> cases hasCaught <;> rfl
  | query args drv hasCaught =>
    cases hs : acceptedQueryShape args with
    | true =>
      obtain ⟨data, hq⟩ := Query_of_accepted self args hs
      have hw := refs_UV_Query self data drv
      have ha := refs_UV_AfterQuery self (UV_Query self data drv).1 drv.diag hasCaught
      simp only [Submission.run, hq]
      exact ⟨by rw [ha.2]; rfl, by simp [refCount, Open, Close, CreateStatement], rfl, hw.1, hw.2, ha.1⟩
    | false =>
      obtain ⟨msg, hq⟩ := Query_of_rejected self args hs
      simp only [Submission.run, hq]
      exact ⟨rfl, by simp [refCount, Open, Close, CreateStatement], rfl, rfl, rfl, rfl⟩
  | tables a b c d dataAllocated drv hasCaught =>
    cases dataAllocated with
    | false =>
      simp only [Submission.run, Tables, Bool.not_true, Bool.not_false, Bool.false_eq_true, if_true, if_false]
      exact ⟨rfl, by simp [refCount, Open, Close, CreateStatement], rfl, rfl, rfl, rfl⟩
    | true =>
      have ha := fun data => refs_UV_AfterQuery self (UV_Tables self data drv).1 drv.diag hasCaught
      simp only [Submission.run, Tables, Bool.not_true, Bool.not_false, Bool.false_eq_true, if_true, if_false]
      exact ⟨by rw [(ha _).2]; rfl, by simp [refCount, Open, Close, CreateStatement], rfl, rfl, rfl, (ha _).1⟩
  | columns a b c d dataAllocated drv hasCaught =>
    cases dataAllocated with
    | false =>
      simp only [Submission.run, Columns, Bool.not_true, Bool.not_false, Bool.false_eq_true, if_true, if_false]
      exact ⟨rfl, by simp [refCount, Open, Close, CreateStatement], rfl, rfl, rfl, rfl⟩
    | true =>
      have ha := fun data => refs_UV_AfterQuery self (UV_Columns self data drv).1 drv.diag hasCaught
      simp only [Submission.run, Columns, Bool.not_true, Bool.not_false, Bool.false_eq_true, if_true, if_false]
      exact ⟨by rw [(ha _).2]; rfl, by simp [refCount, Open, Close, CreateStatement], rfl, rfl, rfl, (ha _).1⟩
  | beginTransaction dataAllocated drv cast hasCaught =>
    have ha : ∀ (d : query_work_data),
        refCount (UV_AfterBeginTransaction self cast d drv.diag hasCaught) = 0 ∧
        unrefCount (UV_AfterBeginTransaction self cast d drv.diag hasCaught) = 0 := by
      intro d
      constructor <;> cases h : SQL_SUCCEEDED (cast d).result <;> cases hasCaught <;>
        simp [UV_AfterBeginTransaction, fatalIfCaught, h, refCount, unrefCount]
    cases dataAllocated with
    | false =>
      simp only [Submission.run, BeginTransaction, Bool.not_true, Bool.not_false, Bool.false_eq_true, if_true, if_false]
      exact ⟨rfl, by simp [refCount, Open, Close, CreateStatement], rfl, rfl, rfl, rfl⟩
    | true =>
      simp only [Submission.run, BeginTransaction, Bool.not_true, Bool.not_false, Bool.false_eq_true, if_true, if_false]
      exact ⟨by rw [(ha _).2]; rfl, by simp [refCount, Open, Close, CreateStatement], rfl, rfl, rfl, (ha _).1⟩
  | endTransaction rollback dataAllocated drv cast hasCaught =>
    have ha : ∀ (d : query_work_data),
        refCount (UV_AfterEndTransaction self cast d drv.diag hasCaught) = 0 ∧
        unrefCount (UV_AfterEndTransaction self cast d drv.diag hasCaught) = 0 := by
      intro d
      constructor <;> cases h : SQL_SUCCEEDED (cast d).result <;> cases hasCaught <;>
        simp [UV_AfterEndTransaction, fatalIfCaught, h, refCount, unrefCount]
    cases dataAllocated with
    | false =>
      simp only [Submission.run, EndTransaction, Bool.not_true, Bool.not_false, Bool.false_eq_true, if_true, if_false]
      exact ⟨rfl, by simp [refCount, Open, Close, CreateStatement], rfl, rfl, rfl, rfl⟩
    | true =>
      simp only [Submission.run, EndTransaction, Bool.not_true, Bool.not_false, Bool.false_eq_true, if_true, if_false]
      exact ⟨by rw [(ha _).2]; rfl, by simp [refCount, Open, Close, CreateStatement], rfl, rfl, rfl, (ha _).1⟩

/-- Over the whole of one async call, the references taken and the references
released both equal the number taken by the entry point. -/
theorem run_effects_refs (self : ODBCConnection) (op : Submission) :
    refCount (Submission.run self op).effects = refCount (Submission.run self op).submit ∧
    unrefCount (Submission.run self op).effects = refCount (Submission.run self op).submit := by
  obtain ⟨h1, _, h3, h4, h5, h6⟩ := run_refs self op
  simp only [Lifecycle.effects, refCount_append, unrefCount_append, h3, h4, h5, h6, ← h1]
  omega

/-- One async call, submitted and completed, leaves the reference count where
it was. -/
theorem run_refCountAfter (self : ODBCConnection) (op : Submission) (before : Int) :
    refCountAfter before (Submission.run self op).effects = before := by
  rw [refCountAfter_eq, (run_effects_refs self op).1, (run_effects_refs self op).2]
  omega

/-- Claim C22: the reference count of the connection object is balanced. Open,
Close, CreateStatement, an accepted Query, Tables and Columns take exactly one
reference in the entry point and release exactly one in the completion, and
neither the worker nor any other step takes or releases one; BeginTransaction
and EndTransaction take and release none; a Query whose arguments are rejected
takes and releases none and queues nothing. Hence after any sequence of
submitted and completed operations the count equals its value before. -/
theorem C22_reference_count_balance :
    (∀ (self : ODBCConnection) (connection : String) (drv : Driver) (hasCaught : Bool),
      refCount (Submission.run self (Submission.open connection drv hasCaught)).submit = 1 ∧
      unrefCount (Submission.run self (Submission.open connection drv hasCaught)).complete = 1 ∧
      refCount (Submission.run self (Submission.open connection drv hasCaught)).effects = 1 ∧
      unrefCount (Submission.run self (Submission.open connection drv hasCaught)).effects = 1) ∧
    (∀ (self : ODBCConnection) (hasCaught : Bool),
      refCount (Submission.run self (Submission.close hasCaught)).submit = 1 ∧
      unrefCount (Submission.run self (Submission.close hasCaught)).complete = 1 ∧
      refCount (Submission.run self (Submission.close hasCaught)).effects = 1 ∧
      unrefCount (Submission.run self (Submission.close hasCaught)).effects = 1) ∧
    (∀ (self : ODBCConnection) (drv : Driver) (hasCaught : Bool),
      refCount (Submission.run self (Submission.createStatement drv hasCaught)).submit = 1 ∧
      unrefCount (Submission.run self (Submission.createStatement drv hasCaught)).complete = 1 ∧
      refCount (Submission.run self (Submission.createStatement drv hasCaught)).effects = 1 ∧
      unrefCount (Submission.run self (Submission.createStatement drv hasCaught)).effects = 1) ∧
    (∀ (self : ODBCConnection) (args : List JsArg) (drv : Driver) (hasCaught : Bool),
      acceptedQueryShape args = true →
      refCount (Submission.run self (Submission.query args drv hasCaught)).submit = 1 ∧
      unrefCount (Submission.run self (Submission.query args drv hasCaught)).complete = 1 ∧
      refCount (Submission.run self (Submission.query args drv hasCaught)).effects = 1 ∧
      unrefCount (Submission.run self (Submission.query args drv hasCaught)).effects = 1) ∧
    (∀ (self : ODBCConnection) (args : List JsArg) (drv : Driver) (hasCaught : Bool),
      acceptedQueryShape args = false →
      (Submission.run self (Submission.query args drv hasCaught)).effects = []) ∧
    acceptedQueryShape [JsArg.string "select 1", JsArg.function] = true ∧
    acceptedQueryShape [JsArg.function] = false ∧
    (∀ (self : ODBCConnection) (catalog schema table type : String) (drv : Driver)
        (hasCaught : Bool),
      refCount (Submission.run self
        (Submission.tables catalog schema table type true drv hasCaught)).submit = 1 ∧
      unrefCount (Submission.run self
        (Submission.tables catalog schema table type true drv hasCaught)).complete = 1 ∧
      refCount (Submission.run self
        (Submission.tables catalog schema table type true drv hasCaught)).effects = 1 ∧
      unrefCount (Submission.run self
        (Submission.tables catalog schema table type true drv hasCaught)).effects = 1) ∧
    (∀ (self : ODBCConnection) (catalog schema table column : String) (drv : Driver)
        (hasCaught : Bool),
      refCount (Submission.run self
        (Submission.columns catalog schema table column true drv hasCaught)).submit = 1 ∧
      unrefCount (Submission.run self
        (Submission.columns catalog schema table column true drv hasCaught)).complete = 1 ∧
      refCount (Submission.run self
        (Submission.columns catalog schema table column true drv hasCaught)).effects = 1 ∧
      unrefCount (Submission.run self
        (Submission.columns catalog schema table column true drv hasCaught)).effects = 1) ∧
    (∀ (self : ODBCConnection) (dataAllocated : Bool) (drv : Driver) (cast : WorkDataCast)
        (hasCaught : Bool),
      refCount (Submission.run self
        (Submission.beginTransaction dataAllocated drv cast hasCaught)).effects = 0 ∧
      unrefCount (Submission.run self
        (Submission.beginTransaction dataAllocated drv cast hasCaught)).effects = 0) ∧
    (∀ (self : ODBCConnection) (rollback dataAllocated : Bool) (drv : Driver)
        (cast : WorkDataCast) (hasCaught : Bool),
      refCount (Submission.run self
        (Submission.endTransaction rollback dataAllocated drv cast hasCaught)).effects = 0 ∧
      unrefCount (Submission.run self
        (Submission.endTransaction rollback dataAllocated drv cast hasCaught)).effects = 0) ∧
    (∀ (self : ODBCConnection) (op : Submission),
      refCount (Submission.run self op).work = 0 ∧
      unrefCount (Submission.run self op).work = 0 ∧
      unrefCount (Submission.run self op).submit = 0 ∧
      refCount (Submission.run self op).complete = 0) ∧
    (∀ (ops : List Submission) (self : ODBCConnection) (before : Int),
      refCountAfter before (runAll self ops).2 = before) := by
  have key : ∀ (self : ODBCConnection) (op : Submission),
      refCount (Submission.run self op).submit = 1 →
      refCount (Submission.run self op).submit = 1 ∧
      unrefCount (Submission.run self op).complete = 1 ∧
      refCount (Submission.run self op).effects = 1 ∧
      unrefCount (Submission.run self op).effects = 1 := by
    intro self op h
    have h1 := (run_refs self op).1
    have h2 := run_effects_refs self op
    exact ⟨h, by omega, by omega, by omega⟩
  have zero : ∀ (self : ODBCConnection) (op : Submission),
      refCount (Submission.run self op).submit = 0 →
      refCount (Submission.run self op).effects = 0 ∧
      unrefCount (Submission.run self op).effects = 0 := by
    intro self op h
    have h2 := run_effects_refs self op
    exact ⟨by omega, by omega⟩
  refine ⟨?_, ?_, ?_, ?_, ?_, by decide, by decide, ?_, ?_, ?_, ?_, ?_, ?_⟩
  · intro self connection drv hasCaught
    exact key _ _ (by simp [Submission.run, Open, refCount])
  · intro self hasCaught
    exact key _ _ (by simp [Submission.run, Close, refCount])
  · intro self drv hasCaught
    exact key _ _ (by simp [Submission.run, CreateStatement, refCount])
  · intro self args drv hasCaught hs
    obtain ⟨data, hq⟩ := Query_of_accepted self args hs
    exact key _ _ (by simp [Submission.run, hq, refCount])
  · intro self args drv hasCaught hs
    obtain ⟨msg, hq⟩ := Query_of_rejected self args hs
    simp [Submission.run, hq, Lifecycle.effects]
  · intro self catalog schema table type drv hasCaught
    exact key _ _ (by simp [Submission.run, Tables, refCount])
  · intro self catalog schema table column drv hasCaught
    exact key _ _ (by simp [Submission.run, Columns, refCount])
  · intro self dataAllocated drv cast hasCaught
    exact zero _ _ (by cases dataAllocated <;> simp [Submission.run, BeginTransaction, refCount])
  · intro self rollback dataAllocated drv cast hasCaught
    exact zero _ _ (by cases dataAllocated <;> simp [Submission.run, EndTransaction, refCount])
  · intro self op
    obtain ⟨_, _, h3, h4, h5, h6⟩ := run_refs self op
    exact ⟨h4, h5, h3, h6⟩
  · intro ops
    induction ops with
    | nil => intro self before; rfl
    | cons op rest ih =>
      intro self before
      simp only [runAll]
      rw [refCountAfter_append, run_refCountAfter, ih]

end NodeOdbc
